import Mathlib

/-!
E-commerce backend: authentication and authorization core.

A shallow embedding of the Go backend (packages `config`, `models`, `utils`,
`middleware`, `handlers`, `server`) and the properties of its password hasher,
token manager, authentication middleware and role gate, of registration and login, of
the configuration loader, of the product catalogue (listing, update, image uploads) and
of the slider (images, their order, and the slider settings).

Conventions of the embedding.

* Go strings are `String`; string algorithms work on the character list.
* Instants and durations (`time.Time`, `time.Duration`) are integers in one
  common unit; the clock is an explicit argument `now`.
* Randomness (the salt of the hasher) is an explicit argument.
* A Go `(value, error)` result is an `Except`.
* The values of gin's request context (`interface{}`) are the type `Any`,
  which keeps the dynamic type next to the value.
* What a handler does to the outside world is recorded as a list of `Effect`s.
* A handler that changes a collection returns the store after the request next to the
  response; where a claim speaks of failures of the database or the file system, the
  answers of those calls are arguments of the handler.
-/

namespace Ecommerce

/-! ## Definitions -/

deriving instance DecidableEq for Except

/-! ### Go standard library: `strconv`, `strings`, `path/filepath` -/

/-- The outcome of the digit loop of `strconv.ParseUint`. -/
inductive NumResult where
  | ok (n : Nat)
  | syntaxError
  | rangeError
deriving DecidableEq, Repr

/-- The digit loop of `strconv.ParseUint` in base 10 with 64 bits: the characters are
read from the left; a character that is not a decimal digit is a syntax error, a value
beyond `2^64 - 1` is a range error, whichever comes first. -/
def parseUintLoop : Nat → List Char → NumResult
  | n, [] => .ok n
  | n, ch :: rest =>
    if ¬ ch.isDigit then .syntaxError
    else if n ≥ 1844674407370955162 then .rangeError
    else if n * 10 + (ch.toNat - 48) > 18446744073709551615 then .rangeError
    else parseUintLoop (n * 10 + (ch.toNat - 48)) rest

/-- The largest Go `int` on a 64-bit platform. -/
def maxInt : Int := 9223372036854775807

/-- The smallest Go `int` on a 64-bit platform. -/
def minInt : Int := -9223372036854775808

/-- The value that `strconv.Atoi` returns (its error is dropped by the callers embedded
here): the integer written in the string; 0 on a syntax error; the largest or smallest
`int` when the number is out of range. -/
def Atoi (s : String) : Int :=
  match s.data with
  | [] => 0
  | ch :: rest =>
    let neg := decide (ch = '-')
    let digits := if ch = '-' ∨ ch = '+' then rest else ch :: rest
    if digits = [] then 0
    else
      match parseUintLoop 0 digits with
      | .syntaxError => 0
      | .rangeError => if neg then minInt else maxInt
      | .ok n =>
        if neg then (if n > 9223372036854775808 then minInt else -(n : Int))
        else (if n ≥ 9223372036854775808 then maxInt else (n : Int))

/-- The number that a run of decimal digits denotes. -/
def decimalValue (digits : List Char) : Nat :=
  digits.foldl (fun acc ch => acc * 10 + (ch.toNat - 48)) 0

/-- The integer that a text denotes, read as a decimal integer without regard to any
machine range: an optional sign followed by one or more decimal digits; `none` for any
other text. This is the reading of a query parameter that the pagination claim refers
to, to be compared with `Atoi`. -/
def denotedInt (s : String) : Option Int :=
  match s.data with
  | [] => none
  | ch :: rest =>
    let digits := if ch = '-' ∨ ch = '+' then rest else ch :: rest
    if digits ≠ [] ∧ digits.all Char.isDigit = true then
      some (if ch = '-' then -(decimalValue digits : Int) else (decimalValue digits : Int))
    else none

/-- The value of an `int` expression on a 64-bit platform: the mathematical value wrapped
into the range of `int`. -/
def wrapInt (x : Int) : Int :=
  (x + 9223372036854775808) % 18446744073709551616 - 9223372036854775808

/-- The function `unicode.ToLower` on one character. The letters A to Z, the letter
U+0130 (lower case `i`) and the letter U+212A (lower case `k`) are the characters whose
lower case is an ASCII letter; any other character has a lower case outside ASCII and is
kept as it is, which no comparison with ASCII text can tell apart. -/
def toLowerRune (ch : Char) : Char :=
  if ch = Char.ofNat 0x130 then 'i'
  else if ch = Char.ofNat 0x212A then 'k'
  else ch.toLower

/-- The function `strings.ToLower`. -/
def ToLower (s : String) : String :=
  String.mk (s.data.map toLowerRune)

/-- The loop of `filepath.Ext`, from the end of the path towards its start: it stops at
a path separator with no extension, and at a dot with the suffix that starts there;
`suffix` is what was passed over. -/
def extLoop : List Char → List Char → List Char
  | [], _ => []
  | ch :: before, suffix =>
    if ch = '/' then []
    else if ch = '.' then '.' :: suffix
    else extLoop before (ch :: suffix)

/-- The function `filepath.Ext` (with `/` as the path separator): the suffix that starts
at the last dot of the last element of the path, empty when there is no dot. -/
def Ext (path : String) : String :=
  String.mk (extLoop path.data.reverse [])

/-! ### Package `utils`: password hasher -/

/-- Modelled from the spec: the text of a salt. `utils/password.go` is missing from the
sources; the spec asks for a salted hash whose output differs across calls, so the random
bits drawn by one call are an argument, written here as a run of the characters 0 and 1. -/
def saltText (salt : List Bool) : List Char :=
  salt.map fun b => if b then '1' else '0'

/-- Modelled from the spec: the one-way transform of the Password Hasher (§4.1). It belongs
to an external hashing library; it is idealised as collision-free: the digest of a plaintext
under a salt is represented by the salted plaintext itself, so that two digests under one
salt are equal exactly when the plaintexts are. -/
def digest (salt plaintext : List Char) : List Char :=
  salt ++ plaintext

/-- Modelled from the spec: `HashPassword` of the missing `utils/password.go`, the spec's
`Hash(plaintext) -> hash_string` (§4.1): a salted one-way transform that never fails. The
hash string is `$salt$digest`. -/
def HashPassword (salt : List Bool) (password : String) : Except String String :=
  .ok (String.mk ('$' :: saltText salt ++ '$' :: digest (saltText salt) password.data))

/-- Reads the salt of a hash string: a run of the characters 0 and 1 closed by a dollar
sign. Returns the salt and what follows the dollar sign. -/
def splitSalt : List Char → Option (List Char × List Char)
  | [] => none
  | c :: cs =>
    if c = '$' then some ([], cs)
    else if c = '0' ∨ c = '1' then
      match splitSalt cs with
      | some (a, b) => some (c :: a, b)
      | none => none
    else none

/-- Modelled from the spec: the structure of a hash string, `$salt$digest`. Any other
string is a malformed hash (§4.1); the empty string is one of them. -/
def parseHash (hash : String) : Option (List Char × List Char) :=
  match hash.data with
  | '$' :: rest => splitSalt rest
  | _ => none

/-- Modelled from the spec: `CheckPasswordHash` of the missing `utils/password.go`, the
spec's `Verify(plaintext, hash_string) -> bool` (§4.1): true iff the plaintext is the input
that produced the hash; a malformed hash gives false, never an error. -/
def CheckPasswordHash (password hash : String) : Bool :=
  match parseHash hash with
  | none => false
  | some (salt, d) => decide (d = digest salt password.data)

/-! ### Package `config` -/

/-- The type `config.JWTConfig`: the signing secret and the token lifetime
(a `time.Duration`, here an integer number of clock units). -/
structure JWTConfig where
  Secret : String
  Expiration : Int
deriving DecidableEq, Repr

/-- The type `config.ServerConfig`. -/
structure ServerConfig where
  Port : String
  ReadTimeout : Int
  WriteTimeout : Int
  IdleTimeout : Int
deriving DecidableEq, Repr

/-- The type `config.DatabaseConfig`. -/
structure DatabaseConfig where
  URI : String
  Database : String
  Timeout : Int
  MaxPoolSize : Nat
deriving DecidableEq, Repr

/-- The type `config.Config`. -/
structure Config where
  Server : ServerConfig
  Database : DatabaseConfig
  JWT : JWTConfig
deriving DecidableEq, Repr

/-- The constant `time.Second`, in nanoseconds, the unit of a `time.Duration`. -/
def Second : Int := 1000000000

/-- The constant `time.Hour`, in nanoseconds. -/
def Hour : Int := 3600 * Second

/-- The function `os.Getenv` on a process environment, given as the list of the variables
that are set: the value of the variable, empty when it is not set. -/
def Getenv (env : List (String × String)) (key : String) : String :=
  (env.lookup key).getD ""

/-- The function `config.getEnv`. -/
def getEnv (env : List (String × String)) (key defaultValue : String) : String :=
  if Getenv env key ≠ "" then Getenv env key else defaultValue

/-- The function `config.getDurationEnv`. The parser `time.ParseDuration` of the standard
library is the argument `ParseDuration` (`none` for its error). -/
def getDurationEnv (ParseDuration : String → Option Int) (env : List (String × String))
    (key : String) (defaultValue : Int) : Int :=
  if Getenv env key ≠ "" then
    match ParseDuration (Getenv env key) with
    | some duration => duration
    | none => defaultValue
  else defaultValue

/-- The function `strconv.ParseUint` in base 10 with 64 bits (`none` for its error): a
non-empty run of decimal digits whose value is at most `2^64 - 1`. -/
def ParseUint (s : String) : Option Nat :=
  if s.data = [] then none
  else
    match parseUintLoop 0 s.data with
    | .ok n => some n
    | _ => none

/-- The function `config.getUint64Env`. -/
def getUint64Env (env : List (String × String)) (key : String) (defaultValue : Nat) : Nat :=
  if Getenv env key ≠ "" then
    match ParseUint (Getenv env key) with
    | some parsed => parsed
    | none => defaultValue
  else defaultValue

/-- The function `config.Load`, on the process environment `env`. -/
def Load (ParseDuration : String → Option Int) (env : List (String × String)) : Config :=
  { Server :=
      { Port := getEnv env "PORT" "8080",
        ReadTimeout := getDurationEnv ParseDuration env "READ_TIMEOUT" (10 * Second),
        WriteTimeout := getDurationEnv ParseDuration env "WRITE_TIMEOUT" (10 * Second),
        IdleTimeout := getDurationEnv ParseDuration env "IDLE_TIMEOUT" (120 * Second) },
    Database :=
      { URI := getEnv env "MONGODB_URI" "mongodb://localhost:27017",
        Database := getEnv env "DATABASE_NAME" "ecommerce",
        Timeout := getDurationEnv ParseDuration env "DB_TIMEOUT" (10 * Second),
        MaxPoolSize := getUint64Env env "DB_MAX_POOL_SIZE" 100 },
    JWT :=
      { Secret := getEnv env "JWT_SECRET" "default-secret-key",
        Expiration := getDurationEnv ParseDuration env "JWT_EXPIRATION" (24 * Hour) } }

/-! ### Package `utils`: token manager -/

/-- Modelled from the spec: the `JWTManager` of the missing `utils/jwt.go`, the spec's
Token Manager (§4.2): a single shared secret and a configured expiration duration. -/
structure JWTManager where
  secretKey : String
  expiration : Int
deriving DecidableEq, Repr

/-- Modelled from the spec: `NewJWTManager` of the missing `utils/jwt.go`; the manager
takes the configuration value injected at construction (§6, §9). -/
def NewJWTManager (cfg : JWTConfig) : JWTManager :=
  { secretKey := cfg.Secret, expiration := cfg.Expiration }

/-- Modelled from the spec: the `Claims` of the missing `utils/jwt.go`, the decoded token
payload `{subject_id, email, role, issued_at, expires_at}` (§3, §4.2); the field names are
the ones the tests read (`UserID`, `Email`, `Role`). -/
structure Claims where
  UserID : String
  Email : String
  Role : String
  IssuedAt : Int
  ExpiresAt : Int
deriving DecidableEq, Repr

/-- Modelled from the spec: the failure classes of `Verify` (§4.2): `InvalidToken`
(signature, structure, empty token) and `TokenExpired`. -/
inductive TokenError where
  | InvalidToken
  | TokenExpired
deriving DecidableEq, Repr

/-- Decimal digits of `n`, least significant first; `fuel` bounds the number of digits. -/
def digitsFuel : Nat → Nat → List Nat
  | 0, _ => []
  | fuel + 1, n => if n = 0 then [] else n % 10 :: digitsFuel fuel (n / 10)

/-- The character of a decimal digit. -/
def digitChar (d : Nat) : Char :=
  Char.ofNat (48 + d)

/-- Decimal text of a natural number, most significant digit first. -/
def encNat (n : Nat) : List Char :=
  if n = 0 then ['0'] else (digitsFuel n n).reverse.map digitChar

/-- Reads decimal digits up to a closing colon; `acc` is the value read so far. -/
def parseNat : Nat → List Char → Option (Nat × List Char)
  | _, [] => none
  | acc, c :: cs =>
    if c = ':' then some (acc, cs)
    else if c.isDigit then parseNat (10 * acc + (c.toNat - 48)) cs
    else none

/-- Reads a natural number written by `encNat` and closed by a colon, in that spelling
only: the digits are not empty and have no leading zero, the number 0 being the single
digit `0`. -/
def parseCanonical (cs : List Char) : Option (Nat × List Char) :=
  match cs with
  | [] => none
  | c :: rest =>
    if c = ':' then none
    else if c = '0' then
      match rest with
      | ':' :: rest => some (0, rest)
      | _ => none
    else parseNat 0 (c :: rest)

/-- Wire text of an integer: an optional minus sign, the decimal digits, a colon. -/
def encInt (i : Int) : List Char :=
  (if i < 0 then ['-'] else []) ++ (encNat i.natAbs ++ [':'])

/-- Reads an integer written by `encInt`, in that spelling only: the number after a minus
sign is not zero. -/
def parseInt : List Char → Option (Int × List Char)
  | '-' :: cs =>
    match parseCanonical cs with
    | some (n, rest) => if n = 0 then none else some (-(n : Int), rest)
    | none => none
  | cs =>
    match parseCanonical cs with
    | some (n, rest) => some ((n : Int), rest)
    | none => none

/-- Wire text of a string field: its length, a colon, its characters. -/
def encStr (s : String) : List Char :=
  encNat s.data.length ++ ':' :: s.data

/-- Reads a string field written by `encStr`. -/
def parseStr (cs : List Char) : Option (String × List Char) :=
  match parseCanonical cs with
  | some (n, rest) =>
    if n ≤ rest.length then some (String.mk (rest.take n), rest.drop n) else none
  | none => none

/-- Modelled from the spec: the payload of a token on the wire. The spec leaves the
encoding open (§6); this development fixes one: the five claims in order, each
self-delimiting. -/
def encodeClaims (c : Claims) : List Char :=
  encStr c.UserID ++ (encStr c.Email ++ (encStr c.Role ++
    (encInt c.IssuedAt ++ encInt c.ExpiresAt)))

/-- Modelled from the spec: the signing primitive behind the tamper-evident structure of
§4.2. It belongs to an external library; it is idealised: the signature of a message under
a secret is represented by the pair itself, so that signatures agree only when secret and
message do. -/
def mac (secret : String) (msg : List Char) : List Char :=
  secret.data ++ '.' :: msg

/-- Modelled from the spec: the structural check of `Verify` (§3 invariant (c), §4.2):
splits a token string into its claims and its signature; `none` for a malformed or empty
token. The structure is the one that `encodeClaims` writes, in no other spelling: a string
is split only when it is the wire text of the claims read from it, followed by the
signature. -/
def decodeToken (tokenString : String) : Option (Claims × List Char) :=
  match parseStr tokenString.data with
  | none => none
  | some (userID, r1) =>
  match parseStr r1 with
  | none => none
  | some (email, r2) =>
  match parseStr r2 with
  | none => none
  | some (role, r3) =>
  match parseInt r3 with
  | none => none
  | some (iat, r4) =>
  match parseInt r4 with
  | none => none
  | some (exp, sig) =>
    some ({ UserID := userID, Email := email, Role := role,
            IssuedAt := iat, ExpiresAt := exp }, sig)

/-- Modelled from the spec: `GenerateToken` of the missing `utils/jwt.go`, the spec's
`Issue(subject_id, email, role) -> token_string` (§4.2): embeds the identity, the issuance
instant `now` and `expires_at = issued_at + configured_expiration` into a signed
structure. Signing cannot fail in the model, so the result is always `ok`. -/
def GenerateToken (m : JWTManager) (now : Int) (userID email role : String) :
    Except String String :=
  let claims : Claims :=
    { UserID := userID, Email := email, Role := role,
      IssuedAt := now, ExpiresAt := now + m.expiration }
  .ok (String.mk (encodeClaims claims ++ mac m.secretKey (encodeClaims claims)))

/-- Modelled from the spec: `ValidateToken` of the missing `utils/jwt.go`, the spec's
`Verify(token_string) -> Claims | error` (§4.2): `InvalidToken` when the structure is
malformed, the token is empty or the signature does not verify under the manager's
secret; `TokenExpired` when the current time is at or past `expires_at`; otherwise the
decoded claims. -/
def ValidateToken (m : JWTManager) (now : Int) (tokenString : String) :
    Except TokenError Claims :=
  match decodeToken tokenString with
  | none => .error .InvalidToken
  | some (claims, sig) =>
    if sig ≠ mac m.secretKey (encodeClaims claims) then .error .InvalidToken
    else if claims.ExpiresAt ≤ now then .error .TokenExpired
    else .ok claims

/-- Modelled from the spec: a well-formed signed token for a manager (§3): the structure
matches the expected claim set and the signature verifies against the manager's secret. -/
def wellFormedSigned (m : JWTManager) (tokenString : String) : Bool :=
  match decodeToken tokenString with
  | none => false
  | some (claims, sig) => decide (sig = mac m.secretKey (encodeClaims claims))

/-! ### Package `models`: users -/

/-- The type `primitive.ObjectID` of the database driver, kept as its canonical text: 24
lower-case hexadecimal digits. -/
structure ObjectID where
  hex : String
deriving DecidableEq, Repr

/-- The method `ObjectID.Hex`. -/
def ObjectID.Hex (id : ObjectID) : String :=
  id.hex

/-- The function `primitive.ObjectIDFromHex`: accepts exactly the strings of 24
hexadecimal digits, in either case. -/
def ObjectIDFromHex (s : String) : Option ObjectID :=
  if s.data.length = 24 ∧ s.data.all (fun ch => ch.isDigit || ('a' ≤ ch ∧ ch ≤ 'f') ||
      ('A' ≤ ch ∧ ch ≤ 'F')) then
    some { hex := String.mk (s.data.map Char.toLower) }
  else none

/-- The type `models.Role`, a named string type. -/
structure Role where
  val : String
deriving DecidableEq, Repr

/-- The constant `models.RoleUser`. -/
def RoleUser : Role := ⟨"user"⟩

/-- The constant `models.RoleAdmin`. -/
def RoleAdmin : Role := ⟨"admin"⟩

/-- The method `Role.String`. -/
def Role.String (r : Role) : String :=
  r.val

/-- The method `Role.IsValid`. -/
def Role.IsValid (r : Role) : Bool :=
  r = RoleUser || r = RoleAdmin

/-- The type `models.User`. -/
structure User where
  ID : ObjectID
  Email : String
  Password : String
  FirstName : String
  LastName : String
  Role : Role
  IsActive : Bool
  CreatedAt : Int
  UpdatedAt : Int
deriving DecidableEq, Repr

/-- The type `models.UserResponse`: a user without sensitive data. -/
structure UserResponse where
  ID : ObjectID
  Email : String
  FirstName : String
  LastName : String
  Role : Role
  IsActive : Bool
  CreatedAt : Int
  UpdatedAt : Int
deriving DecidableEq, Repr

/-- The method `User.ToResponse`. -/
def User.ToResponse (u : User) : UserResponse :=
  { ID := u.ID, Email := u.Email, FirstName := u.FirstName, LastName := u.LastName,
    Role := u.Role, IsActive := u.IsActive, CreatedAt := u.CreatedAt,
    UpdatedAt := u.UpdatedAt }

/-- The type `models.RegisterRequest`. Its rules are written under the struct tag
`validate`. -/
structure RegisterRequest where
  Email : String
  Password : String
  FirstName : String
  LastName : String
  /-- Modelled from the spec: the role text supplied at registration (§9). `Register` reads
  it as `req.Role`; the declaration of the type in `models/user.go` does not list the
  field. -/
  Role : String
deriving DecidableEq, Repr

/-- The type `models.LoginRequest`. Its rules are written under the struct tag
`validate`. -/
structure LoginRequest where
  Email : String
  Password : String
deriving DecidableEq, Repr

/-! ### Package `models`: products and sliders -/

/-- A Go `float64`, kept as its 64 bits; the code embedded here only carries such values
around. -/
structure Float64 where
  bits : Nat
deriving DecidableEq, Repr

/-- The type `models.ProductCategory`, a named string type. -/
structure ProductCategory where
  val : String
deriving DecidableEq, Repr

/-- The constant `models.CategoryElectronics`. -/
def CategoryElectronics : ProductCategory := ⟨"electronics"⟩

/-- The constant `models.CategoryClothing`. -/
def CategoryClothing : ProductCategory := ⟨"clothing"⟩

/-- The constant `models.CategoryBooks`. -/
def CategoryBooks : ProductCategory := ⟨"books"⟩

/-- The constant `models.CategoryHome`. -/
def CategoryHome : ProductCategory := ⟨"home"⟩

/-- The constant `models.CategorySports`. -/
def CategorySports : ProductCategory := ⟨"sports"⟩

/-- The constant `models.CategoryBeauty`. -/
def CategoryBeauty : ProductCategory := ⟨"beauty"⟩

/-- The constant `models.CategoryToys`. -/
def CategoryToys : ProductCategory := ⟨"toys"⟩

/-- The constant `models.CategoryAutomotive`. -/
def CategoryAutomotive : ProductCategory := ⟨"automotive"⟩

/-- The constant `models.CategoryFood`. -/
def CategoryFood : ProductCategory := ⟨"food"⟩

/-- The constant `models.CategoryOther`. -/
def CategoryOther : ProductCategory := ⟨"other"⟩

/-- The function `models.GetValidCategories`. -/
def GetValidCategories : List ProductCategory :=
  [CategoryElectronics, CategoryClothing, CategoryBooks, CategoryHome, CategorySports,
   CategoryBeauty, CategoryToys, CategoryAutomotive, CategoryFood, CategoryOther]

/-- The loop of `models.IsValidCategory` over the valid categories. -/
def IsValidCategoryLoop (category : String) : List ProductCategory → Bool
  | [] => false
  | validCategory :: more =>
    if validCategory.val = category then true else IsValidCategoryLoop category more

/-- The function `models.IsValidCategory`. -/
def IsValidCategory (category : String) : Bool :=
  IsValidCategoryLoop category GetValidCategories

/-- The type `models.Product`. -/
structure Product where
  ID : ObjectID
  Name : String
  Price : Float64
  Category : ProductCategory
  ImageURL : String
  Description : String
  Specification : String
  Material : String
  InStock : Bool
  CreatedBy : ObjectID
  CreatedAt : Int
  UpdatedAt : Int
deriving DecidableEq, Repr

/-- The type `models.CreateProductRequest`. Its rules are written under the struct tag
`validate`. -/
structure CreateProductRequest where
  Name : String
  Price : Float64
  Category : String
  Description : String
  Specification : String
  Material : String
  InStock : Bool
deriving DecidableEq, Repr

/-- The type `models.ProductResponse`. -/
structure ProductResponse where
  ID : String
  Name : String
  Price : Float64
  Category : String
  ImageURL : String
  Description : String
  Specification : String
  Material : String
  InStock : Bool
  CreatedAt : Int
  UpdatedAt : Int
deriving DecidableEq, Repr

/-- The function `strings.HasPrefix`. -/
def HasPrefix (s start : String) : Bool :=
  start.data.isPrefixOf s.data

/-- The method `Product.ToResponseWithBaseURL`. -/
def Product.ToResponseWithBaseURL (p : Product) (baseURL : String) : ProductResponse :=
  let imageURL :=
    if baseURL ≠ "" ∧ p.ImageURL ≠ "" ∧ ¬ HasPrefix p.ImageURL "http://" ∧
        ¬ HasPrefix p.ImageURL "https://" then
      if HasPrefix p.ImageURL "/" then baseURL ++ p.ImageURL
      else baseURL ++ "/" ++ p.ImageURL
    else p.ImageURL
  { ID := p.ID.Hex, Name := p.Name, Price := p.Price, Category := p.Category.val,
    ImageURL := imageURL, Description := p.Description,
    Specification := p.Specification, Material := p.Material, InStock := p.InStock,
    CreatedAt := p.CreatedAt, UpdatedAt := p.UpdatedAt }

/-- The method `Product.ToResponse`. -/
def Product.ToResponse (p : Product) : ProductResponse :=
  p.ToResponseWithBaseURL ""

/-- The type `models.Slider`. -/
structure Slider where
  ID : ObjectID
  ImageURL : String
  Order : Int
  CreatedBy : ObjectID
  CreatedAt : Int
  UpdatedAt : Int
deriving DecidableEq, Repr

/-- The type `models.SliderResponse`. -/
structure SliderResponse where
  ID : String
  ImageURL : String
  Order : Int
  CreatedAt : Int
  UpdatedAt : Int
deriving DecidableEq, Repr

/-- The method `Slider.ToResponse`. -/
def Slider.ToResponse (s : Slider) : SliderResponse :=
  { ID := s.ID.Hex, ImageURL := s.ImageURL, Order := s.Order, CreatedAt := s.CreatedAt,
    UpdatedAt := s.UpdatedAt }

/-- The method `Slider.ToResponseWithBaseURL`. -/
def Slider.ToResponseWithBaseURL (s : Slider) (baseURL : String) : SliderResponse :=
  let imageURL :=
    if baseURL ≠ "" ∧ s.ImageURL ≠ "" ∧ ¬ HasPrefix s.ImageURL "http://" ∧
        ¬ HasPrefix s.ImageURL "https://" then
      if HasPrefix s.ImageURL "/" then baseURL ++ s.ImageURL
      else baseURL ++ "/" ++ s.ImageURL
    else s.ImageURL
  { ID := s.ID.Hex, ImageURL := imageURL, Order := s.Order, CreatedAt := s.CreatedAt,
    UpdatedAt := s.UpdatedAt }

/-- The type `models.UpdateProductRequest`: every field is a pointer, `none` is `nil`.
Its rules are written under the struct tag `validate`. -/
structure UpdateProductRequest where
  Name : Option String
  Price : Option Float64
  Category : Option String
  Description : Option String
  Specification : Option String
  Material : Option String
  InStock : Option Bool
deriving DecidableEq, Repr

/-- The type `models.SliderSettings`. -/
structure SliderSettings where
  ID : ObjectID
  SlideDuration : Int
  AutoPlay : Bool
  ShowIndicators : Bool
  ShowControls : Bool
  UpdatedAt : Int
deriving DecidableEq, Repr

/-- The type `models.UpdateSliderSettingsRequest`: every field is a pointer, `none` is
`nil`. The field `SlideDuration` has the struct tag `validate:"omitempty,min=1,max=30"`. -/
structure UpdateSliderSettingsRequest where
  SlideDuration : Option Int
  AutoPlay : Option Bool
  ShowIndicators : Option Bool
  ShowControls : Option Bool
deriving DecidableEq, Repr

/-- The type `models.SliderSettingsResponse`. -/
structure SliderSettingsResponse where
  SlideDuration : Int
  AutoPlay : Bool
  ShowIndicators : Bool
  ShowControls : Bool
  UpdatedAt : Int
deriving DecidableEq, Repr

/-! ### The database driver: documents -/

/-- A value of a database document, as far as the code embedded here stores any. -/
inductive BSON where
  | objectID (id : ObjectID)
  | string (s : String)
  | double (x : Float64)
  | int (n : Int)
  | bool (b : Bool)
  | dateTime (t : Int)
deriving DecidableEq, Repr

/-- A document of the database: `bson.M`, keys with their values. A Go map has no order;
the order of the list is the order in which the keys were first assigned. -/
abbrev Document := List (String × BSON)

/-- The assignment `m[key] = value` on a `bson.M`: the value of a key that is present is
replaced, a new key is added. -/
def Document.assign (m : Document) (key : String) (value : BSON) : Document :=
  if m.any (fun kv => kv.1 = key) then
    m.map (fun kv => if kv.1 = key then (key, value) else kv)
  else m ++ [(key, value)]

/-- The statement `if p != nil { m[key] = *p }` for the pointer `p` of a request field:
the value behind the pointer is assigned when the pointer is not `nil`. -/
def Document.assignIf (m : Document) (key : String) (value : Option BSON) : Document :=
  match value with
  | some v => m.assign key v
  | none => m

/-- The result of the command `UpdateOne`, `mongo.UpdateResult`. -/
structure UpdateResult where
  MatchedCount : Int
  ModifiedCount : Int
deriving DecidableEq, Repr

/-! ### The web framework: request context -/

/-- A value of Go type `interface{}` as stored in the request context: the dynamic type
together with the value. Two such values are equal in Go only when both agree. -/
inductive Any where
  | str (s : String)
  | role (r : Role)
  | int (n : Int)
  | bool (b : Bool)
  | nil
deriving DecidableEq, Repr

/-- What a handler does to the world outside the request context. The command `UpdateOne`
is recorded with its filter, with the `$set` document of its update and with its upsert
option. -/
inductive Effect where
  | validateToken (tokenString : String)
  | handler (name : String)
  | db (collection operation : String)
  | fs (operation path : String)
  | updateOne (collection : String) (filter : Document) (set : Document) (upsert : Bool)
deriving DecidableEq, Repr

/-- The body of a JSON response. -/
inductive Body where
  | empty
  | error (msg : String)
  | message (msg : String)
  | user (u : UserResponse)
  | auth (token : String) (user : UserResponse)
  | login (token : String) (role : Role)
  | productList (products : List ProductResponse) (total : Int) (page : Int) (limit : Int)
  | categories (categories : List String)
  | product (message : String) (product : ProductResponse)
  | imageUploaded (message image_url : String)
  | imageWarning (message image_url warning : String)
  | errorDetails (error details : String)
  | slider (message : String) (slider : SliderResponse)
  | sliders (slides : List SliderResponse) (settings : SliderSettingsResponse)
      (total_slides : Int)
  | settings (settings : SliderSettingsResponse)
  | settingsUpdated (message : String) (settings : SliderSettingsResponse)
  | productOnly (product : ProductResponse)
  | sliderList (sliders : List SliderResponse) (total_slides : Int)
deriving DecidableEq, Repr

/-- An HTTP request, as far as the handlers of this development read it. -/
structure Request where
  Method : String
  Path : String
  Header : List (String × String)
deriving DecidableEq, Repr

/-- The request context `gin.Context`: the request, the key-value bag of the request, the
response written so far, whether the chain was aborted, and the effects so far. -/
structure Context where
  Request : Request
  Keys : List (String × Any)
  status : Option Nat
  body : Body
  aborted : Bool
  effects : List Effect
deriving DecidableEq, Repr

/-- A handler of the framework, `gin.HandlerFunc`. -/
abbrev HandlerFunc := Context → Context

/-- The method `Context.GetHeader`: the value of a request header, empty when the header
is absent. -/
def Context.GetHeader (c : Context) (key : String) : String :=
  (c.Request.Header.lookup key).getD ""

/-- The method `Context.Get`: the value stored under a key, if any. -/
def Context.Get (c : Context) (key : String) : Option Any :=
  c.Keys.lookup key

/-- The method `Context.Set`: stores a value under a key. -/
def Context.Set (c : Context) (key : String) (value : Any) : Context :=
  { c with Keys := (key, value) :: c.Keys }

/-- The method `Context.JSON`: writes the response. -/
def Context.JSON (c : Context) (code : Nat) (obj : Body) : Context :=
  { c with status := some code, body := obj }

/-- The method `Context.Abort`: the handlers still pending are not called. -/
def Context.Abort (c : Context) : Context :=
  { c with aborted := true }

/-- Records an effect on the world outside the context. -/
def Context.emit (c : Context) (e : Effect) : Context :=
  { c with effects := c.effects ++ [e] }

/-- The context the framework builds for an incoming request. -/
def newContext (req : Request) : Context :=
  { Request := req, Keys := [], status := none, body := .empty, aborted := false,
    effects := [] }

/-- The framework's handler chain: the handlers run in order until one aborts. -/
def runChain : List HandlerFunc → Context → Context
  | [], c => c
  | h :: hs, c => if c.aborted then c else runChain hs (h c)

/-- A JSON value of a request body, as far as the decoder tells values apart; a number
is kept as the `float64` the decoder reads it as, arrays and objects are `other`. -/
inductive JSON where
  | null
  | bool (b : Bool)
  | number (x : Float64)
  | string (s : String)
  | other
deriving DecidableEq, Repr

/-- The header of an uploaded file, `multipart.FileHeader`. -/
structure FileHeader where
  Filename : String
  Size : Int
deriving DecidableEq, Repr

/-- The rest of the HTTP request, what the handlers read besides method, path and header
fields: host and TLS state, the query string, the route parameters, the JSON body and the
form file `image` (`none` when there is none). The body is given by the members of its
JSON object; the body `null`, which the decoder accepts and which leaves the request at
its zero value, is the empty list of members like the body of the empty object; any other
body, an empty one included, is `none` and fails to decode. -/
structure Incoming where
  Host : String
  TLS : Bool
  Query : List (String × String)
  Params : List (String × String)
  Payload : Option (List (String × JSON))
  File : Option FileHeader
deriving DecidableEq, Repr

/-- The method `Context.Query`: the value of a query parameter, empty when absent. -/
def Incoming.QueryValue (r : Incoming) (key : String) : String :=
  (r.Query.lookup key).getD ""

/-- The method `Context.DefaultQuery`: the value of a query parameter that is present
(even when empty), the default otherwise. -/
def Incoming.DefaultQuery (r : Incoming) (key defaultValue : String) : String :=
  (r.Query.lookup key).getD defaultValue

/-- The method `Context.Param`: the value of a route parameter, empty when absent. -/
def Incoming.Param (r : Incoming) (key : String) : String :=
  (r.Params.lookup key).getD ""

/-- The fold under which `encoding/json` matches the key of an object member with the
name of a struct field: letters match without regard to case, and the two characters
outside ASCII that fold to an ASCII letter do too, the long s (U+017F) with `s` and the
Kelvin sign (U+212A) with `k`. The field names of the requests embedded here are ASCII
in lower case, so a key matches a name exactly when its fold to lower case is the name. -/
def foldName (key : String) : String :=
  String.mk (key.data.map fun ch =>
    if ch = Char.ofNat 0x17F then 's'
    else if ch = Char.ofNat 0x212A then 'k'
    else if 'A' ≤ ch ∧ ch ≤ 'Z' then Char.ofNat (ch.toNat + 32)
    else ch)

/-- The decoder of `encoding/json` on a string field: every member of the object whose
key matches the field's name is decoded in turn; a string sets the field, `null` leaves
it, any other value is an error. An absent key leaves the zero value. -/
def decodeString (obj : List (String × JSON)) (key : String) : Except String String :=
  obj.foldl (fun acc kv =>
    if foldName kv.1 = key then
      match acc, kv.2 with
      | .ok _, .string s => .ok s
      | .ok v, .null => .ok v
      | .ok _, _ => .error ("json: cannot unmarshal into field " ++ key)
      | .error e, _ => .error e
    else acc) (.ok "")

/-- The decoder of `encoding/json` on a `float64` field. -/
def decodeFloat (obj : List (String × JSON)) (key : String) : Except String Float64 :=
  obj.foldl (fun acc kv =>
    if foldName kv.1 = key then
      match acc, kv.2 with
      | .ok _, .number x => .ok x
      | .ok v, .null => .ok v
      | .ok _, _ => .error ("json: cannot unmarshal into field " ++ key)
      | .error e, _ => .error e
    else acc) (.ok ⟨0⟩)

/-- The decoder of `encoding/json` on a `bool` field. -/
def decodeBool (obj : List (String × JSON)) (key : String) : Except String Bool :=
  obj.foldl (fun acc kv =>
    if foldName kv.1 = key then
      match acc, kv.2 with
      | .ok _, .bool b => .ok b
      | .ok v, .null => .ok v
      | .ok _, _ => .error ("json: cannot unmarshal into field " ++ key)
      | .error e, _ => .error e
    else acc) (.ok false)

/-- The method `Context.ShouldBindJSON` on a `RegisterRequest`: the body is decoded into
the fields. The binder of the framework then checks the rules written under the struct tag
`binding`; a `RegisterRequest` has none (its rules are under the tag `validate`, which
only a validator called by the handler would read), so every decoded value is bound. -/
def ShouldBindJSONRegister (payload : Option (List (String × JSON))) :
    Except String RegisterRequest :=
  match payload with
  | none => .error "invalid request"
  | some obj =>
    match decodeString obj "email", decodeString obj "password",
      decodeString obj "first_name", decodeString obj "last_name",
      decodeString obj "role" with
    | .ok email, .ok password, .ok firstName, .ok lastName, .ok role =>
      .ok { Email := email, Password := password, FirstName := firstName,
            LastName := lastName, Role := role }
    | .error e, _, _, _, _ => .error e
    | _, .error e, _, _, _ => .error e
    | _, _, .error e, _, _ => .error e
    | _, _, _, .error e, _ => .error e
    | _, _, _, _, .error e => .error e

/-- The method `Context.ShouldBindJSON` on a `LoginRequest`; as for a `RegisterRequest`,
no rule is checked by the binder. -/
def ShouldBindJSONLogin (payload : Option (List (String × JSON))) :
    Except String LoginRequest :=
  match payload with
  | none => .error "invalid request"
  | some obj =>
    match decodeString obj "email", decodeString obj "password" with
    | .ok email, .ok password => .ok { Email := email, Password := password }
    | .error e, _ => .error e
    | _, .error e => .error e

/-- The method `Context.ShouldBindJSON` on a `CreateProductRequest`. -/
def ShouldBindJSONCreateProduct (payload : Option (List (String × JSON))) :
    Except String CreateProductRequest :=
  match payload with
  | none => .error "invalid request"
  | some obj =>
    match decodeString obj "name", decodeFloat obj "price", decodeString obj "category",
      decodeString obj "description", decodeString obj "specification",
      decodeString obj "material", decodeBool obj "in_stock" with
    | .ok name, .ok price, .ok category, .ok description, .ok specification, .ok material,
        .ok inStock =>
      .ok { Name := name, Price := price, Category := category,
            Description := description, Specification := specification,
            Material := material, InStock := inStock }
    | .error e, _, _, _, _, _, _ => .error e
    | _, .error e, _, _, _, _, _ => .error e
    | _, _, .error e, _, _, _, _ => .error e
    | _, _, _, .error e, _, _, _ => .error e
    | _, _, _, _, .error e, _, _ => .error e
    | _, _, _, _, _, .error e, _ => .error e
    | _, _, _, _, _, _, .error e => .error e

/-! ### Package `middleware` -/

/-- Modelled from the spec: the bearer convention of the Authorization header (§4.3),
`Bearer <token>`: the token of a header of that form, `none` for a malformed scheme. -/
def bearerToken (authHeader : String) : Option String :=
  if HasPrefix authHeader "Bearer " then some (String.mk (authHeader.data.drop 7)) else none

/-- Modelled from the spec: the names of the context keys under which the authentication
step attaches the claims (§4.3). -/
structure ContextKeys where
  subject : String
  email : String
  role : String
deriving DecidableEq, Repr

/-- Modelled from the spec: the key names as §4.3 writes them, `subject_id`, `email` and
`role`. (The handlers of the sources read the keys `user_id` and `user_role`.) -/
def specKeys : ContextKeys :=
  { subject := "subject_id", email := "email", role := "role" }

/-- Modelled from the spec: `AuthMiddleware` of the missing `middleware/auth.go`, the
authentication step of §4.3. An absent header or a malformed scheme is answered 401 before
the token manager is called; otherwise `ValidateToken` runs, any failure is answered 401
and the chain stops; on success the claims are attached to the context under the three
keys. -/
def AuthMiddleware (keys : ContextKeys) (jwtManager : JWTManager) (now : Int) :
    HandlerFunc := fun c =>
  let authHeader := c.GetHeader "Authorization"
  if authHeader = "" then
    (c.JSON 401 (.error "Unauthorized")).Abort
  else
    match bearerToken authHeader with
    | none => (c.JSON 401 (.error "Unauthorized")).Abort
    | some tokenString =>
      let c1 := c.emit (.validateToken tokenString)
      match ValidateToken jwtManager now tokenString with
      | .error _ => (c1.JSON 401 (.error "Unauthorized")).Abort
      | .ok claims =>
        ((c1.Set keys.subject (.str claims.UserID)).Set keys.email (.str claims.Email)).Set
          keys.role (.str claims.Role)

/-- Modelled from the spec: `AdminMiddleware` of the missing `middleware/auth.go`, the
role gate of §4.3: reads the attached `role` claim and compares it with the required role
`admin`; mismatch or absence is answered 403. -/
def AdminMiddleware (keys : ContextKeys) : HandlerFunc := fun c =>
  match c.Get keys.role with
  | some v =>
    if v ≠ Any.str "admin" then (c.JSON 403 (.error "Forbidden")).Abort else c
  | none => (c.JSON 403 (.error "Forbidden")).Abort

/-! ### Package `handlers` -/

/-- The collection `users` of the database. -/
structure Database where
  users : List User
deriving DecidableEq, Repr

/-- The type `handlers.AuthHandler`. -/
structure AuthHandler where
  db : Database
  jwtManager : JWTManager
deriving DecidableEq, Repr

/-- The method `AuthHandler.GetProfile`. A `user_id` that is not a string makes the type
assertion panic; the recovery middleware answers 500. -/
def AuthHandler.GetProfile (h : AuthHandler) : HandlerFunc := fun c =>
  let c := c.emit (.handler "GetProfile")
  match c.Get "user_id" with
  | none => c.JSON 401 (.error "User ID not found")
  | some (.str userID) =>
    match ObjectIDFromHex userID with
    | none => c.JSON 400 (.error "Invalid user ID")
    | some objectID =>
      let c := c.emit (.db "users" "FindOne")
      match h.db.users.find? (fun u => u.ID = objectID) with
      | none => c.JSON 404 (.error "User not found")
      | some user => c.JSON 200 (.user user.ToResponse)
  | some _ => (c.JSON 500 .empty).Abort

/-- The method `AuthHandler.AdminDashboard`. -/
def AuthHandler.AdminDashboard (_h : AuthHandler) : HandlerFunc := fun c =>
  (c.emit (.handler "AdminDashboard")).JSON 200 (.message "Welcome to Admin Dashboard")

/-! The admin-only handlers of `handlers/product.go` and `handlers/slider.go`. Each one
opens with its own copy of the role check; the code that follows the check (request
parsing, database and file-system work, the success response) is the argument `body`. -/

/-- The method `ProductHandler.CreateProduct`, up to the end of its role check: the caller
must be known (`user_id`), then the role stored under `user_role` must be the string
`admin`. -/
def ProductHandler.CreateProduct (body : HandlerFunc) : HandlerFunc := fun c =>
  match c.Get "user_id" with
  | none => c.JSON 401 (.error "Unauthorized")
  | some _ =>
    match c.Get "user_role" with
    | none => c.JSON 403 (.error "Admin access required")
    | some userRole =>
      if userRole ≠ Any.str "admin" then c.JSON 403 (.error "Admin access required")
      else body c

/-- The method `ProductHandler.UpdateProduct`, up to the end of its role check. -/
def ProductHandler.UpdateProduct (body : HandlerFunc) : HandlerFunc := fun c =>
  match c.Get "user_role" with
  | none => c.JSON 403 (.error "Admin access required")
  | some userRole =>
    if userRole ≠ Any.str "admin" then c.JSON 403 (.error "Admin access required")
    else body c

/-- The method `ProductHandler.DeleteProduct`, up to the end of its role check. -/
def ProductHandler.DeleteProduct (body : HandlerFunc) : HandlerFunc := fun c =>
  match c.Get "user_role" with
  | none => c.JSON 403 (.error "Admin access required")
  | some userRole =>
    if userRole ≠ Any.str "admin" then c.JSON 403 (.error "Admin access required")
    else body c

/-- The method `ProductHandler.UploadProductImage`, up to the end of its role check. -/
def ProductHandler.UploadProductImage (body : HandlerFunc) : HandlerFunc := fun c =>
  match c.Get "user_role" with
  | none => c.JSON 403 (.error "Admin access required")
  | some userRole =>
    if userRole ≠ Any.str "admin" then c.JSON 403 (.error "Admin access required")
    else body c

/-- The method `SliderHandler.UploadSliderImage`, up to the end of its role check. -/
def SliderHandler.UploadSliderImage (body : HandlerFunc) : HandlerFunc := fun c =>
  match c.Get "user_role" with
  | none => c.JSON 403 (.error "Admin access required")
  | some userRole =>
    if userRole ≠ Any.str "admin" then c.JSON 403 (.error "Admin access required")
    else body c

/-- The method `SliderHandler.GetAllSliders`, up to the end of its role check. -/
def SliderHandler.GetAllSliders (body : HandlerFunc) : HandlerFunc := fun c =>
  match c.Get "user_role" with
  | none => c.JSON 403 (.error "Admin access required")
  | some userRole =>
    if userRole ≠ Any.str "admin" then c.JSON 403 (.error "Admin access required")
    else body c

/-- The method `SliderHandler.DeleteSlider`, up to the end of its role check. -/
def SliderHandler.DeleteSlider (body : HandlerFunc) : HandlerFunc := fun c =>
  match c.Get "user_role" with
  | none => c.JSON 403 (.error "Admin access required")
  | some userRole =>
    if userRole ≠ Any.str "admin" then c.JSON 403 (.error "Admin access required")
    else body c

/-- The method `SliderHandler.GetSliderSettings`, up to the end of its role check. -/
def SliderHandler.GetSliderSettings (body : HandlerFunc) : HandlerFunc := fun c =>
  match c.Get "user_role" with
  | none => c.JSON 403 (.error "Admin access required")
  | some userRole =>
    if userRole ≠ Any.str "admin" then c.JSON 403 (.error "Admin access required")
    else body c

/-- The method `SliderHandler.UpdateSliderSettings`, up to the end of its role check. -/
def SliderHandler.UpdateSliderSettings (body : HandlerFunc) : HandlerFunc := fun c =>
  match c.Get "user_role" with
  | none => c.JSON 403 (.error "Admin access required")
  | some userRole =>
    if userRole ≠ Any.str "admin" then c.JSON 403 (.error "Admin access required")
    else body c

/-! The handlers `Register` and `Login` of `handlers/auth.go`. The store is reliable: a
query on the collection `users` fails only with `ErrNoDocuments`; the branches of the
handlers for other failures are kept. The clock reads `now` at each call of `time.Now`,
`newID` is the value of `primitive.NewObjectID`, and `salt` the random bits of the
hasher. -/

/-- The role that the registration claim describes for a requested role text: that role
when the text is exactly `user` or `admin`, the role `user` for any other text. To be
compared with what `Register` computes. -/
def roleByClaim (requested : String) : Role :=
  if requested = "user" ∨ requested = "admin" then ⟨requested⟩ else RoleUser

/-- An error of the database driver. -/
inductive DBError where
  | ErrNoDocuments
  | other (msg : String)
deriving DecidableEq, Repr

/-- The query `FindOne` on the collection `users` with the filter `email`. -/
def Database.FindUserByEmail (db : Database) (email : String) : Except DBError User :=
  match db.users.find? (fun u => u.Email = email) with
  | some u => .ok u
  | none => .error .ErrNoDocuments

/-- The command `InsertOne` on the collection `users`. -/
def Database.InsertUser (db : Database) (u : User) : Except DBError Database :=
  .ok { users := db.users ++ [u] }

/-- The method `AuthHandler.Register`. The result is the response and the database after
the request. -/
def AuthHandler.Register (h : AuthHandler) (now : Int) (newID : ObjectID)
    (salt : List Bool) (r : Incoming) (c : Context) : Context × Database :=
  match ShouldBindJSONRegister r.Payload with
  | .error msg => (c.JSON 400 (.error msg), h.db)
  | .ok req =>
    let c := c.emit (.db "users" "FindOne")
    match h.db.FindUserByEmail req.Email with
    | .ok _ => (c.JSON 409 (.error "User already exists"), h.db)
    | .error _ =>
      match HashPassword salt req.Password with
      | .error _ => (c.JSON 500 (.error "Failed to hash password"), h.db)
      | .ok hashedPassword =>
        let role :=
          if req.Role ≠ "" then
            if (Role.mk req.Role).IsValid then Role.mk req.Role else RoleUser
          else RoleUser
        let user : User :=
          { ID := newID, Email := req.Email, Password := hashedPassword,
            FirstName := req.FirstName, LastName := req.LastName, Role := role,
            IsActive := true, CreatedAt := now, UpdatedAt := now }
        let c := c.emit (.db "users" "InsertOne")
        match h.db.InsertUser user with
        | .error _ => (c.JSON 500 (.error "Failed to create user"), h.db)
        | .ok db =>
          match GenerateToken h.jwtManager now user.ID.Hex user.Email user.Role.String with
          | .error _ => (c.JSON 500 (.error "Failed to generate token"), db)
          | .ok token => (c.JSON 201 (.auth token user.ToResponse), db)

/-- The method `AuthHandler.Login`. -/
def AuthHandler.Login (h : AuthHandler) (now : Int) (r : Incoming) : HandlerFunc := fun c =>
  match ShouldBindJSONLogin r.Payload with
  | .error msg => c.JSON 400 (.error msg)
  | .ok req =>
    let c := c.emit (.db "users" "FindOne")
    match h.db.FindUserByEmail req.Email with
    | .error .ErrNoDocuments => c.JSON 401 (.error "Invalid credentials")
    | .error _ => c.JSON 500 (.error "Database error")
    | .ok user =>
      if ¬ user.IsActive then c.JSON 401 (.error "Account is deactivated")
      else if ¬ CheckPasswordHash req.Password user.Password then
        c.JSON 401 (.error "Invalid credentials")
      else
        match GenerateToken h.jwtManager now user.ID.Hex user.Email user.Role.String with
        | .error _ => c.JSON 500 (.error "Failed to generate token")
        | .ok token => c.JSON 200 (.login token user.Role)

/-! The handlers of `handlers/product.go` behind the role check, and the public ones. -/

/-- The collection `products` of the database. -/
structure ProductStore where
  products : List Product
deriving DecidableEq, Repr

/-- The type `handlers.ProductHandler`, with the collection it works on. -/
structure ProductHandler where
  db : ProductStore
deriving DecidableEq, Repr

/-- The filter document that `GetProducts` builds: a category, a stock state, or neither. -/
structure ProductFilter where
  category : Option String
  inStock : Option Bool
deriving DecidableEq, Repr

/-- Whether a product matches a filter document. -/
def ProductFilter.matches (f : ProductFilter) (p : Product) : Bool :=
  (match f.category with
    | some cat => decide (p.Category.val = cat)
    | none => true) &&
  (match f.inStock with
    | some b => decide (p.InStock = b)
    | none => true)

/-- The command `CountDocuments` on the collection `products`. -/
def ProductStore.CountDocuments (db : ProductStore) (f : ProductFilter) :
    Except DBError Int :=
  .ok ((db.products.filter f.matches).length : Int)

/-- The query `Find` on the collection `products` with the options skip, limit and sort by
`created_at` descending. The database refuses a negative skip. -/
def ProductStore.Find (db : ProductStore) (f : ProductFilter) (skip limit : Int) :
    Except DBError (List Product) :=
  if skip < 0 then .error (.other "skip must be non-negative")
  else
    .ok ((((db.products.filter f.matches).insertionSort
      (fun a b => a.CreatedAt ≥ b.CreatedAt)).drop skip.toNat).take limit.toNat)

/-- The function `handlers.getBaseURL`. -/
def getBaseURL (r : Incoming) (c : Context) : String :=
  let scheme :=
    if c.GetHeader "X-Forwarded-Proto" = "https" ∨ r.TLS = true then "https" else "http"
  let host := c.GetHeader "X-Forwarded-Host"
  let host := if host = "" then r.Host else host
  let host := if host = "" then "localhost:8080" else host
  scheme ++ "://" ++ host

/-- The page that `GetProducts` works with: the query parameter `page` (default `1`)
through `strconv.Atoi`, and 1 when that is below 1. -/
def ProductHandler.pageOf (r : Incoming) : Int :=
  let page := Atoi (r.DefaultQuery "page" "1")
  if page < 1 then 1 else page

/-- The limit that `GetProducts` works with: the query parameter `limit` (default `10`)
through `strconv.Atoi`, and 10 when that is below 1 or above 100. -/
def ProductHandler.limitOf (r : Incoming) : Int :=
  let limit := Atoi (r.DefaultQuery "limit" "10")
  if limit < 1 ∨ limit > 100 then 10 else limit

/-- The filter document of `GetProducts`. -/
def ProductHandler.filterOf (r : Incoming) : ProductFilter :=
  let category := r.QueryValue "category"
  let inStock := r.QueryValue "in_stock"
  { category := if category ≠ "" ∧ IsValidCategory category then some category else none,
    inStock :=
      if inStock ≠ "" then
        if inStock = "true" then some true
        else if inStock = "false" then some false
        else none
      else none }

/-- The skip that `GetProducts` passes to the database: `(page - 1) * limit` in the
arithmetic of `int`. -/
def ProductHandler.skipOf (r : Incoming) : Int :=
  wrapInt (wrapInt (ProductHandler.pageOf r - 1) * ProductHandler.limitOf r)

/-- The method `ProductHandler.GetProducts`. -/
def ProductHandler.GetProducts (h : ProductHandler) (r : Incoming) : HandlerFunc := fun c =>
  let page := ProductHandler.pageOf r
  let limit := ProductHandler.limitOf r
  let filter := ProductHandler.filterOf r
  let c := c.emit (.db "products" "CountDocuments")
  match h.db.CountDocuments filter with
  | .error _ => c.JSON 500 (.error "Failed to count products")
  | .ok total =>
    let skip := ProductHandler.skipOf r
    let c := c.emit (.db "products" "Find")
    match h.db.Find filter skip limit with
    | .error _ => c.JSON 500 (.error "Failed to fetch products")
    | .ok products =>
      let baseURL := getBaseURL r c
      c.JSON 200 (.productList (products.map fun product =>
        product.ToResponseWithBaseURL baseURL) total page limit)

/-- The method `ProductHandler.GetCategories`. -/
def ProductHandler.GetCategories : HandlerFunc := fun c =>
  c.JSON 200 (.categories (GetValidCategories.map fun category => category.val))

/-- The code of `ProductHandler.CreateProduct` behind the role check, up to the end of
the category check: binding, validation, category. The rules of the request are checked
by the validator of the handler, the argument `validate` (`none` when the request
passes); the code that follows (the insertion and the response) is the argument `rest`. -/
def ProductHandler.CreateProductChecks (validate : CreateProductRequest → Option String)
    (r : Incoming) (rest : CreateProductRequest → HandlerFunc) : HandlerFunc := fun c =>
  match ShouldBindJSONCreateProduct r.Payload with
  | .error _ => c.JSON 400 (.error "Invalid request payload")
  | .ok req =>
    match validate req with
    | some msg => c.JSON 400 (.error msg)
    | none =>
      if ¬ IsValidCategory req.Category then c.JSON 400 (.error "Invalid category")
      else rest req c

/-- The function `handlers.isValidImageType`. -/
def isValidImageType (filename : String) : Bool :=
  let ext := ToLower (Ext filename)
  [".jpg", ".jpeg", ".png", ".gif"].any fun validExt => ext = validExt

/-- The code of `ProductHandler.UploadProductImage` behind the role check, up to the end
of the size check: product ID, form file, image type, size. The code that follows (saving
the file and updating the product) is the argument `rest`. -/
def ProductHandler.UploadProductImageChecks (r : Incoming) (rest : HandlerFunc) :
    HandlerFunc := fun c =>
  match ObjectIDFromHex (r.Param "id") with
  | none => c.JSON 400 (.error "Invalid product ID")
  | some _ =>
    match r.File with
    | none => c.JSON 400 (.error "No image file provided")
    | some header =>
      if ¬ isValidImageType header.Filename then
        c.JSON 400 (.error "Invalid image format. Only JPG, JPEG, PNG, and GIF are allowed")
      else if header.Size > 5 * 1024 * 1024 then
        c.JSON 400 (.error "Image size too large. Maximum 5MB allowed")
      else rest c

/-- The code of `SliderHandler.UploadSliderImage` behind the role check, up to the end of
the size check: form file, image type, size. The code that follows (saving the file and
storing the slider) is the argument `rest`. -/
def SliderHandler.UploadSliderImageChecks (r : Incoming) (rest : HandlerFunc) :
    HandlerFunc := fun c =>
  match r.File with
  | none => c.JSON 400 (.error "No image file provided")
  | some header =>
    if ¬ isValidImageType header.Filename then
      c.JSON 400 (.error "Invalid image format. Only JPG, JPEG, PNG, and GIF are allowed")
    else if header.Size > 5 * 1024 * 1024 then
      c.JSON 400 (.error "Image size too large. Maximum 5MB allowed")
    else rest c

/-! The handlers `UpdateProduct` and `UploadProductImage` behind their checks. What the
database and the file system answer to the calls of a handler is an argument of the
handler; the clock reads `now` at each call of `time.Now`. -/

/-- The method `Time.Unix`: the seconds since the epoch, instants being counted from the
epoch in the unit of `Second`. -/
def Unix (t : Int) : Int :=
  t / Second

/-- The verb `%d` of `fmt.Sprintf` on an integer: a minus sign for a negative number, and
the decimal digits. -/
def formatInt (i : Int) : String :=
  String.mk ((if i < 0 then ['-'] else []) ++ encNat i.natAbs)

/-- The method `Error` of an error of the database driver. -/
def DBError.Error : DBError → String
  | .ErrNoDocuments => "mongo: no documents in result"
  | .other msg => msg

/-- What the file system answers to the calls of an upload handler, `os.MkdirAll` and
`saveUploadedFile`: `none` when the call succeeds, the error otherwise. -/
structure FileCalls where
  MkdirAll : Option String
  saveUploadedFile : Option String
deriving DecidableEq, Repr

/-- What the database answers to the calls of `UpdateProduct` and `UploadProductImage` on
the collection `products`: `UpdateOne`, and then `FindOne` by the same ID. -/
structure ProductCalls where
  UpdateOne : Except DBError UpdateResult
  FindOne : Except DBError Product
deriving DecidableEq, Repr

/-- The decoder of `encoding/json` on a field of type `*string`: a string sets the
pointer, `null` sets it to `nil`, any other value is an error; an absent key leaves
`nil`. -/
def decodeStringPtr (obj : List (String × JSON)) (key : String) :
    Except String (Option String) :=
  obj.foldl (fun acc kv =>
    if foldName kv.1 = key then
      match acc, kv.2 with
      | .ok _, .string s => .ok (some s)
      | .ok _, .null => .ok none
      | .ok _, _ => .error ("json: cannot unmarshal into field " ++ key)
      | .error e, _ => .error e
    else acc) (.ok none)

/-- The decoder of `encoding/json` on a field of type `*float64`. -/
def decodeFloatPtr (obj : List (String × JSON)) (key : String) :
    Except String (Option Float64) :=
  obj.foldl (fun acc kv =>
    if foldName kv.1 = key then
      match acc, kv.2 with
      | .ok _, .number x => .ok (some x)
      | .ok _, .null => .ok none
      | .ok _, _ => .error ("json: cannot unmarshal into field " ++ key)
      | .error e, _ => .error e
    else acc) (.ok none)

/-- The decoder of `encoding/json` on a field of type `*bool`. -/
def decodeBoolPtr (obj : List (String × JSON)) (key : String) :
    Except String (Option Bool) :=
  obj.foldl (fun acc kv =>
    if foldName kv.1 = key then
      match acc, kv.2 with
      | .ok _, .bool b => .ok (some b)
      | .ok _, .null => .ok none
      | .ok _, _ => .error ("json: cannot unmarshal into field " ++ key)
      | .error e, _ => .error e
    else acc) (.ok none)

/-- The method `Context.ShouldBindJSON` on an `UpdateProductRequest`; the binder checks no
rule, the rules of the request are under the struct tag `validate`. -/
def ShouldBindJSONUpdateProduct (payload : Option (List (String × JSON))) :
    Except String UpdateProductRequest :=
  match payload with
  | none => .error "invalid request"
  | some obj =>
    match decodeStringPtr obj "name", decodeFloatPtr obj "price",
      decodeStringPtr obj "category", decodeStringPtr obj "description",
      decodeStringPtr obj "specification", decodeStringPtr obj "material",
      decodeBoolPtr obj "in_stock" with
    | .ok name, .ok price, .ok category, .ok description, .ok specification, .ok material,
        .ok inStock =>
      .ok { Name := name, Price := price, Category := category,
            Description := description, Specification := specification,
            Material := material, InStock := inStock }
    | .error e, _, _, _, _, _, _ => .error e
    | _, .error e, _, _, _, _, _ => .error e
    | _, _, .error e, _, _, _, _ => .error e
    | _, _, _, .error e, _, _, _ => .error e
    | _, _, _, _, .error e, _, _ => .error e
    | _, _, _, _, _, .error e, _ => .error e
    | _, _, _, _, _, _, .error e => .error e

/-- The `$set` document that `UpdateProduct` builds from a request (from the comment
`Build update document` to the last assignment); `none` is the return of the handler at
the category check. -/
def ProductHandler.updateDocument (now : Int) (req : UpdateProductRequest) :
    Option Document :=
  let set : Document := [("updated_at", .dateTime now)]
  let set := set.assignIf "name" (req.Name.map .string)
  let set := set.assignIf "price" (req.Price.map .double)
  let checked : Option Document :=
    match req.Category with
    | some category =>
      if ¬ IsValidCategory category then none
      else some (set.assign "category" (.string category))
    | none => some set
  match checked with
  | none => none
  | some set =>
    let set := set.assignIf "description" (req.Description.map .string)
    let set := set.assignIf "specification" (req.Specification.map .string)
    let set := set.assignIf "material" (req.Material.map .string)
    let set := set.assignIf "in_stock" (req.InStock.map .bool)
    some set

/-- The code of `ProductHandler.UpdateProduct` behind the role check. The rules of the
request are checked by the validator of the handler, the argument `validate` (`none` when
the request passes). -/
def ProductHandler.UpdateProductBody (validate : UpdateProductRequest → Option String)
    (now : Int) (w : ProductCalls) (r : Incoming) : HandlerFunc := fun c =>
  match ObjectIDFromHex (r.Param "id") with
  | none => c.JSON 400 (.error "Invalid product ID")
  | some objID =>
    match ShouldBindJSONUpdateProduct r.Payload with
    | .error _ => c.JSON 400 (.error "Invalid request payload")
    | .ok req =>
      match validate req with
      | some msg => c.JSON 400 (.error msg)
      | none =>
        match ProductHandler.updateDocument now req with
        | none => c.JSON 400 (.error "Invalid category")
        | some set =>
          let c := c.emit (.updateOne "products" [("_id", .objectID objID)] set false)
          match w.UpdateOne with
          | .error _ => c.JSON 500 (.error "Failed to update product")
          | .ok result =>
            if result.MatchedCount = 0 then c.JSON 404 (.error "Product not found")
            else
              let c := c.emit (.db "products" "FindOne")
              match w.FindOne with
              | .error _ => c.JSON 500 (.error "Failed to fetch updated product")
              | .ok updatedProduct =>
                c.JSON 200 (.product "Product updated successfully"
                  (updatedProduct.ToResponseWithBaseURL (getBaseURL r c)))

/-- The full image URL that `UploadProductImage` computes inline in the branch where the
product cannot be fetched back after the update. -/
def ProductHandler.fallbackImageURL (imageURL baseURL : String) : String :=
  let fullImageURL := imageURL
  if baseURL ≠ "" ∧ imageURL ≠ "" ∧ ¬ HasPrefix imageURL "http://" ∧
      ¬ HasPrefix imageURL "https://" then
    if HasPrefix imageURL "/" then baseURL ++ imageURL
    else baseURL ++ "/" ++ imageURL
  else fullImageURL

/-- The full image URL that `UploadProductImage` computes inline in the branch where the
product was fetched back, from the image URL of that product. -/
def ProductHandler.verifiedImageURL (imageURL baseURL : String) : String :=
  let fullImageURL := imageURL
  if baseURL ≠ "" ∧ fullImageURL ≠ "" ∧ ¬ HasPrefix fullImageURL "http://" ∧
      ¬ HasPrefix fullImageURL "https://" then
    if HasPrefix fullImageURL "/" then baseURL ++ fullImageURL
    else baseURL ++ "/" ++ fullImageURL
  else fullImageURL

/-- The code of `ProductHandler.UploadProductImage` behind the size check; `objID` is the
product ID and `header` the form file that the checks have read. The file name has no
path separator, so that `filepath.Join` puts it behind the directory as it is. -/
def ProductHandler.UploadProductImageStore (now : Int) (fs : FileCalls) (w : ProductCalls)
    (r : Incoming) (objID : ObjectID) (header : FileHeader) : HandlerFunc := fun c =>
  let productID := r.Param "id"
  let uploadDir := "uploads/products"
  let c := c.emit (.fs "MkdirAll" uploadDir)
  match fs.MkdirAll with
  | some _ => c.JSON 500 (.error "Failed to create upload directory")
  | none =>
    let filename := productID ++ "_" ++ formatInt (Unix now) ++ Ext header.Filename
    let filePath := uploadDir ++ "/" ++ filename
    let c := c.emit (.fs "Create" filePath)
    match fs.saveUploadedFile with
    | some _ => c.JSON 500 (.error "Failed to save image")
    | none =>
      let imageURL := "/uploads/products/" ++ filename
      let c := c.emit (.updateOne "products" [("_id", .objectID objID)]
        [("image_url", .string imageURL), ("updated_at", .dateTime now)] false)
      match w.UpdateOne with
      | .error err =>
        (c.emit (.fs "Remove" filePath)).JSON 500
          (.errorDetails "Failed to update product with image" err.Error)
      | .ok result =>
        if result.MatchedCount = 0 then
          (c.emit (.fs "Remove" filePath)).JSON 404 (.error "Product not found")
        else if result.ModifiedCount = 0 then
          c.JSON 200 (.imageWarning "Image uploaded but product already has this image URL"
            imageURL "No database update was needed")
        else
          let c := c.emit (.db "products" "FindOne")
          match w.FindOne with
          | .error _ =>
            c.JSON 200 (.imageUploaded "Image uploaded successfully"
              (ProductHandler.fallbackImageURL imageURL (getBaseURL r c)))
          | .ok updatedProduct =>
            if updatedProduct.ImageURL = "" then
              c.JSON 500 (.error "Image uploaded but database update verification failed")
            else
              c.JSON 200 (.imageUploaded "Image uploaded successfully"
                (ProductHandler.verifiedImageURL updatedProduct.ImageURL (getBaseURL r c)))

/-! The handlers of `handlers/slider.go` behind their checks. The collections `slider` and
`slider_settings` are kept in the store; a settings document is kept as written, because
an update may write some of its fields only. -/

/-- The function `filepath.Base`: the last element of a path, trailing separators
removed; `.` for the empty path and the separator for a path of separators. -/
def Base (path : String) : String :=
  if path = "" then "."
  else
    let stripped := (path.data.reverse.dropWhile (fun ch => ch = '/')).reverse
    let last := (stripped.reverse.takeWhile (fun ch => ch ≠ '/')).reverse
    if last = [] then "/" else String.mk last

/-- The call `filepath.Join("uploads", "slider", filename)` for a file name that
`filepath.Base` returns: such a name is the separator, `.`, `..`, or has no separator. -/
def joinUploadsSlider (filename : String) : String :=
  if filename = "/" ∨ filename = "." then "uploads/slider"
  else if filename = ".." then "uploads"
  else "uploads/slider/" ++ filename

/-- The collections `slider` and `slider_settings` of the database. -/
structure SliderStore where
  slider : List Slider
  slider_settings : List Document
deriving DecidableEq, Repr

/-- The type `handlers.SliderHandler`, with the collections it works on. -/
structure SliderHandler where
  db : SliderStore
deriving DecidableEq, Repr

/-- The calls of `UploadSliderImage` on the database that may fail: `none` when the call
goes through, the error otherwise. -/
structure SliderCalls where
  CountDocuments : Option DBError
  InsertOne : Option DBError
deriving DecidableEq, Repr

/-- The command `CountDocuments` on the collection `slider` with the empty filter. -/
def SliderStore.CountDocuments (db : SliderStore) (failure : Option DBError) :
    Except DBError Int :=
  match failure with
  | some err => .error err
  | none => .ok (db.slider.length : Int)

/-- The command `InsertOne` on the collection `slider`; the database refuses a second
document with the same `_id`. -/
def SliderStore.InsertOne (db : SliderStore) (failure : Option DBError) (s : Slider) :
    Except DBError SliderStore :=
  match failure with
  | some err => .error err
  | none =>
    if db.slider.any (fun t => t.ID = s.ID) then .error (.other "E11000 duplicate key error")
    else .ok { db with slider := db.slider ++ [s] }

/-- The query `Find` on the collection `slider` with the empty filter, sorted by `order`
ascending. -/
def SliderStore.Find (db : SliderStore) : Except DBError (List Slider) :=
  .ok (db.slider.insertionSort (fun a b => a.Order ≤ b.Order))

/-- The query `FindOne` on the collection `slider` by `_id`. -/
def SliderStore.FindOne (db : SliderStore) (id : ObjectID) : Except DBError Slider :=
  match db.slider.find? (fun s => s.ID = id) with
  | some s => .ok s
  | none => .error .ErrNoDocuments

/-- The command `DeleteOne` on the collection `slider` by `_id`: the store afterwards and
the count of deleted documents. -/
def SliderStore.DeleteOne (db : SliderStore) (id : ObjectID) :
    Except DBError (SliderStore × Int) :=
  match db.slider.find? (fun s => s.ID = id) with
  | some _ => .ok ({ db with slider := db.slider.eraseP (fun s => s.ID = id) }, 1)
  | none => .ok (db, 0)

/-- The full image URL that `UploadSliderImage` computes inline before its response. -/
def SliderHandler.fullImageURL (imageURL baseURL : String) : String :=
  let fullImageURL := imageURL
  if baseURL ≠ "" ∧ fullImageURL ≠ "" ∧ ¬ HasPrefix fullImageURL "http://" ∧
      ¬ HasPrefix fullImageURL "https://" then
    if HasPrefix fullImageURL "/" then baseURL ++ fullImageURL
    else baseURL ++ "/" ++ fullImageURL
  else fullImageURL

/-- The code of `SliderHandler.UploadSliderImage` behind the size check; `header` is the
form file that the checks have read and `newID` the value of `primitive.NewObjectID`. A
`user_id` that is not a string makes the type assertion panic; the recovery middleware
answers 500. The result is the response and the store after the request. -/
def SliderHandler.UploadSliderImageStore (h : SliderHandler) (now : Int) (newID : ObjectID)
    (fs : FileCalls) (w : SliderCalls) (r : Incoming) (header : FileHeader) (c : Context) :
    Context × SliderStore :=
  let uploadDir := "uploads/slider"
  let c := c.emit (.fs "MkdirAll" uploadDir)
  match fs.MkdirAll with
  | some _ => (c.JSON 500 (.error "Failed to create upload directory"), h.db)
  | none =>
    let filename := "slider_" ++ formatInt (Unix now) ++ Ext header.Filename
    let filePath := uploadDir ++ "/" ++ filename
    let c := c.emit (.fs "Create" filePath)
    match fs.saveUploadedFile with
    | some _ => (c.JSON 500 (.error "Failed to save image"), h.db)
    | none =>
      let c := c.emit (.db "slider" "CountDocuments")
      let count : Int :=
        match h.db.CountDocuments w.CountDocuments with
        | .error _ => 0
        | .ok count => count
      match c.Get "user_id" with
      | some (.str userID) =>
        match ObjectIDFromHex userID with
        | none =>
          ((c.emit (.fs "Remove" filePath)).JSON 400 (.error "Invalid user ID"), h.db)
        | some adminID =>
          let imageURL := "/uploads/slider/" ++ filename
          let slider : Slider :=
            { ID := newID, ImageURL := imageURL, Order := count, CreatedBy := adminID,
              CreatedAt := now, UpdatedAt := now }
          let c := c.emit (.db "slider" "InsertOne")
          match h.db.InsertOne w.InsertOne slider with
          | .error _ =>
            ((c.emit (.fs "Remove" filePath)).JSON 500
              (.error "Failed to save slider to database"), h.db)
          | .ok db =>
            let baseURL := getBaseURL r c
            let _fullImageURL := SliderHandler.fullImageURL slider.ImageURL baseURL
            (c.JSON 200 (.slider "Image uploaded successfully"
              (slider.ToResponseWithBaseURL baseURL)), db)
      | _ => ((c.JSON 500 .empty).Abort, h.db)

/-- The code of `SliderHandler.DeleteSlider` behind the role check. -/
def SliderHandler.DeleteSliderBody (h : SliderHandler) (r : Incoming) (c : Context) :
    Context × SliderStore :=
  match ObjectIDFromHex (r.Param "id") with
  | none => (c.JSON 400 (.error "Invalid slider ID"), h.db)
  | some objID =>
    let c := c.emit (.db "slider" "FindOne")
    let c :=
      match h.db.FindOne objID with
      | .ok slider =>
        if slider.ImageURL ≠ "" then
          c.emit (.fs "Remove" (joinUploadsSlider (Base slider.ImageURL)))
        else c
      | .error _ => c
    let c := c.emit (.db "slider" "DeleteOne")
    match h.db.DeleteOne objID with
    | .error _ => (c.JSON 500 (.error "Failed to delete slider"), h.db)
    | .ok (db, deletedCount) =>
      if deletedCount = 0 then (c.JSON 404 (.error "Slider not found"), db)
      else (c.JSON 200 (.message "Slider deleted successfully"), db)

/-- The zero value of `primitive.ObjectID`. -/
def NilObjectID : ObjectID :=
  ⟨"000000000000000000000000"⟩

/-- The zero value of `time.Time`: the first instant of year 1, in seconds before the
epoch times `Second`. -/
def zeroTime : Int :=
  -62135596800 * Second

/-- The document that the driver writes for a `models.SliderSettings`, by its `bson`
struct tags. -/
def SliderSettings.toDocument (s : SliderSettings) : Document :=
  [("_id", .objectID s.ID), ("slide_duration", .int s.SlideDuration),
   ("auto_play", .bool s.AutoPlay), ("show_indicators", .bool s.ShowIndicators),
   ("show_controls", .bool s.ShowControls), ("updated_at", .dateTime s.UpdatedAt)]

/-- The zero value of `models.SliderSettings`. -/
def zeroSliderSettings : SliderSettings :=
  { ID := NilObjectID, SlideDuration := 0, AutoPlay := false, ShowIndicators := false,
    ShowControls := false, UpdatedAt := zeroTime }

/-- The method `Decode` into a `models.SliderSettings` that holds `settings`, by its
`bson` struct tags: the elements of the document are decoded in turn, each into the field
that carries its key; an element with another key is skipped, a field without an element
keeps its value, and an element whose value is not of the type that the handlers write
for its field stops the decoding with an error, the fields decoded before it keeping
their new values. The result is the struct after the call and the error, if any. -/
def decodeSliderSettingsInto :
    SliderSettings → Document → SliderSettings × Option DBError
  | settings, [] => (settings, none)
  | settings, (key, value) :: rest =>
    if key = "_id" then
      match value with
      | .objectID id => decodeSliderSettingsInto { settings with ID := id } rest
      | _ => (settings, some (.other "cannot decode field _id"))
    else if key = "slide_duration" then
      match value with
      | .int n => decodeSliderSettingsInto { settings with SlideDuration := n } rest
      | _ => (settings, some (.other "cannot decode field slide_duration"))
    else if key = "auto_play" then
      match value with
      | .bool b => decodeSliderSettingsInto { settings with AutoPlay := b } rest
      | _ => (settings, some (.other "cannot decode field auto_play"))
    else if key = "show_indicators" then
      match value with
      | .bool b => decodeSliderSettingsInto { settings with ShowIndicators := b } rest
      | _ => (settings, some (.other "cannot decode field show_indicators"))
    else if key = "show_controls" then
      match value with
      | .bool b => decodeSliderSettingsInto { settings with ShowControls := b } rest
      | _ => (settings, some (.other "cannot decode field show_controls"))
    else if key = "updated_at" then
      match value with
      | .dateTime t => decodeSliderSettingsInto { settings with UpdatedAt := t } rest
      | _ => (settings, some (.other "cannot decode field updated_at"))
    else decodeSliderSettingsInto settings rest

/-- The call `FindOne(ctx, bson.M{}).Decode(&settings)` on the collection
`slider_settings`, for a variable `settings` at its zero value: the first document of the
collection is decoded into it; without a document the error is `ErrNoDocuments`. The
result is the variable after the call and the error, if any. -/
def SliderStore.DecodeSettings (db : SliderStore) : SliderSettings × Option DBError :=
  match db.slider_settings with
  | [] => (zeroSliderSettings, some .ErrNoDocuments)
  | doc :: _ => decodeSliderSettingsInto zeroSliderSettings doc

/-- The same call as a result: the settings when there is no error. -/
def SliderStore.FindSettings (db : SliderStore) : Except DBError SliderSettings :=
  match db.DecodeSettings with
  | (settings, none) => .ok settings
  | (_, some err) => .error err

/-- The operator `$set` on a document: each key of the update is assigned in turn. -/
def Document.applySet (doc set : Document) : Document :=
  set.foldl (fun d kv => d.assign kv.1 kv.2) doc

/-- The command `UpdateOne` on the collection `slider_settings` with the empty filter and
the upsert option: the first document of the collection is updated; when there is none, a
document with a new `_id` (the argument `newID`) and the fields of the update is
inserted. -/
def SliderStore.UpsertSettings (db : SliderStore) (newID : ObjectID) (set : Document) :
    Except DBError SliderStore :=
  match db.slider_settings with
  | [] =>
    .ok { db with slider_settings :=
      [Document.applySet [("_id", .objectID newID)] set] }
  | doc :: rest => .ok { db with slider_settings := Document.applySet doc set :: rest }

/-- The settings part of a response, as `GetSliders`, `GetSliderSettings` and
`UpdateSliderSettings` each build it from the settings they hold. -/
def SliderSettings.response (settings : SliderSettings) : SliderSettingsResponse :=
  { SlideDuration := settings.SlideDuration, AutoPlay := settings.AutoPlay,
    ShowIndicators := settings.ShowIndicators, ShowControls := settings.ShowControls,
    UpdatedAt := settings.UpdatedAt }

/-- The method `SliderHandler.GetSliders`; `newID` is the value of
`primitive.NewObjectID`. The handler looks at the error of the query for the settings
only to see whether it is `ErrNoDocuments`; on any other error it goes on with the
settings as the decoding left them. The result is the response and the store after the
request. -/
def SliderHandler.GetSliders (h : SliderHandler) (now : Int) (newID : ObjectID)
    (r : Incoming) (c : Context) : Context × SliderStore :=
  let c := c.emit (.db "slider" "Find")
  match h.db.Find with
  | .error _ => (c.JSON 500 (.error "Failed to fetch sliders"), h.db)
  | .ok sliders =>
    let c := c.emit (.db "slider_settings" "FindOne")
    let decoded := h.db.DecodeSettings
    let found : SliderSettings × Context × SliderStore :=
      match decoded.2 with
      | some .ErrNoDocuments =>
        let settings : SliderSettings :=
          { ID := newID, SlideDuration := 5, AutoPlay := true, ShowIndicators := true,
            ShowControls := true, UpdatedAt := now }
        (settings, c.emit (.db "slider_settings" "InsertOne"),
          { h.db with slider_settings := h.db.slider_settings ++ [settings.toDocument] })
      | _ => (decoded.1, c, h.db)
    let settings := found.1
    let c := found.2.1
    let baseURL := getBaseURL r c
    let sliderResponses := sliders.map fun slider => slider.ToResponseWithBaseURL baseURL
    (c.JSON 200 (.sliders sliderResponses settings.response sliderResponses.length),
      found.2.2)

/-- The code of `SliderHandler.GetSliderSettings` behind the role check. -/
def SliderHandler.GetSliderSettingsBody (h : SliderHandler) (now : Int) : HandlerFunc :=
  fun c =>
  let c := c.emit (.db "slider_settings" "FindOne")
  match h.db.FindSettings with
  | .error .ErrNoDocuments =>
    c.JSON 200 (.settings
      { SlideDuration := 5, AutoPlay := true, ShowIndicators := true, ShowControls := true,
        UpdatedAt := now })
  | .error _ => c.JSON 500 (.error "Failed to fetch settings")
  | .ok settings => c.JSON 200 (.settings settings.response)

/-- The rules of an `UpdateSliderSettingsRequest` as the validator of the handler reads
its struct tags: the tag `omitempty,min=1,max=30` of `SlideDuration` lets a `nil` pointer
pass and checks a duration that is given against 1 and 30; the other fields have no rule.
The result is `none` when the request passes, the message of the error otherwise. -/
def validateUpdateSliderSettings (req : UpdateSliderSettingsRequest) : Option String :=
  match req.SlideDuration with
  | none => none
  | some slideDuration =>
    if slideDuration < 1 then
      some ("Key: 'UpdateSliderSettingsRequest.SlideDuration' Error:" ++
        "Field validation for 'SlideDuration' failed on the 'min' tag")
    else if slideDuration > 30 then
      some ("Key: 'UpdateSliderSettingsRequest.SlideDuration' Error:" ++
        "Field validation for 'SlideDuration' failed on the 'max' tag")
    else none

/-- The `$set` document that `UpdateSliderSettings` builds from a request. -/
def SliderHandler.settingsDocument (now : Int) (req : UpdateSliderSettingsRequest) :
    Document :=
  let set : Document := [("updated_at", .dateTime now)]
  let set := set.assignIf "slide_duration" (req.SlideDuration.map .int)
  let set := set.assignIf "auto_play" (req.AutoPlay.map .bool)
  let set := set.assignIf "show_indicators" (req.ShowIndicators.map .bool)
  let set := set.assignIf "show_controls" (req.ShowControls.map .bool)
  set

/-- The code of `SliderHandler.UpdateSliderSettings` behind the role check. The JSON
values of this development keep a number as a `float64`, from which a field of type `int`
is not read; so the result of `c.ShouldBindJSON(&req)` on the body of the request is the
argument `bound`. The rules of the request are checked by the validator of the handler,
the argument `validate`; `newID` is the `_id` that the database gives to a document it
inserts. The result is the response and the store after the request. -/
def SliderHandler.UpdateSliderSettingsBody
    (validate : UpdateSliderSettingsRequest → Option String) (h : SliderHandler)
    (now : Int) (newID : ObjectID) (bound : Except String UpdateSliderSettingsRequest)
    (c : Context) : Context × SliderStore :=
  match bound with
  | .error _ => (c.JSON 400 (.error "Invalid request payload"), h.db)
  | .ok req =>
    match validate req with
    | some msg => (c.JSON 400 (.error msg), h.db)
    | none =>
      let update := SliderHandler.settingsDocument now req
      let c := c.emit (.updateOne "slider_settings" [] update true)
      match h.db.UpsertSettings newID update with
      | .error _ => (c.JSON 500 (.error "Failed to update settings"), h.db)
      | .ok db =>
        let c := c.emit (.db "slider_settings" "FindOne")
        match db.FindSettings with
        | .error _ => (c.JSON 500 (.error "Failed to fetch updated settings"), db)
        | .ok settings =>
          (c.JSON 200 (.settingsUpdated "Settings updated successfully" settings.response),
            db)

/-- The states of the database that the invariant of the slide duration speaks of: those
reached from an empty collection `slider_settings` by calls of `GetSliders` and of
`UpdateSliderSettings`, the latter on a request that is bound and passes the rules of its
struct tags. -/
inductive SettingsReachable : SliderStore → Prop where
  | empty (sliders : List Slider) : SettingsReachable ⟨sliders, []⟩
  | GetSliders (db : SliderStore) (now : Int) (newID : ObjectID) (r : Incoming)
      (c : Context) :
      SettingsReachable db →
      SettingsReachable (SliderHandler.GetSliders ⟨db⟩ now newID r c).2
  | UpdateSliderSettings (db : SliderStore) (now : Int) (newID : ObjectID)
      (bound : Except String UpdateSliderSettingsRequest) (c : Context) :
      SettingsReachable db →
      SettingsReachable (SliderHandler.UpdateSliderSettingsBody
        validateUpdateSliderSettings ⟨db⟩ now newID bound c).2

/-- The states of the database that the invariant of the slider order speaks of: those
reached from an empty collection `slider` by calls of `UploadSliderImage` and of
`DeleteSlider` that are answered 200. -/
inductive SlidersReachable : SliderStore → Prop where
  | empty (settings : List Document) : SlidersReachable ⟨[], settings⟩
  | UploadSliderImage (db : SliderStore) (now : Int) (newID : ObjectID) (fs : FileCalls)
      (w : SliderCalls) (r : Incoming) (header : FileHeader) (c : Context) :
      SlidersReachable db →
      (SliderHandler.UploadSliderImageStore ⟨db⟩ now newID fs w r header c).1.status
        = some 200 →
      SlidersReachable
        (SliderHandler.UploadSliderImageStore ⟨db⟩ now newID fs w r header c).2
  | DeleteSlider (db : SliderStore) (r : Incoming) (c : Context) :
      SlidersReachable db →
      (SliderHandler.DeleteSliderBody ⟨db⟩ r c).1.status = some 200 →
      SlidersReachable (SliderHandler.DeleteSliderBody ⟨db⟩ r c).2

/-! The remaining handlers of `handlers/product.go` and `handlers/slider.go` behind their
checks, so that every handler of the package is embedded in full. -/

/-- The code of `ProductHandler.CreateProduct` behind the category check, for the request
`req` that passed the checks: the caller's ID, read from the context under `user_id` at
the start of the handler, becomes the creator of the product. A `user_id` that is not a
string makes the type assertion panic; the recovery middleware answers 500. `newID` is
the value of `primitive.NewObjectID`, and `InsertOne` what the database answers to the
insertion (`none` when it succeeds). -/
def ProductHandler.CreateProductStore (now : Int) (newID : ObjectID)
    (InsertOne : Option DBError) (r : Incoming) (req : CreateProductRequest) :
    HandlerFunc := fun c =>
  match c.Get "user_id" with
  | some (.str userID) =>
    match ObjectIDFromHex userID with
    | none => c.JSON 400 (.error "Invalid user ID")
    | some adminID =>
      let product : Product :=
        { ID := newID, Name := req.Name, Price := req.Price, Category := ⟨req.Category⟩,
          ImageURL := "", Description := req.Description,
          Specification := req.Specification, Material := req.Material,
          InStock := req.InStock, CreatedBy := adminID, CreatedAt := now,
          UpdatedAt := now }
      let c := c.emit (.db "products" "InsertOne")
      match InsertOne with
      | some _ => c.JSON 500 (.error "Failed to create product")
      | none =>
        c.JSON 201 (.product "Product created successfully"
          (product.ToResponseWithBaseURL (getBaseURL r c)))
  | _ => (c.JSON 500 .empty).Abort

/-- The method `ProductHandler.GetProduct`; `FindOne` is what the database answers to the
query by the product ID. -/
def ProductHandler.GetProduct (FindOne : Except DBError Product) (r : Incoming) :
    HandlerFunc := fun c =>
  match ObjectIDFromHex (r.Param "id") with
  | none => c.JSON 400 (.error "Invalid product ID")
  | some _ =>
    let c := c.emit (.db "products" "FindOne")
    match FindOne with
    | .error .ErrNoDocuments => c.JSON 404 (.error "Product not found")
    | .error _ => c.JSON 500 (.error "Failed to fetch product")
    | .ok product =>
      c.JSON 200 (.productOnly (product.ToResponseWithBaseURL (getBaseURL r c)))

/-- The call `filepath.Join("uploads", "products", filename)` for a file name that
`filepath.Base` returns. -/
def joinUploadsProducts (filename : String) : String :=
  if filename = "/" ∨ filename = "." then "uploads/products"
  else if filename = ".." then "uploads"
  else "uploads/products/" ++ filename

/-- What the database answers to the calls of `DeleteProduct` on the collection
`products`: `FindOne`, and then `DeleteOne` with its count of deleted documents. -/
structure DeleteCalls where
  FindOne : Except DBError Product
  DeleteOne : Except DBError Int
deriving DecidableEq, Repr

/-- The code of `ProductHandler.DeleteProduct` behind the role check. -/
def ProductHandler.DeleteProductBody (w : DeleteCalls) (r : Incoming) : HandlerFunc :=
  fun c =>
  match ObjectIDFromHex (r.Param "id") with
  | none => c.JSON 400 (.error "Invalid product ID")
  | some _ =>
    let c := c.emit (.db "products" "FindOne")
    match w.FindOne with
    | .error .ErrNoDocuments => c.JSON 404 (.error "Product not found")
    | .error _ => c.JSON 500 (.error "Failed to fetch product")
    | .ok product =>
      let c := c.emit (.db "products" "DeleteOne")
      match w.DeleteOne with
      | .error _ => c.JSON 500 (.error "Failed to delete product")
      | .ok deletedCount =>
        if deletedCount = 0 then c.JSON 404 (.error "Product not found")
        else
          let c :=
            if product.ImageURL ≠ "" then
              c.emit (.fs "Remove" (joinUploadsProducts (Base product.ImageURL)))
            else c
          c.JSON 200 (.message "Product deleted successfully")

/-- The code of `SliderHandler.GetAllSliders` behind the role check. -/
def SliderHandler.GetAllSlidersBody (h : SliderHandler) (r : Incoming) : HandlerFunc :=
  fun c =>
  let c := c.emit (.db "slider" "Find")
  match h.db.Find with
  | .error _ => c.JSON 500 (.error "Failed to fetch sliders")
  | .ok sliders =>
    let baseURL := getBaseURL r c
    let sliderResponses := sliders.map fun slider => slider.ToResponseWithBaseURL baseURL
    c.JSON 200 (.sliderList sliderResponses sliderResponses.length)

/-! ### Package `server` -/

/-- A route of the router: method, path and handler chain. -/
structure Route where
  Method : String
  Path : String
  handlers : List HandlerFunc

/-- The protected group of `setupRouter`: `AuthMiddleware` is installed on the group, and
the group has the routes `GET /api/profile` and `GET /api/admin/dashboard`, the second one
behind `AdminMiddleware`. The global middlewares of the router are left out: recovery and
logging only observe the request, and CORS is missing from the sources and has no part in
authentication in the spec. -/
def protectedRoutes (keys : ContextKeys) (authHandler : AuthHandler)
    (jwtManager : JWTManager) (now : Int) : List Route :=
  [ { Method := "GET", Path := "/api/profile",
      handlers := [AuthMiddleware keys jwtManager now, authHandler.GetProfile] },
    { Method := "GET", Path := "/api/admin/dashboard",
      handlers := [AuthMiddleware keys jwtManager now, AdminMiddleware keys,
        authHandler.AdminDashboard] } ]

/-- The router at work: the chain of the first route that matches the method and path of
the request runs on a fresh context; no match is answered 404. -/
def serve (routes : List Route) (req : Request) : Context :=
  match routes.find? (fun r => r.Method = req.Method ∧ r.Path = req.Path) with
  | some r => runChain r.handlers (newContext req)
  | none => (newContext req).JSON 404 .empty

/-! ## Theorems -/

/-! ### Password hasher -/

theorem saltText_chars (salt : List Bool) : ∀ c ∈ saltText salt, c = '0' ∨ c = '1' := by
  intro c hc
  unfold saltText at hc
  rcases List.mem_map.mp hc with ⟨b, _, hb⟩
  cases b <;> simp at hb <;> simp [← hb]

theorem saltText_surjective (s : List Char) (hs : ∀ c ∈ s, c = '0' ∨ c = '1') :
    saltText (s.map fun c => decide (c = '1')) = s := by
  induction s with
  | nil => rfl
  | cons c cs ih =>
    have hcs : ∀ x ∈ cs, x = '0' ∨ x = '1' := fun x hx => hs x (List.mem_cons_of_mem _ hx)
    have ih2 := ih hcs
    unfold saltText at ih2 ⊢
    rw [List.map_cons, List.map_cons, ih2]
    rcases hs c (by simp) with h | h <;> subst h <;> rfl

theorem splitSalt_append (s d : List Char) (hs : ∀ c ∈ s, c = '0' ∨ c = '1') :
    splitSalt (s ++ '$' :: d) = some (s, d) := by
  induction s with
  | nil => simp [splitSalt]
  | cons c cs ih =>
    have hcs : ∀ x ∈ cs, x = '0' ∨ x = '1' := fun x hx => hs x (List.mem_cons_of_mem _ hx)
    have hc : c = '0' ∨ c = '1' := hs c (by simp)
    have hne : c ≠ '$' := by rcases hc with h | h <;> subst h <;> decide
    simp [splitSalt, hne, hc, ih hcs]

theorem splitSalt_some (l s d : List Char) (h : splitSalt l = some (s, d)) :
    l = s ++ '$' :: d ∧ ∀ c ∈ s, c = '0' ∨ c = '1' := by
  induction l generalizing s with
  | nil => simp [splitSalt] at h
  | cons c cs ih =>
    unfold splitSalt at h
    split at h
    · rename_i hc
      simp only [Option.some.injEq, Prod.mk.injEq] at h
      obtain ⟨rfl, rfl⟩ := h
      simp [hc]
    · split at h
      · rename_i hbit
        split at h
        · rename_i a b hab
          simp only [Option.some.injEq, Prod.mk.injEq] at h
          obtain ⟨rfl, rfl⟩ := h
          obtain ⟨h1, h2⟩ := ih a hab
          refine ⟨by simp [h1], ?_⟩
          intro x hx
          rcases List.mem_cons.mp hx with hx | hx
          · exact hx ▸ hbit
          · exact h2 x hx
        · simp at h
      · simp at h

theorem parseHash_HashPassword (salt : List Bool) (p : String) :
    ∃ h, HashPassword salt p = .ok h ∧
      parseHash h = some (saltText salt, digest (saltText salt) p.data) :=
  ⟨_, rfl, by
    simp only [parseHash]
    exact splitSalt_append _ _ (saltText_chars salt)⟩

theorem CheckPasswordHash_HashPassword (salt : List Bool) (p q h : String)
    (hh : HashPassword salt q = .ok h) : CheckPasswordHash p h = true ↔ p = q := by
  obtain ⟨h2, hh2, hp⟩ := parseHash_HashPassword salt q
  have : h = h2 := by
    rw [hh] at hh2
    exact Except.ok.inj hh2
  subst this
  simp only [CheckPasswordHash, hp, digest, decide_eq_true_eq]
  constructor
  · intro heq
    have := List.append_cancel_left heq
    exact (String.ext this).symm
  · intro heq
    rw [heq]

theorem CheckPasswordHash_true_iff (p h : String) :
    CheckPasswordHash p h = true ↔ ∃ salt, HashPassword salt p = .ok h := by
  constructor
  · intro hc
    unfold CheckPasswordHash at hc
    split at hc
    · simp at hc
    · rename_i s d hparse
      have hd : d = digest s p.data := by simpa using hc
      unfold parseHash at hparse
      split at hparse
      · rename_i rest hdata
        obtain ⟨hrest, hbits⟩ := splitSalt_some rest s d hparse
        refine ⟨s.map fun c => decide (c = '1'), ?_⟩
        unfold HashPassword
        rw [saltText_surjective s hbits]
        congr 1
        apply String.ext
        simp only [hdata, hrest, hd, List.cons_append]
      · simp at hparse
  · rintro ⟨salt, hs⟩
    exact (CheckPasswordHash_HashPassword salt p p h hs).mpr rfl

/-- C2 (password round trip): for every plaintext `p`, the empty one included, and every
salt the hasher may draw, `HashPassword p` succeeds with a hash `h`, and
`CheckPasswordHash p h` is true. -/
theorem password_round_trip (salt : List Bool) (p : String) :
    ∃ h, HashPassword salt p = .ok h ∧ CheckPasswordHash p h = true :=
  ⟨_, rfl, (CheckPasswordHash_HashPassword salt p p _ rfl).mpr rfl⟩

/-- C7 (wrong password is rejected): for every hash `h` that `HashPassword` produces from a
plaintext `q`, `CheckPasswordHash p h` is false for every `p ≠ q`, and it is true iff `p`
is the plaintext that was hashed. -/
theorem wrong_password_rejected (salt : List Bool) (p q h : String)
    (hh : HashPassword salt q = .ok h) :
    (p ≠ q → CheckPasswordHash p h = false) ∧ (CheckPasswordHash p h = true ↔ p = q) := by
  have hiff := CheckPasswordHash_HashPassword salt p q h hh
  refine ⟨?_, hiff⟩
  intro hne
  cases hc : CheckPasswordHash p h with
  | false => rfl
  | true => exact absurd (hiff.mp hc) hne

/-- C7 at work: the wrong password of the package's test. -/
theorem wrong_password_rejected_witness :
    ("wrongpassword" ≠ "password123" →
      CheckPasswordHash "wrongpassword" "$10$10password123" = false) ∧
    (CheckPasswordHash "wrongpassword" "$10$10password123" = true ↔
      "wrongpassword" = "password123") :=
  wrong_password_rejected [true, false] "wrongpassword" "password123" "$10$10password123"
    (by decide)

/-- C8 (`HashPassword` never fails): for every plaintext of any length, the empty string
included, and every salt, `HashPassword` returns no error, and its hash is non-empty and
different from the plaintext. -/
theorem hash_never_fails (salt : List Bool) (p : String) :
    ∃ h, HashPassword salt p = .ok h ∧ h ≠ "" ∧ h ≠ p := by
  refine ⟨_, rfl, ?_, ?_⟩
  · intro h
    have := congrArg String.data h
    simp at this
  · intro h
    have := congrArg (fun s => s.data.length) h
    simp [digest] at this
    omega

/-! ### Token codec -/

theorem digitsFuel_lt (fuel n : Nat) : ∀ d ∈ digitsFuel fuel n, d < 10 := by
  induction fuel generalizing n with
  | zero => simp [digitsFuel]
  | succ f ih =>
    intro d hd
    unfold digitsFuel at hd
    split at hd
    · simp at hd
    · rcases List.mem_cons.mp hd with h | h
      · omega
      · exact ih _ d h

theorem digitsFuel_value (fuel n : Nat) (h : n ≤ fuel) :
    (digitsFuel fuel n).foldr (fun d a => 10 * a + d) 0 = n := by
  induction fuel generalizing n with
  | zero =>
    have : n = 0 := by omega
    simp [digitsFuel, this]
  | succ f ih =>
    unfold digitsFuel
    split
    · simp_all
    · have hlt : n / 10 ≤ f := by omega
      simp only [List.foldr_cons, ih _ hlt]
      omega

theorem digitChar_spec (d : Nat) (h : d < 10) :
    digitChar d ≠ ':' ∧ (digitChar d).isDigit = true ∧ (digitChar d).toNat - 48 = d := by
  interval_cases d <;> decide

theorem parseNat_digits (ds : List Nat) (hds : ∀ d ∈ ds, d < 10) (acc : Nat)
    (rest : List Char) :
    parseNat acc (ds.map digitChar ++ ':' :: rest)
      = some (ds.foldl (fun a d => 10 * a + d) acc, rest) := by
  induction ds generalizing acc with
  | nil => simp [parseNat]
  | cons d ds ih =>
    obtain ⟨h1, h2, h3⟩ := digitChar_spec d (hds d (by simp))
    have hds2 : ∀ x ∈ ds, x < 10 := fun x hx => hds x (List.mem_cons_of_mem _ hx)
    simp only [List.map_cons, List.cons_append, parseNat, h1, h2, h3, if_true, if_false,
      List.foldl_cons]
    exact ih hds2 _

theorem parseNat_encNat (n : Nat) (rest : List Char) :
    parseNat 0 (encNat n ++ ':' :: rest) = some (n, rest) := by
  unfold encNat
  split
  · subst n
    rfl
  · rw [parseNat_digits _ (fun d hd => digitsFuel_lt n n d (List.mem_reverse.mp hd))]
    rw [List.foldl_reverse, digitsFuel_value n n (le_refl n)]

theorem isDigit_bounds (x : Char) (h : x.isDigit = true) : 48 ≤ x.toNat ∧ x.toNat ≤ 57 := by
  simp only [Char.isDigit, Bool.and_eq_true, decide_eq_true_eq] at h
  obtain ⟨h1, h2⟩ := h
  have h1' : (48 : UInt32) ≤ x.val := h1
  rw [UInt32.le_def] at h1' h2
  constructor
  · simpa [Char.toNat] using h1'
  · simpa [Char.toNat] using h2

theorem digitChar_toNat (x : Char) (h : x.isDigit = true) :
    x.toNat - 48 < 10 ∧ digitChar (x.toNat - 48) = x := by
  obtain ⟨h1, h2⟩ := isDigit_bounds x h
  refine ⟨by omega, ?_⟩
  unfold digitChar
  have : 48 + (x.toNat - 48) = x.toNat := by omega
  rw [this, Char.ofNat_toNat]

theorem digitsFuel_indep (f g n : Nat) (hf : n ≤ f) (hg : n ≤ g) :
    digitsFuel f n = digitsFuel g n := by
  induction f generalizing n g with
  | zero =>
    have : n = 0 := by omega
    subst this
    cases g <;> simp [digitsFuel]
  | succ f ih =>
    by_cases hn : n = 0
    · subst hn
      cases g <;> simp [digitsFuel]
    · cases g with
      | zero => omega
      | succ g =>
        simp only [digitsFuel, hn, if_false]
        rw [ih g (n / 10) (by omega) (by omega)]

theorem digitsFuel_step (n : Nat) (hn : 0 < n) :
    digitsFuel n n = n % 10 :: digitsFuel (n / 10) (n / 10) := by
  cases n with
  | zero => omega
  | succ k =>
    simp only [digitsFuel, Nat.succ_ne_zero, if_false]
    rw [digitsFuel_indep k ((k + 1) / 10) ((k + 1) / 10) (by omega) (le_refl _)]

theorem digitsFuel_foldl (vs : List Nat) (hvs : ∀ d ∈ vs, d < 10) (acc : Nat) (hacc : 0 < acc) :
    digitsFuel (vs.foldl (fun a d => 10 * a + d) acc) (vs.foldl (fun a d => 10 * a + d) acc)
      = vs.reverse ++ digitsFuel acc acc := by
  induction vs generalizing acc with
  | nil => simp
  | cons d vs ih =>
    have hd : d < 10 := hvs d (by simp)
    have hvs2 : ∀ x ∈ vs, x < 10 := fun x hx => hvs x (List.mem_cons_of_mem _ hx)
    simp only [List.foldl_cons, List.reverse_cons, List.append_assoc, List.singleton_append]
    rw [ih hvs2 (10 * acc + d) (by omega), digitsFuel_step (10 * acc + d) (by omega)]
    have h1 : (10 * acc + d) % 10 = d := by omega
    have h2 : (10 * acc + d) / 10 = acc := by omega
    rw [h1, h2]

theorem digitsFuel_small (d : Nat) (h0 : 0 < d) (h : d < 10) : digitsFuel d d = [d] := by
  rw [digitsFuel_step d h0]
  have h1 : d % 10 = d := by omega
  have h2 : d / 10 = 0 := by omega
  rw [h1, h2]
  rfl

theorem encNat_foldl (d : Nat) (vs : List Nat) (hd0 : 0 < d) (hd : d < 10)
    (hvs : ∀ x ∈ vs, x < 10) :
    encNat ((d :: vs).foldl (fun a x => 10 * a + x) 0) = (d :: vs).map digitChar := by
  have hval : (d :: vs).foldl (fun a x => 10 * a + x) 0
      = vs.foldl (fun a x => 10 * a + x) d := by simp
  have hdig := digitsFuel_foldl vs hvs d hd0
  rw [digitsFuel_small d hd0 hd] at hdig
  rw [hval]
  unfold encNat
  split
  · rename_i h0
    rw [h0] at hdig
    simp [digitsFuel] at hdig
  · rw [hdig]
    simp

theorem parseNat_some (cs : List Char) (acc n : Nat) (rest : List Char)
    (h : parseNat acc cs = some (n, rest)) :
    ∃ ds, cs = ds ++ ':' :: rest ∧ (∀ x ∈ ds, x.isDigit = true) ∧
      n = ds.foldl (fun a x => 10 * a + (x.toNat - 48)) acc := by
  induction cs generalizing acc with
  | nil => simp [parseNat] at h
  | cons c cs ih =>
    unfold parseNat at h
    split at h
    · rename_i hc
      simp only [Option.some.injEq, Prod.mk.injEq] at h
      exact ⟨[], by simp [hc, h.2], by simp, by simp [h.1]⟩
    · split at h
      · rename_i hcolon hdig
        obtain ⟨ds, h1, h2, h3⟩ := ih _ h
        refine ⟨c :: ds, by simp [h1], ?_, by simp [h3]⟩
        intro x hx
        rcases List.mem_cons.mp hx with rfl | hx
        · exact hdig
        · exact h2 x hx
      · simp at h

theorem digitsFuel_reverse_head (n : Nat) (hn : 0 < n) :
    ∃ d vs, 0 < d ∧ d < 10 ∧ (∀ x ∈ vs, x < 10) ∧ (digitsFuel n n).reverse = d :: vs := by
  induction n using Nat.strong_induction_on with
  | _ n ih =>
    by_cases hsmall : n < 10
    · exact ⟨n, [], hn, hsmall, by simp, by rw [digitsFuel_small n hn hsmall]; rfl⟩
    · obtain ⟨d, vs, h1, h2, h3, h4⟩ := ih (n / 10) (by omega) (by omega)
      refine ⟨d, vs ++ [n % 10], h1, h2, ?_, ?_⟩
      · intro x hx
        rcases List.mem_append.mp hx with h | h
        · exact h3 x h
        · simp only [List.mem_singleton] at h
          omega
      · rw [digitsFuel_step n hn, List.reverse_cons, h4]
        rfl

theorem digitChar_nonzero (d : Nat) (h0 : 0 < d) (h : d < 10) :
    digitChar d ≠ ':' ∧ digitChar d ≠ '0' := by
  interval_cases d <;> decide

theorem parseCanonical_encNat (n : Nat) (rest : List Char) :
    parseCanonical (encNat n ++ ':' :: rest) = some (n, rest) := by
  by_cases hn : n = 0
  · subst hn
    rfl
  · obtain ⟨d, vs, h1, h2, _, h4⟩ := digitsFuel_reverse_head n (by omega)
    obtain ⟨hc, hz⟩ := digitChar_nonzero d h1 h2
    have hp := parseNat_encNat n rest
    have henc : encNat n = digitChar d :: vs.map digitChar := by
      simp [encNat, hn, h4]
    rw [henc] at hp ⊢
    simp only [List.cons_append, parseCanonical, hc, hz, if_false]
    exact hp

theorem parseCanonical_some (cs : List Char) (n : Nat) (rest : List Char)
    (h : parseCanonical cs = some (n, rest)) : cs = encNat n ++ ':' :: rest := by
  unfold parseCanonical at h
  split at h
  · simp at h
  · rename_i c tl
    split at h
    · simp at h
    · rename_i hcolon
      split at h
      · rename_i hzero
        split at h
        · simp only [Option.some.injEq, Prod.mk.injEq] at h
          obtain ⟨rfl, rfl⟩ := h
          subst hzero
          rfl
        · simp at h
      · rename_i hzero
        obtain ⟨ds, h1, h2, h3⟩ := parseNat_some _ _ _ _ h
        cases ds with
        | nil =>
          simp only [List.nil_append, List.cons.injEq] at h1
          exact absurd h1.1 hcolon
        | cons x ds =>
          simp only [List.cons_append, List.cons.injEq] at h1
          obtain ⟨rfl, htl⟩ := h1
          have hx := digitChar_toNat c (h2 c (by simp))
          have hx0 : 0 < c.toNat - 48 := by
            rcases Nat.eq_zero_or_pos (c.toNat - 48) with h0 | h0
            · have := hx.2
              rw [h0] at this
              exact absurd this.symm hzero
            · exact h0
          have hmap : (c :: ds) = ((c.toNat - 48) :: ds.map (fun y => y.toNat - 48)).map
              digitChar := by
            simp only [List.map_cons, hx.2, List.map_map, List.cons.injEq, true_and]
            symm
            calc List.map (digitChar ∘ fun y => y.toNat - 48) ds
                = List.map id ds := by
                  apply List.map_congr_left
                  intro y hy
                  exact (digitChar_toNat y (h2 y (List.mem_cons_of_mem _ hy))).2
              _ = ds := List.map_id ds
          have hval : n = ((c.toNat - 48) :: ds.map (fun y => y.toNat - 48)).foldl
              (fun a x => 10 * a + x) 0 := by
            rw [h3]
            simp only [List.foldl_cons, List.foldl_map]
          have henc := encNat_foldl (c.toNat - 48) (ds.map (fun y => y.toNat - 48)) hx0 hx.1
            (by
              intro y hy
              obtain ⟨z, hz, rfl⟩ := List.mem_map.mp hy
              exact (digitChar_toNat z (h2 z (List.mem_cons_of_mem _ hz))).1)
          rw [hval, henc, ← hmap, htl]
          rfl

theorem parseStr_encStr (s : String) (rest : List Char) :
    parseStr (encStr s ++ rest) = some (s, rest) := by
  unfold parseStr encStr
  rw [List.append_assoc, List.cons_append, parseCanonical_encNat]
  simp

theorem parseStr_some (cs : List Char) (s : String) (rest : List Char)
    (h : parseStr cs = some (s, rest)) : cs = encStr s ++ rest := by
  unfold parseStr at h
  split at h
  · rename_i n r hp
    split at h
    · rename_i hn
      simp only [Option.some.injEq, Prod.mk.injEq] at h
      obtain ⟨rfl, rfl⟩ := h
      have hlen : (List.take n r).length = n := by
        rw [List.length_take]
        omega
      rw [parseCanonical_some cs n r hp]
      simp only [encStr, hlen, List.append_assoc, List.cons_append, List.take_append_drop]
    · simp at h
  · simp at h

theorem encNat_head_ne_minus (n : Nat) (rest : List Char) :
    ∀ cs, encNat n ++ ':' :: rest ≠ '-' :: cs := by
  intro cs h
  unfold encNat at h
  split at h
  · exact absurd (List.cons.inj h).1 (by decide)
  cases hl : (digitsFuel n n).reverse with
  | nil => simp [hl] at h
  | cons d ds =>
    have hd : d < 10 := digitsFuel_lt n n d (List.mem_reverse.mp (by simp [hl]))
    simp only [hl, List.map_cons, List.cons_append, List.cons.injEq] at h
    have h1 := h.1
    clear h hl
    revert h1
    interval_cases d <;> decide

theorem parseInt_encInt (i : Int) (rest : List Char) :
    parseInt (encInt i ++ rest) = some (i, rest) := by
  unfold encInt
  by_cases hi : i < 0
  · simp only [hi, if_true, List.cons_append, List.nil_append, List.append_assoc,
      List.singleton_append, parseInt, parseCanonical_encNat]
    have hne : ¬ i.natAbs = 0 := by omega
    have habs : -(i.natAbs : Int) = i := by omega
    simp only [hne, if_false, habs]
  · simp only [hi, if_false, List.nil_append, List.append_assoc, List.singleton_append]
    have hne := encNat_head_ne_minus i.natAbs rest
    unfold parseInt
    split
    · rename_i cs heq
      exact absurd heq (hne cs)
    · rw [parseCanonical_encNat]
      have habs : (i.natAbs : Int) = i := by omega
      simp only [habs]

theorem parseInt_some (cs : List Char) (i : Int) (rest : List Char)
    (h : parseInt cs = some (i, rest)) : cs = encInt i ++ rest := by
  unfold parseInt at h
  split at h
  · rename_i tl
    split at h
    · rename_i n r hp
      split at h
      · simp at h
      · rename_i hn
        simp only [Option.some.injEq, Prod.mk.injEq] at h
        obtain ⟨rfl, rfl⟩ := h
        have hneg : -(n : Int) < 0 := by omega
        have habs : (-(n : Int)).natAbs = n := by omega
        rw [parseCanonical_some tl n r hp]
        simp [encInt, hneg, habs]
    · simp at h
  · rename_i hminus
    split at h
    · rename_i n r hp
      simp only [Option.some.injEq, Prod.mk.injEq] at h
      obtain ⟨rfl, rfl⟩ := h
      have hneg : ¬ ((n : Int) < 0) := by omega
      rw [parseCanonical_some cs n r hp]
      simp [encInt, hneg]
    · simp at h

theorem decodeToken_encode (c : Claims) (sig : List Char) :
    decodeToken (String.mk (encodeClaims c ++ sig)) = some (c, sig) := by
  simp only [decodeToken, encodeClaims, List.append_assoc, parseStr_encStr, parseInt_encInt]

theorem decodeToken_some (tokenString : String) (c : Claims) (sig : List Char)
    (h : decodeToken tokenString = some (c, sig)) :
    tokenString = String.mk (encodeClaims c ++ sig) := by
  unfold decodeToken at h
  split at h
  · simp at h
  · rename_i userID r1 h1
    split at h
    · simp at h
    · rename_i email r2 h2
      split at h
      · simp at h
      · rename_i role r3 h3
        split at h
        · simp at h
        · rename_i iat r4 h4
          split at h
          · simp at h
          · rename_i exp sig5 h5
            simp only [Option.some.injEq, Prod.mk.injEq] at h
            obtain ⟨rfl, rfl⟩ := h
            apply String.ext
            rw [parseStr_some _ _ _ h1, parseStr_some _ _ _ h2, parseStr_some _ _ _ h3,
              parseInt_some _ _ _ h4, parseInt_some _ _ _ h5]
            simp [encodeClaims]

/-! ### Token manager -/

theorem mac_eq_iff (a b : String) (msg : List Char) : mac a msg = mac b msg ↔ a = b := by
  unfold mac
  constructor
  · intro h
    exact String.ext (List.append_cancel_right h)
  · intro h
    rw [h]

theorem ValidateToken_signed (m issuer : JWTManager) (now : Int) (c : Claims) :
    ValidateToken m now (String.mk (encodeClaims c ++ mac issuer.secretKey (encodeClaims c)))
      = if issuer.secretKey ≠ m.secretKey then .error .InvalidToken
        else if c.ExpiresAt ≤ now then .error .TokenExpired
        else .ok c := by
  simp only [ValidateToken, decodeToken_encode, ne_eq, mac_eq_iff]

/-- C1 (token round trip): for every JWT configuration with a positive expiration and every
`(userID, email, role)`, empty or not, `GenerateToken` succeeds, and `ValidateToken` of the
returned token, at the instant of issue and under the same manager, succeeds with claims
whose `UserID`, `Email` and `Role` are the issued ones. -/
theorem token_round_trip (cfg : JWTConfig) (now : Int) (userID email role : String)
    (hpos : 0 < cfg.Expiration) :
    ∃ token, GenerateToken (NewJWTManager cfg) now userID email role = .ok token ∧
      ∃ claims, ValidateToken (NewJWTManager cfg) now token = .ok claims ∧
        claims.UserID = userID ∧ claims.Email = email ∧ claims.Role = role := by
  refine ⟨_, rfl, ⟨userID, email, role, now, now + cfg.Expiration⟩, ?_, rfl, rfl, rfl⟩
  rw [ValidateToken_signed]
  have hlt : ¬ (now + cfg.Expiration ≤ now) := by omega
  simp [NewJWTManager, hlt]

/-- C1 at work: the token of the package's test, with a lifetime of 24 units. -/
theorem token_round_trip_witness :
    0 < (24 : Int) ∧
    ∃ token, GenerateToken (NewJWTManager ⟨"test-secret-key", 24⟩) 100
        "507f1f77bcf86cd799439011" "test@example.com" "user" = .ok token ∧
      ∃ claims, ValidateToken (NewJWTManager ⟨"test-secret-key", 24⟩) 100 token = .ok claims ∧
        claims.UserID = "507f1f77bcf86cd799439011" ∧ claims.Email = "test@example.com" ∧
        claims.Role = "user" :=
  ⟨by decide, token_round_trip ⟨"test-secret-key", 24⟩ 100 "507f1f77bcf86cd799439011"
    "test@example.com" "user" (by decide)⟩

/-- C3 (token expiry): a token issued at instant `t` by a manager with expiration `d`
carries `expires_at = t + d`; under that manager `ValidateToken` at instant `now` succeeds
exactly when `now < t + d`, and for every `now ≥ t + d` it fails with the expiry error
`TokenExpired`, not with the signature error `InvalidToken`. -/
theorem token_expiry (m : JWTManager) (t now : Int) (userID email role : String) :
    ∃ token, GenerateToken m t userID email role = .ok token ∧
      (∃ claims sig, decodeToken token = some (claims, sig) ∧
        claims.IssuedAt = t ∧ claims.ExpiresAt = t + m.expiration) ∧
      ValidateToken m now token =
        (if now < t + m.expiration
          then .ok ⟨userID, email, role, t, t + m.expiration⟩
          else .error .TokenExpired) ∧
      TokenError.TokenExpired ≠ TokenError.InvalidToken := by
  refine ⟨_, rfl, ⟨_, _, decodeToken_encode _ _, rfl, rfl⟩, ?_, by decide⟩
  rw [ValidateToken_signed]
  by_cases h : now < t + m.expiration
  · have h2 : ¬ (t + m.expiration ≤ now) := by omega
    simp [h, h2]
  · have h2 : t + m.expiration ≤ now := by omega
    simp [h, h2]

/-- C4 (secret binding): for every two managers configured with different secrets A and B,
a token produced by `GenerateToken` under A fails `ValidateToken` under B at every instant:
an error is returned and no claims. -/
theorem secret_binding (mA mB : JWTManager) (t now : Int) (userID email role : String)
    (hAB : mA.secretKey ≠ mB.secretKey) :
    ∃ token, GenerateToken mA t userID email role = .ok token ∧
      ValidateToken mB now token = .error .InvalidToken := by
  refine ⟨_, rfl, ?_⟩
  rw [ValidateToken_signed]
  simp [hAB]

/-- C4 at work: two managers with the secrets `secret-A` and `secret-B`. -/
theorem secret_binding_witness :
    (JWTManager.mk "secret-A" 24).secretKey ≠ (JWTManager.mk "secret-B" 24).secretKey ∧
    ∃ token, GenerateToken ⟨"secret-A", 24⟩ 100 "u1" "a@b.com" "user" = .ok token ∧
      ValidateToken ⟨"secret-B", 24⟩ 101 token = .error .InvalidToken :=
  ⟨by decide, secret_binding ⟨"secret-A", 24⟩ ⟨"secret-B", 24⟩ 100 101 "u1" "a@b.com" "user"
    (by decide)⟩

theorem GenerateToken_eq (m : JWTManager) (t : Int) (userID email role : String) :
    GenerateToken m t userID email role
      = .ok (String.mk (encodeClaims ⟨userID, email, role, t, t + m.expiration⟩ ++
          mac m.secretKey (encodeClaims ⟨userID, email, role, t, t + m.expiration⟩))) := rfl

theorem ValidateToken_generated (m : JWTManager) (now expiration t : Int)
    (userID email role tokenString : String)
    (h : GenerateToken ⟨m.secretKey, expiration⟩ t userID email role = .ok tokenString) :
    ValidateToken m now tokenString ≠ .error .InvalidToken := by
  rw [GenerateToken_eq] at h
  have hs := (Except.ok.inj h).symm
  rw [hs]
  have := ValidateToken_signed m ⟨m.secretKey, expiration⟩ now
    ⟨userID, email, role, t, t + expiration⟩
  simp only [ne_eq, not_true_eq_false, if_false] at this
  rw [this]
  split <;> simp

theorem ValidateToken_invalid_iff (m : JWTManager) (now : Int) (tokenString : String) :
    ValidateToken m now tokenString = .error .InvalidToken ↔
      ∀ (expiration t : Int) (userID email role : String),
        GenerateToken ⟨m.secretKey, expiration⟩ t userID email role ≠ .ok tokenString := by
  constructor
  · intro hv expiration t userID email role hg
    exact ValidateToken_generated m now expiration t userID email role tokenString hg hv
  · intro hbad
    unfold ValidateToken
    split
    · rfl
    · rename_i claims sig hdec
      by_cases hsig : sig = mac m.secretKey (encodeClaims claims)
      · exfalso
        have hs := decodeToken_some tokenString claims sig hdec
        apply hbad (claims.ExpiresAt - claims.IssuedAt) claims.IssuedAt claims.UserID
          claims.Email claims.Role
        rw [GenerateToken_eq, hs, hsig]
        have : claims.IssuedAt + (claims.ExpiresAt - claims.IssuedAt) = claims.ExpiresAt := by
          omega
        simp only [this]
      · simp [hsig]

theorem wellFormedSigned_iff (m : JWTManager) (tokenString : String) :
    wellFormedSigned m tokenString = true ↔
      ∃ (expiration t : Int) (userID email role : String),
        GenerateToken ⟨m.secretKey, expiration⟩ t userID email role = .ok tokenString := by
  constructor
  · intro h
    by_contra hno
    have hbad : ∀ (expiration t : Int) (userID email role : String),
        GenerateToken ⟨m.secretKey, expiration⟩ t userID email role ≠ .ok tokenString :=
      fun e t u em r hg => hno ⟨e, t, u, em, r, hg⟩
    have hv := (ValidateToken_invalid_iff m 0 tokenString).2 hbad
    unfold wellFormedSigned at h
    unfold ValidateToken at hv
    split at h
    · simp at h
    · rename_i claims sig hdec
      simp only [decide_eq_true_eq] at h
      simp only [hdec, h, ne_eq, not_true_eq_false, if_false] at hv
      split at hv <;> simp at hv
  · rintro ⟨e, t, u, em, r, hg⟩
    rw [GenerateToken_eq] at hg
    have hs := (Except.ok.inj hg).symm
    rw [hs]
    simp [wellFormedSigned, decodeToken_encode]

/-- C5 (`ValidateToken` rejects bad input): `ValidateToken` is a total function; for the
empty string, for the string `invalid-token` and for every string that is not a
well-formed signed token of the manager, that is, a string that no call of `GenerateToken`
under the manager's secret returns, whatever the configured expiration, the instant and
the identity, it returns the error `InvalidToken` and no claims; such a string fails the
structure-and-signature condition of the spec (§3). -/
theorem validate_rejects_bad_input (m : JWTManager) (now : Int) (tokenString : String)
    (hbad : ∀ (expiration t : Int) (userID email role : String),
      GenerateToken ⟨m.secretKey, expiration⟩ t userID email role ≠ .ok tokenString) :
    ValidateToken m now "" = .error .InvalidToken ∧
    ValidateToken m now "invalid-token" = .error .InvalidToken ∧
    ValidateToken m now tokenString = .error .InvalidToken ∧
    wellFormedSigned m tokenString = false := by
  refine ⟨rfl, rfl, (ValidateToken_invalid_iff m now tokenString).2 hbad, ?_⟩
  cases hw : wellFormedSigned m tokenString with
  | false => rfl
  | true =>
    obtain ⟨e, t, u, em, r, hg⟩ := (wellFormedSigned_iff m tokenString).1 hw
    exact absurd hg (hbad e t u em r)

/-- C5 at work: a string that spells the claims of an issued token with a leading zero
and a second length, under the signature of the issued token; no call of `GenerateToken`
writes it, and it is rejected, while the issued token itself is accepted. -/
theorem validate_rejects_bad_input_witness :
    (∀ (expiration t : Int) (userID email role : String),
      GenerateToken ⟨"k", expiration⟩ t userID email role
        ≠ .ok "02:u101:e04:user100:124:k.2:u11:e4:user100:124:") ∧
    ValidateToken ⟨"k", 24⟩ 110 "" = .error .InvalidToken ∧
    ValidateToken ⟨"k", 24⟩ 110 "invalid-token" = .error .InvalidToken ∧
    ValidateToken ⟨"k", 24⟩ 110 "02:u101:e04:user100:124:k.2:u11:e4:user100:124:"
      = .error .InvalidToken ∧
    GenerateToken ⟨"k", 24⟩ 100 "u1" "e" "user"
      = .ok "2:u11:e4:user100:124:k.2:u11:e4:user100:124:" ∧
    ValidateToken ⟨"k", 24⟩ 110 "2:u11:e4:user100:124:k.2:u11:e4:user100:124:"
      = .ok ⟨"u1", "e", "user", 100, 124⟩ :=
  have hno : ∀ (expiration t : Int) (userID email role : String),
      GenerateToken ⟨"k", expiration⟩ t userID email role
        ≠ .ok "02:u101:e04:user100:124:k.2:u11:e4:user100:124:" :=
    fun expiration t userID email role hg =>
      ValidateToken_generated ⟨"k", 24⟩ 110 expiration t userID email role _ hg (by decide)
  ⟨hno, (validate_rejects_bad_input ⟨"k", 24⟩ 110 _ hno).1,
    (validate_rejects_bad_input ⟨"k", 24⟩ 110 _ hno).2.1,
    (validate_rejects_bad_input ⟨"k", 24⟩ 110 _ hno).2.2.1, by decide, by decide⟩

/-! ### Authentication middleware -/

theorem runChain_aborted (hs : List HandlerFunc) (c : Context) (h : c.aborted = true) :
    runChain hs c = c := by
  cases hs with
  | nil => rfl
  | cons f fs => simp [runChain, h]

theorem AuthMiddleware_no_bearer (keys : ContextKeys) (jwtManager : JWTManager) (now : Int)
    (c : Context) (h : bearerToken (c.GetHeader "Authorization") = none) :
    AuthMiddleware keys jwtManager now c = (c.JSON 401 (.error "Unauthorized")).Abort := by
  unfold AuthMiddleware
  simp only [h]
  split <;> rfl

theorem runChain_AuthMiddleware_no_bearer (keys : ContextKeys) (jwtManager : JWTManager)
    (now : Int) (hs : List HandlerFunc) (req : Request)
    (h : bearerToken ((newContext req).GetHeader "Authorization") = none) :
    runChain (AuthMiddleware keys jwtManager now :: hs) (newContext req)
      = ((newContext req).JSON 401 (.error "Unauthorized")).Abort := by
  have hna : (newContext req).aborted = false := rfl
  simp only [runChain, hna, Bool.false_eq_true, if_false]
  rw [AuthMiddleware_no_bearer keys jwtManager now _ h]
  exact runChain_aborted _ _ rfl

/-- C9 (authentication middleware): for every request to a route of the protected group
that has no Authorization header, or whose header is not of the form `Bearer <token>`, the
response is 401, the chain is aborted, and no effect is recorded: the token manager is not
called and no downstream handler runs. -/
theorem auth_middleware_rejects (keys : ContextKeys) (authHandler : AuthHandler)
    (jwtManager : JWTManager) (now : Int) (req : Request)
    (hroute : ∃ r ∈ protectedRoutes keys authHandler jwtManager now,
      r.Method = req.Method ∧ r.Path = req.Path)
    (hbad : req.Header.lookup "Authorization" = none ∨
      bearerToken ((req.Header.lookup "Authorization").getD "") = none) :
    (serve (protectedRoutes keys authHandler jwtManager now) req).status = some 401 ∧
    (serve (protectedRoutes keys authHandler jwtManager now) req).aborted = true ∧
    (serve (protectedRoutes keys authHandler jwtManager now) req).effects = [] ∧
    (∀ t, Effect.validateToken t ∉
      (serve (protectedRoutes keys authHandler jwtManager now) req).effects) ∧
    (∀ n, Effect.handler n ∉
      (serve (protectedRoutes keys authHandler jwtManager now) req).effects) := by
  have hb : bearerToken ((newContext req).GetHeader "Authorization") = none := by
    rcases hbad with h | h
    · simp only [Context.GetHeader, newContext, h]
      rfl
    · exact h
  have key : serve (protectedRoutes keys authHandler jwtManager now) req
      = ((newContext req).JSON 401 (.error "Unauthorized")).Abort := by
    obtain ⟨r, hr, hm, hp⟩ := hroute
    simp only [protectedRoutes, List.mem_cons, List.mem_singleton, List.not_mem_nil,
      or_false] at hr
    rcases hr with rfl | rfl
    · simp only [serve, protectedRoutes, List.find?, ← hm, ← hp, and_self, decide_True]
      exact runChain_AuthMiddleware_no_bearer keys jwtManager now _ req hb
    · have hne : ¬ ("/api/profile" = "/api/admin/dashboard") := by decide
      simp only [serve, protectedRoutes, List.find?, ← hm, ← hp, hne, and_false, and_self,
        decide_True, decide_False]
      exact runChain_AuthMiddleware_no_bearer keys jwtManager now _ req hb
  rw [key]
  refine ⟨rfl, rfl, rfl, ?_, ?_⟩ <;> intro x hx <;> cases hx

/-- C9 at work: a request for the profile with a Basic authorization header. -/
theorem auth_middleware_rejects_witness :
    (∃ r ∈ protectedRoutes specKeys ⟨⟨[]⟩, ⟨"test-secret-key", 24⟩⟩
        ⟨"test-secret-key", 24⟩ 100,
      r.Method = "GET" ∧ r.Path = "/api/profile") ∧
    bearerToken "Basic dXNlcjpwYXNz" = none ∧
    (serve (protectedRoutes specKeys ⟨⟨[]⟩, ⟨"test-secret-key", 24⟩⟩
        ⟨"test-secret-key", 24⟩ 100)
      ⟨"GET", "/api/profile", [("Authorization", "Basic dXNlcjpwYXNz")]⟩).status
        = some 401 ∧
    (serve (protectedRoutes specKeys ⟨⟨[]⟩, ⟨"test-secret-key", 24⟩⟩
        ⟨"test-secret-key", 24⟩ 100)
      ⟨"GET", "/api/profile", [("Authorization", "Basic dXNlcjpwYXNz")]⟩).effects = [] :=
  have h := auth_middleware_rejects specKeys ⟨⟨[]⟩, ⟨"test-secret-key", 24⟩⟩
    ⟨"test-secret-key", 24⟩ 100
    ⟨"GET", "/api/profile", [("Authorization", "Basic dXNlcjpwYXNz")]⟩
    ⟨_, List.mem_cons_self _ _, rfl, rfl⟩ (Or.inr (by decide))
  ⟨⟨_, List.mem_cons_self _ _, rfl, rfl⟩, by decide, h.1, h.2.2.1⟩

/-! ### Role gate -/

/-- C10 (role gate): for every request context, each admin-only handler answers 403
without running the code behind its gate, hence without any database or file-system
operation, when the value under `user_role` is absent or is not the string `admin`, and
runs the code behind the gate exactly when it is the string `admin`; `CreateProduct` does
so once `user_id` is present, and answers 401 before that. -/
theorem role_gate (c : Context) (body : HandlerFunc) :
    (∀ H ∈ [ProductHandler.UpdateProduct, ProductHandler.DeleteProduct,
        ProductHandler.UploadProductImage, SliderHandler.UploadSliderImage,
        SliderHandler.GetAllSliders, SliderHandler.DeleteSlider,
        SliderHandler.GetSliderSettings, SliderHandler.UpdateSliderSettings],
      (H body c = if c.Get "user_role" = some (Any.str "admin") then body c
        else c.JSON 403 (.error "Admin access required")) ∧
      ((∀ b, H b c = b c) ↔ c.Get "user_role" = some (Any.str "admin"))) ∧
    (ProductHandler.CreateProduct body c =
      if c.Get "user_id" = none then c.JSON 401 (.error "Unauthorized")
      else if c.Get "user_role" = some (Any.str "admin") then body c
      else c.JSON 403 (.error "Admin access required")) ∧
    ((∀ b, ProductHandler.CreateProduct b c = b c) ↔
      c.Get "user_id" ≠ none ∧ c.Get "user_role" = some (Any.str "admin")) ∧
    (c.JSON 403 (.error "Admin access required")).status = some 403 ∧
    (c.JSON 403 (.error "Admin access required")).effects = c.effects := by
  have gate : ∀ b : HandlerFunc,
      (match c.Get "user_role" with
        | none => c.JSON 403 (.error "Admin access required")
        | some userRole =>
          if userRole ≠ Any.str "admin" then c.JSON 403 (.error "Admin access required")
          else b c)
      = if c.Get "user_role" = some (Any.str "admin") then b c
        else c.JSON 403 (.error "Admin access required") := by
    intro b
    cases hrole : c.Get "user_role" with
    | none => simp
    | some v =>
      by_cases hv : v = Any.str "admin"
      · simp [hv]
      · simp [hv]
  have past : ∀ H : HandlerFunc → HandlerFunc,
      (∀ b, H b c = if c.Get "user_role" = some (Any.str "admin") then b c
        else c.JSON 403 (.error "Admin access required")) →
      ((∀ b, H b c = b c) ↔ c.Get "user_role" = some (Any.str "admin")) := by
    intro H hH
    constructor
    · intro hall
      by_contra hne
      have h1 := hall (fun x => x.JSON 200 .empty)
      rw [hH, if_neg hne] at h1
      have h2 := congrArg Context.status h1
      simp [Context.JSON] at h2
    · intro hadm b
      rw [hH, if_pos hadm]
  refine ⟨?_, ?_, ?_, rfl, rfl⟩
  · intro H hH
    simp only [List.mem_cons, List.mem_singleton, List.not_mem_nil, or_false] at hH
    rcases hH with rfl | rfl | rfl | rfl | rfl | rfl | rfl | rfl <;>
      exact ⟨gate body, past _ gate⟩
  · unfold ProductHandler.CreateProduct
    cases huid : c.Get "user_id" with
    | none => simp
    | some u => simpa using gate body
  · have hcp : ∀ b, ProductHandler.CreateProduct b c =
        if c.Get "user_id" = none then c.JSON 401 (.error "Unauthorized")
        else if c.Get "user_role" = some (Any.str "admin") then b c
        else c.JSON 403 (.error "Admin access required") := by
      intro b
      unfold ProductHandler.CreateProduct
      cases huid : c.Get "user_id" with
      | none => simp
      | some u => simpa using gate b
    constructor
    · intro hall
      have h1 := hall (fun x => x.JSON 200 .empty)
      rw [hcp] at h1
      by_cases huid : c.Get "user_id" = none
      · rw [if_pos huid] at h1
        have h2 := congrArg Context.status h1
        simp [Context.JSON] at h2
      · rw [if_neg huid] at h1
        refine ⟨huid, ?_⟩
        by_contra hne
        rw [if_neg hne] at h1
        have h2 := congrArg Context.status h1
        simp [Context.JSON] at h2
    · rintro ⟨huid, hadm⟩ b
      rw [hcp, if_neg huid, if_pos hadm]

/-- C10 at work: `DeleteProduct` on a context whose role is the typed value `RoleAdmin`,
not the string `admin`: 403, and the deletion behind the gate does not happen. -/
theorem role_gate_witness :
    ProductHandler.DeleteProduct ∈ [ProductHandler.UpdateProduct,
        ProductHandler.DeleteProduct, ProductHandler.UploadProductImage,
        SliderHandler.UploadSliderImage, SliderHandler.GetAllSliders,
        SliderHandler.DeleteSlider, SliderHandler.GetSliderSettings,
        SliderHandler.UpdateSliderSettings] ∧
    (ProductHandler.DeleteProduct (fun x => x.emit (.db "products" "DeleteOne"))
      ((newContext ⟨"DELETE", "/api/products/1", []⟩).Set "user_role"
        (.role RoleAdmin))).status = some 403 ∧
    (ProductHandler.DeleteProduct (fun x => x.emit (.db "products" "DeleteOne"))
      ((newContext ⟨"DELETE", "/api/products/1", []⟩).Set "user_role"
        (.role RoleAdmin))).effects = [] :=
  have h := ((role_gate ((newContext ⟨"DELETE", "/api/products/1", []⟩).Set "user_role"
      (.role RoleAdmin)) (fun x => x.emit (.db "products" "DeleteOne"))).1
    ProductHandler.DeleteProduct (List.mem_cons_of_mem _ (List.mem_cons_self _ _))).1
  ⟨List.mem_cons_of_mem _ (List.mem_cons_self _ _), by rw [h]; rfl, by rw [h]; rfl⟩

/-! ### Role checks -/

theorem adminCheck_eq (c : Context) (body : HandlerFunc) :
    (match c.Get "user_role" with
      | none => c.JSON 403 (.error "Admin access required")
      | some userRole =>
        if userRole ≠ Any.str "admin" then c.JSON 403 (.error "Admin access required")
        else body c)
      = if c.Get "user_role" = some (Any.str "admin") then body c
        else c.JSON 403 (.error "Admin access required") := by
  cases hrole : c.Get "user_role" with
  | none => simp
  | some v =>
    by_cases hv : v = Any.str "admin"
    · simp [hv]
    · simp [hv]

theorem adminCheck_pass_iff (c : Context) (H : HandlerFunc → HandlerFunc)
    (hH : ∀ b, H b c = if c.Get "user_role" = some (Any.str "admin") then b c
      else c.JSON 403 (.error "Admin access required")) :
    (∀ b, H b c = b c) ↔ c.Get "user_role" = some (Any.str "admin") := by
  constructor
  · intro hall
    by_contra hne
    have h1 := hall (fun x => x.JSON 200 .empty)
    rw [hH, if_neg hne] at h1
    have h2 := congrArg Context.status h1
    simp [Context.JSON] at h2
  · intro hadm b
    rw [hH, if_pos hadm]

theorem adminOnly_eq (H : HandlerFunc → HandlerFunc)
    (hH : H ∈ [ProductHandler.UpdateProduct, ProductHandler.DeleteProduct,
      ProductHandler.UploadProductImage, SliderHandler.UploadSliderImage,
      SliderHandler.GetAllSliders, SliderHandler.DeleteSlider,
      SliderHandler.GetSliderSettings, SliderHandler.UpdateSliderSettings])
    (c : Context) (b : HandlerFunc) :
    H b c = if c.Get "user_role" = some (Any.str "admin") then b c
      else c.JSON 403 (.error "Admin access required") := by
  simp only [List.mem_cons, List.mem_singleton, List.not_mem_nil, or_false] at hH
  rcases hH with rfl | rfl | rfl | rfl | rfl | rfl | rfl | rfl <;> exact adminCheck_eq c b

theorem CreateProduct_eq (c : Context) (b : HandlerFunc) :
    ProductHandler.CreateProduct b c =
      if c.Get "user_id" = none then c.JSON 401 (.error "Unauthorized")
      else if c.Get "user_role" = some (Any.str "admin") then b c
      else c.JSON 403 (.error "Admin access required") := by
  unfold ProductHandler.CreateProduct
  cases huid : c.Get "user_id" with
  | none => simp
  | some u => simpa using adminCheck_eq c b

theorem CreateProduct_pass_iff (c : Context) :
    (∀ b, ProductHandler.CreateProduct b c = b c) ↔
      c.Get "user_id" ≠ none ∧ c.Get "user_role" = some (Any.str "admin") := by
  constructor
  · intro hall
    have h1 := hall (fun x => x.JSON 200 .empty)
    rw [CreateProduct_eq] at h1
    by_cases huid : c.Get "user_id" = none
    · rw [if_pos huid] at h1
      have h2 := congrArg Context.status h1
      simp [Context.JSON] at h2
    · rw [if_neg huid] at h1
      refine ⟨huid, ?_⟩
      by_contra hne
      rw [if_neg hne] at h1
      have h2 := congrArg Context.status h1
      simp [Context.JSON] at h2
  · rintro ⟨huid, hadm⟩ b
    rw [CreateProduct_eq, if_neg huid, if_pos hadm]

/-! ### Configuration -/

theorem getEnv_ne_empty (env : List (String × String)) (key defaultValue : String)
    (hd : defaultValue ≠ "") : getEnv env key defaultValue ≠ "" := by
  unfold getEnv
  split
  · assumption
  · exact hd

theorem Getenv_of_lookup (env : List (String × String)) (key v : String)
    (h : env.lookup key = some v) : Getenv env key = v := by
  simp [Getenv, h]

/-- C16 (signing secret is never empty): for every process environment, `config.Load`
returns a JWT secret that is a non-empty string: the value of `JWT_SECRET` when that is
set and non-empty, `default-secret-key` when it is unset or empty; the JWT expiration is
the parsed `JWT_EXPIRATION` when it parses as a duration and 24 hours otherwise (the
parser of the standard library, which rejects the empty string, is an argument). The
outcome is stated on the environment itself: a variable `JWT_SECRET` that is set to a
non-empty value `v` gives the secret `v`, one that is set to the empty string or not set
gives `default-secret-key`; a variable `JWT_EXPIRATION` that is set to a non-empty text
which parses as `d` gives the expiration `d`, and one whose text does not parse, is empty
or is not set gives 24 hours. -/
theorem secret_never_empty (ParseDuration : String → Option Int)
    (env : List (String × String)) :
    (Load ParseDuration env).JWT.Secret ≠ "" ∧
    (Load ParseDuration env).JWT.Secret =
      (if Getenv env "JWT_SECRET" ≠ "" then Getenv env "JWT_SECRET"
        else "default-secret-key") ∧
    (env.lookup "JWT_SECRET" = none → (Load ParseDuration env).JWT.Secret
      = "default-secret-key") ∧
    (ParseDuration "" = none →
      (Load ParseDuration env).JWT.Expiration =
        (match ParseDuration (Getenv env "JWT_EXPIRATION") with
          | some d => d
          | none => 24 * Hour)) ∧
    24 * Hour = 24 * 60 * 60 * 1000000000 ∧
    (∀ v, env.lookup "JWT_SECRET" = some v → v ≠ "" →
      (Load ParseDuration env).JWT.Secret = v) ∧
    (env.lookup "JWT_SECRET" = some "" →
      (Load ParseDuration env).JWT.Secret = "default-secret-key") ∧
    (∀ v d, env.lookup "JWT_EXPIRATION" = some v → v ≠ "" → ParseDuration v = some d →
      (Load ParseDuration env).JWT.Expiration = d) ∧
    (∀ v, env.lookup "JWT_EXPIRATION" = some v → ParseDuration v = none →
      (Load ParseDuration env).JWT.Expiration = 24 * Hour) ∧
    (env.lookup "JWT_EXPIRATION" = some "" →
      (Load ParseDuration env).JWT.Expiration = 24 * Hour) ∧
    (env.lookup "JWT_EXPIRATION" = none →
      (Load ParseDuration env).JWT.Expiration = 24 * Hour) := by
  refine ⟨getEnv_ne_empty env _ _ (by decide), rfl, ?_, ?_, by decide, ?_, ?_, ?_, ?_, ?_, ?_⟩
  · intro h
    simp [Load, getEnv, Getenv, h]
  · intro hempty
    simp only [Load, getDurationEnv]
    split
    · rfl
    · rename_i hv
      have hv2 : Getenv env "JWT_EXPIRATION" = "" := by simpa using hv
      rw [hv2, hempty]
  · intro v hv hne
    simp [Load, getEnv, Getenv_of_lookup env _ v hv, hne]
  · intro hv
    simp [Load, getEnv, Getenv_of_lookup env _ "" hv]
  · intro v d hv hne hd
    simp [Load, getDurationEnv, Getenv_of_lookup env _ v hv, hne, hd]
  · intro v hv hd
    simp only [Load, getDurationEnv, Getenv_of_lookup env _ v hv, hd]
    split <;> rfl
  · intro hv
    simp [Load, getDurationEnv, Getenv_of_lookup env _ "" hv]
  · intro hv
    simp [Load, getDurationEnv, Getenv, hv]

/-- C16 at work, under a parser that knows the text `1h` only: an environment that sets
`JWT_SECRET` to `s3cret` and `JWT_EXPIRATION` to `1h`, one that sets `JWT_SECRET` to the
empty string and `JWT_EXPIRATION` to `soon`, and one that sets neither. -/
theorem secret_never_empty_witness :
    (fun s => if s = "1h" then some Hour else none) "" = none ∧
    [("JWT_EXPIRATION", "soon")].lookup "JWT_SECRET" = none ∧
    (Load (fun s => if s = "1h" then some Hour else none)
      [("JWT_EXPIRATION", "soon")]).JWT.Secret = "default-secret-key" ∧
    (Load (fun s => if s = "1h" then some Hour else none)
      [("JWT_EXPIRATION", "soon")]).JWT.Expiration = 86400000000000 ∧
    [("JWT_SECRET", "s3cret"), ("JWT_EXPIRATION", "1h")].lookup "JWT_SECRET"
      = some "s3cret" ∧
    (Load (fun s => if s = "1h" then some Hour else none)
      [("JWT_SECRET", "s3cret"), ("JWT_EXPIRATION", "1h")]).JWT.Secret = "s3cret" ∧
    [("JWT_SECRET", "s3cret"), ("JWT_EXPIRATION", "1h")].lookup "JWT_EXPIRATION"
      = some "1h" ∧
    (Load (fun s => if s = "1h" then some Hour else none)
      [("JWT_SECRET", "s3cret"), ("JWT_EXPIRATION", "1h")]).JWT.Expiration
      = 3600000000000 ∧
    (Load (fun s => if s = "1h" then some Hour else none)
      [("JWT_SECRET", ""), ("JWT_EXPIRATION", "soon")]).JWT.Secret
      = "default-secret-key" ∧
    (Load (fun s => if s = "1h" then some Hour else none)
      [("JWT_SECRET", ""), ("JWT_EXPIRATION", "soon")]).JWT.Expiration
      = 86400000000000 ∧
    (Load (fun s => if s = "1h" then some Hour else none) []).JWT.Expiration
      = 86400000000000 :=
  have h := secret_never_empty (fun s => if s = "1h" then some Hour else none)
    [("JWT_EXPIRATION", "soon")]
  have h2 := secret_never_empty (fun s => if s = "1h" then some Hour else none)
    [("JWT_SECRET", "s3cret"), ("JWT_EXPIRATION", "1h")]
  have h3 := secret_never_empty (fun s => if s = "1h" then some Hour else none)
    [("JWT_SECRET", ""), ("JWT_EXPIRATION", "soon")]
  have h4 := secret_never_empty (fun s => if s = "1h" then some Hour else none) []
  ⟨by decide, by decide, h.2.2.1 (by decide), (h.2.2.2.1 (by decide)).trans (by decide),
    by decide, h2.2.2.2.2.2.1 "s3cret" (by decide) (by decide),
    by decide,
    (h2.2.2.2.2.2.2.2.1 "1h" Hour (by decide) (by decide) (by decide)).trans (by decide),
    h3.2.2.2.2.2.2.1 (by decide),
    (h3.2.2.2.2.2.2.2.2.1 "soon" (by decide) (by decide)).trans (by decide),
    (h4.2.2.2.2.2.2.2.2.2.2 (by decide)).trans (by decide)⟩

/-! ### Products -/

theorem IsValidCategory_iff (c : String) :
    IsValidCategory c = true ↔
      c ∈ ["electronics", "clothing", "books", "home", "sports", "beauty", "toys",
        "automotive", "food", "other"] := by
  simp only [IsValidCategory, GetValidCategories, IsValidCategoryLoop, CategoryElectronics,
    CategoryClothing, CategoryBooks, CategoryHome, CategorySports, CategoryBeauty,
    CategoryToys, CategoryAutomotive, CategoryFood, CategoryOther, List.mem_cons,
    List.mem_singleton, List.not_mem_nil, or_false]
  constructor
  · intro h
    repeat' split at h
    all_goals simp_all
  · intro h
    rcases h with h | h | h | h | h | h | h | h | h | h <;> subst h <;> decide

/-- C18 (category validity): `IsValidCategory c` is true iff `c` is, letter for letter,
one of the ten category strings; every category of `GetValidCategories` is valid; the
endpoint `GetCategories` answers 200 with these ten strings in the same order, without
duplicates; and `CreateProduct` answers 400, without running the code behind the check,
for every bound and validated request of an administrator whose category is not valid. -/
theorem category_validity (category : String)
    (validate : CreateProductRequest → Option String) (r : Incoming)
    (rest : CreateProductRequest → HandlerFunc) (c : Context) :
    (IsValidCategory category = true ↔
      category ∈ ["electronics", "clothing", "books", "home", "sports", "beauty", "toys",
        "automotive", "food", "other"]) ∧
    IsValidCategory "Books" = false ∧
    (∀ cat ∈ GetValidCategories, IsValidCategory cat.val = true) ∧
    ProductHandler.GetCategories c = c.JSON 200 (.categories
      ["electronics", "clothing", "books", "home", "sports", "beauty", "toys",
        "automotive", "food", "other"]) ∧
    (GetValidCategories.map fun cat => cat.val).Nodup ∧
    (c.Get "user_id" ≠ none → c.Get "user_role" = some (Any.str "admin") →
      ∀ req, ShouldBindJSONCreateProduct r.Payload = .ok req → validate req = none →
        IsValidCategory req.Category = false →
        ProductHandler.CreateProduct (ProductHandler.CreateProductChecks validate r rest) c
          = c.JSON 400 (.error "Invalid category")) ∧
    (c.JSON 400 (.error "Invalid category")).status = some 400 ∧
    (c.JSON 400 (.error "Invalid category")).effects = c.effects := by
  refine ⟨IsValidCategory_iff category, by decide, by decide, rfl, by decide, ?_, rfl, rfl⟩
  intro huid hadmin req hbind hvalid hcat
  rw [CreateProduct_eq, if_neg huid, if_pos hadmin]
  simp [ProductHandler.CreateProductChecks, hbind, hvalid, hcat]

/-- C18 at work: an administrator's request for a product of the category `Books`, which
the validator accepts. -/
theorem category_validity_witness :
    ((newContext ⟨"POST", "/api/products", []⟩).Set "user_id"
      (.str "507f1f77bcf86cd799439011")).Set "user_role" (.str "admin") =
      ⟨⟨"POST", "/api/products", []⟩,
        [("user_role", .str "admin"), ("user_id", .str "507f1f77bcf86cd799439011")],
        none, .empty, false, []⟩ ∧
    ShouldBindJSONCreateProduct (some [("name", .string "Go in Action"),
        ("price", .number ⟨1⟩), ("category", .string "Books"),
        ("description", .string "A book about Go.")])
      = .ok ⟨"Go in Action", ⟨1⟩, "Books", "A book about Go.", "", "", false⟩ ∧
    IsValidCategory "Books" = false ∧
    (ProductHandler.CreateProduct (ProductHandler.CreateProductChecks (fun _ => none)
      ⟨"", false, [], [], some [("name", .string "Go in Action"), ("price", .number ⟨1⟩),
        ("category", .string "Books"), ("description", .string "A book about Go.")], none⟩
      (fun _ x => x.emit (.db "products" "InsertOne")))
      ⟨⟨"POST", "/api/products", []⟩,
        [("user_role", .str "admin"), ("user_id", .str "507f1f77bcf86cd799439011")],
        none, .empty, false, []⟩).status = some 400 :=
  have h := (category_validity "Books" (fun _ => none)
    ⟨"", false, [], [], some [("name", .string "Go in Action"), ("price", .number ⟨1⟩),
      ("category", .string "Books"), ("description", .string "A book about Go.")], none⟩
    (fun _ x => x.emit (.db "products" "InsertOne"))
    ⟨⟨"POST", "/api/products", []⟩,
      [("user_role", .str "admin"), ("user_id", .str "507f1f77bcf86cd799439011")],
      none, .empty, false, []⟩).2.2.2.2.2.1 (by decide) (by decide)
    ⟨"Go in Action", ⟨1⟩, "Books", "A book about Go.", "", "", false⟩ (by decide) rfl
    (by decide)
  ⟨by decide, by decide, by decide, by rw [h]; rfl⟩

/-- C19 (image URL resolution): for every product `p` and base URL `b`, the image URL of
`ToResponseWithBaseURL b` is `p.ImageURL` unchanged when `b` is empty, `p.ImageURL` is
empty, or `p.ImageURL` starts with `http://` or `https://`; otherwise it is
`b + p.ImageURL` when `p.ImageURL` starts with `/` and `b + "/" + p.ImageURL` when it
does not; every other field is copied from `p`, and `ToResponse` is
`ToResponseWithBaseURL ""`. The same holds for a slider. -/
theorem image_url_resolution (p : Product) (s : Slider) (b : String) :
    (p.ToResponseWithBaseURL b).ImageURL =
      (if b = "" ∨ p.ImageURL = "" ∨ HasPrefix p.ImageURL "http://" = true ∨
          HasPrefix p.ImageURL "https://" = true then p.ImageURL
        else if HasPrefix p.ImageURL "/" = true then b ++ p.ImageURL
        else b ++ "/" ++ p.ImageURL) ∧
    p.ToResponseWithBaseURL b =
      { ID := p.ID.Hex, Name := p.Name, Price := p.Price, Category := p.Category.val,
        ImageURL := (p.ToResponseWithBaseURL b).ImageURL, Description := p.Description,
        Specification := p.Specification, Material := p.Material, InStock := p.InStock,
        CreatedAt := p.CreatedAt, UpdatedAt := p.UpdatedAt } ∧
    p.ToResponse = p.ToResponseWithBaseURL "" ∧
    (s.ToResponseWithBaseURL b).ImageURL =
      (if b = "" ∨ s.ImageURL = "" ∨ HasPrefix s.ImageURL "http://" = true ∨
          HasPrefix s.ImageURL "https://" = true then s.ImageURL
        else if HasPrefix s.ImageURL "/" = true then b ++ s.ImageURL
        else b ++ "/" ++ s.ImageURL) ∧
    s.ToResponseWithBaseURL b =
      { ID := s.ID.Hex, ImageURL := (s.ToResponseWithBaseURL b).ImageURL,
        Order := s.Order, CreatedAt := s.CreatedAt, UpdatedAt := s.UpdatedAt } ∧
    s.ToResponse = s.ToResponseWithBaseURL "" := by
  refine ⟨?_, rfl, rfl, ?_, rfl, ?_⟩
  · simp only [Product.ToResponseWithBaseURL]
    by_cases h1 : b = "" <;> by_cases h2 : p.ImageURL = "" <;>
      by_cases h3 : HasPrefix p.ImageURL "http://" = true <;>
      by_cases h4 : HasPrefix p.ImageURL "https://" = true <;> simp [h1, h2, h3, h4]
  · simp only [Slider.ToResponseWithBaseURL]
    by_cases h1 : b = "" <;> by_cases h2 : s.ImageURL = "" <;>
      by_cases h3 : HasPrefix s.ImageURL "http://" = true <;>
      by_cases h4 : HasPrefix s.ImageURL "https://" = true <;> simp [h1, h2, h3, h4]
  · simp [Slider.ToResponse, Slider.ToResponseWithBaseURL]

/-! ### Image uploads -/

theorem extLoop_spec (l acc : List Char) :
    (extLoop l acc = [] ∧ ∀ a b, l = a ++ '.' :: b → '/' ∈ a) ∨
    (∃ a b, l = a ++ '.' :: b ∧ '.' ∉ a ∧ '/' ∉ a ∧
      extLoop l acc = '.' :: (a.reverse ++ acc)) := by
  induction l generalizing acc with
  | nil =>
    left
    refine ⟨rfl, ?_⟩
    intro a b h
    cases a <;> simp at h
  | cons ch before ih =>
    by_cases hs : ch = '/'
    · left
      refine ⟨by simp [extLoop, hs], ?_⟩
      intro a b h
      cases a with
      | nil =>
        simp only [List.nil_append, List.cons.injEq] at h
        rw [hs] at h
        exact absurd h.1 (by decide)
      | cons x xs =>
        simp only [List.cons_append, List.cons.injEq] at h
        rw [← h.1, hs]
        exact List.mem_cons_self _ _
    · by_cases hd : ch = '.'
      · right
        exact ⟨[], before, by simp [hd], by simp, by simp, by simp [extLoop, hd]⟩
      · have hstep : extLoop (ch :: before) acc = extLoop before (ch :: acc) := by
          simp [extLoop, hs, hd]
        rcases ih (ch :: acc) with ⟨h0, hno⟩ | ⟨a, b, hab, hda, hsa, hext⟩
        · left
          refine ⟨by rw [hstep, h0], ?_⟩
          intro a b h
          cases a with
          | nil =>
            simp only [List.nil_append, List.cons.injEq] at h
            exact absurd h.1 hd
          | cons x xs =>
            simp only [List.cons_append, List.cons.injEq] at h
            exact List.mem_cons_of_mem _ (hno xs b h.2)
        · right
          refine ⟨ch :: a, b, by simp [hab], ?_, ?_, ?_⟩
          · intro hmem
            rcases List.mem_cons.mp hmem with h | h
            · exact hd h.symm
            · exact hda h
          · intro hmem
            rcases List.mem_cons.mp hmem with h | h
            · exact hs h.symm
            · exact hsa h
          · rw [hstep, hext]
            simp

theorem Ext_spec (path : String) :
    (Ext path = "" ∧ ∀ before suffix, path.data = before ++ '.' :: suffix → '/' ∈ suffix) ∨
    (∃ before suffix, path.data = before ++ '.' :: suffix ∧ '.' ∉ suffix ∧ '/' ∉ suffix ∧
      (Ext path).data = '.' :: suffix) := by
  rcases extLoop_spec path.data.reverse [] with ⟨h0, hno⟩ | ⟨a, b, hab, hda, hsa, hext⟩
  · left
    refine ⟨by simp [Ext, h0], ?_⟩
    intro before suffix h
    have h2 : path.data.reverse = suffix.reverse ++ '.' :: before.reverse := by
      rw [h]
      simp
    have := hno _ _ h2
    simpa using this
  · right
    refine ⟨b.reverse, a.reverse, ?_, by simpa using hda, by simpa using hsa, ?_⟩
    · have := congrArg List.reverse hab
      simpa using this
    · simp [Ext, hext]

theorem isValidImageType_iff (filename : String) :
    isValidImageType filename = true ↔
      ToLower (Ext filename) ∈ [".jpg", ".jpeg", ".png", ".gif"] := by
  simp only [isValidImageType, List.any_cons, List.any_nil, Bool.or_false, Bool.or_eq_true,
    decide_eq_true_eq, List.mem_cons, List.mem_singleton, List.not_mem_nil, or_false,
    or_assoc]

theorem adminCheck_pass (c : Context) (body : HandlerFunc)
    (hadmin : c.Get "user_role" = some (Any.str "admin")) :
    (match c.Get "user_role" with
      | none => c.JSON 403 (.error "Admin access required")
      | some userRole =>
        if userRole ≠ Any.str "admin" then c.JSON 403 (.error "Admin access required")
        else body c) = body c := by
  simp [hadmin]

/-- C20 (image type check): `isValidImageType` is true iff the extension of the file name
(the suffix from the last dot of the last path element, empty when that element has no
dot), in lower case, is one of `.jpg`, `.jpeg`, `.png`, `.gif`; names whose extensions
agree up to letter case get the same answer, and a name without extension is rejected. An
upload that reaches the check is answered 400, with nothing done, when the file fails the
check or is larger than `5*1024*1024` bytes, and goes on with a valid file of at most
that size, `5*1024*1024` included. -/
theorem image_type_check (filename : String) (r : Incoming) (rest : HandlerFunc)
    (c : Context) (header : FileHeader) :
    (isValidImageType filename = true ↔
      ToLower (Ext filename) ∈ [".jpg", ".jpeg", ".png", ".gif"]) ∧
    ((Ext filename = "" ∧
        ∀ before suffix, filename.data = before ++ '.' :: suffix → '/' ∈ suffix) ∨
      (∃ before suffix, filename.data = before ++ '.' :: suffix ∧ '.' ∉ suffix ∧
        '/' ∉ suffix ∧ (Ext filename).data = '.' :: suffix)) ∧
    (∀ other, ToLower (Ext other) = ToLower (Ext filename) →
      isValidImageType other = isValidImageType filename) ∧
    (Ext filename = "" → isValidImageType filename = false) ∧
    (c.Get "user_role" = some (Any.str "admin") → r.File = some header →
      (ObjectIDFromHex (r.Param "id")).isSome = true →
      ((isValidImageType header.Filename = false ∨ header.Size > 5 * 1024 * 1024) →
        (ProductHandler.UploadProductImage
          (ProductHandler.UploadProductImageChecks r rest) c).status = some 400 ∧
        (ProductHandler.UploadProductImage
          (ProductHandler.UploadProductImageChecks r rest) c).effects = c.effects) ∧
      ((isValidImageType header.Filename = true ∧ header.Size ≤ 5 * 1024 * 1024) →
        ProductHandler.UploadProductImage
          (ProductHandler.UploadProductImageChecks r rest) c = rest c)) ∧
    (c.Get "user_role" = some (Any.str "admin") → r.File = some header →
      ((isValidImageType header.Filename = false ∨ header.Size > 5 * 1024 * 1024) →
        (SliderHandler.UploadSliderImage
          (SliderHandler.UploadSliderImageChecks r rest) c).status = some 400 ∧
        (SliderHandler.UploadSliderImage
          (SliderHandler.UploadSliderImageChecks r rest) c).effects = c.effects) ∧
      ((isValidImageType header.Filename = true ∧ header.Size ≤ 5 * 1024 * 1024) →
        SliderHandler.UploadSliderImage
          (SliderHandler.UploadSliderImageChecks r rest) c = rest c)) := by
  refine ⟨isValidImageType_iff filename, Ext_spec filename, ?_, ?_, ?_, ?_⟩
  · intro other h
    simp only [isValidImageType, h]
  · intro h
    simp only [isValidImageType, h]
    decide
  · intro hadmin hfile hid
    obtain ⟨id, hid2⟩ := Option.isSome_iff_exists.mp hid
    have hgate : ProductHandler.UploadProductImage
        (ProductHandler.UploadProductImageChecks r rest) c
        = ProductHandler.UploadProductImageChecks r rest c := adminCheck_pass c _ hadmin
    rw [hgate]
    constructor
    · rintro (hbad | hbig)
      · simp [ProductHandler.UploadProductImageChecks, hid2, hfile, hbad, Context.JSON]
      · have hbig2 : (5242880 : Int) < header.Size := by omega
        by_cases hv : isValidImageType header.Filename = true
        · simp [ProductHandler.UploadProductImageChecks, hid2, hfile, hv, hbig2, Context.JSON]
        · simp [ProductHandler.UploadProductImageChecks, hid2, hfile, hv, Context.JSON]
    · rintro ⟨hv, hsz⟩
      have hns : ¬ ((5242880 : Int) < header.Size) := by omega
      simp [ProductHandler.UploadProductImageChecks, hid2, hfile, hv, hns]
  · intro hadmin hfile
    have hgate : SliderHandler.UploadSliderImage
        (SliderHandler.UploadSliderImageChecks r rest) c
        = SliderHandler.UploadSliderImageChecks r rest c := adminCheck_pass c _ hadmin
    rw [hgate]
    constructor
    · rintro (hbad | hbig)
      · simp [SliderHandler.UploadSliderImageChecks, hfile, hbad, Context.JSON]
      · have hbig2 : (5242880 : Int) < header.Size := by omega
        by_cases hv : isValidImageType header.Filename = true
        · simp [SliderHandler.UploadSliderImageChecks, hfile, hv, hbig2, Context.JSON]
        · simp [SliderHandler.UploadSliderImageChecks, hfile, hv, Context.JSON]
    · rintro ⟨hv, hsz⟩
      have hns : ¬ ((5242880 : Int) < header.Size) := by omega
      simp [SliderHandler.UploadSliderImageChecks, hfile, hv, hns]

/-- C20 at work: an administrator uploads `photo.JPG` of exactly `5*1024*1024` bytes for
a product; the upload goes on behind the checks. -/
theorem image_type_check_witness :
    ((newContext ⟨"POST", "/api/products/507f1f77bcf86cd799439011/image", []⟩).Set
      "user_role" (.str "admin")).Get "user_role" = some (Any.str "admin") ∧
    (ObjectIDFromHex "507f1f77bcf86cd799439011").isSome = true ∧
    isValidImageType "photo.JPG" = true ∧
    ProductHandler.UploadProductImage
      (ProductHandler.UploadProductImageChecks
        ⟨"", false, [], [("id", "507f1f77bcf86cd799439011")], none,
          some ⟨"photo.JPG", 5 * 1024 * 1024⟩⟩
        (fun x => x.emit (.fs "MkdirAll" "uploads/products")))
      ((newContext ⟨"POST", "/api/products/507f1f77bcf86cd799439011/image", []⟩).Set
        "user_role" (.str "admin"))
      = ((newContext ⟨"POST", "/api/products/507f1f77bcf86cd799439011/image", []⟩).Set
        "user_role" (.str "admin")).emit (.fs "MkdirAll" "uploads/products") :=
  ⟨by decide, by decide, by decide,
    ((image_type_check "photo.JPG"
      ⟨"", false, [], [("id", "507f1f77bcf86cd799439011")], none,
        some ⟨"photo.JPG", 5 * 1024 * 1024⟩⟩
      (fun x => x.emit (.fs "MkdirAll" "uploads/products"))
      ((newContext ⟨"POST", "/api/products/507f1f77bcf86cd799439011/image", []⟩).Set
        "user_role" (.str "admin"))
      ⟨"photo.JPG", 5 * 1024 * 1024⟩).2.2.2.2.1 (by decide) rfl (by decide)).2
      ⟨by decide, by decide⟩⟩

/-! ### Standard library: `strconv.Atoi` -/

theorem foldl_digits_ge (ds : List Char) (n : Nat) :
    n ≤ ds.foldl (fun acc ch => acc * 10 + (ch.toNat - 48)) n := by
  induction ds generalizing n with
  | nil => exact le_refl n
  | cons ch rest ih =>
    simp only [List.foldl_cons]
    exact le_trans (by omega) (ih _)

theorem parseUintLoop_digits (ds : List Char) (n : Nat) (hn : n ≤ 18446744073709551615)
    (hds : ds.all Char.isDigit = true) :
    parseUintLoop n ds =
      if ds.foldl (fun acc ch => acc * 10 + (ch.toNat - 48)) n ≤ 18446744073709551615
      then .ok (ds.foldl (fun acc ch => acc * 10 + (ch.toNat - 48)) n)
      else .rangeError := by
  induction ds generalizing n with
  | nil => simp [parseUintLoop, hn]
  | cons ch rest ih =>
    simp only [List.all_cons, Bool.and_eq_true] at hds
    have hge := foldl_digits_ge rest (n * 10 + (ch.toNat - 48))
    simp only [parseUintLoop, hds.1, not_true_eq_false, if_false, List.foldl_cons]
    by_cases h1 : n ≥ 1844674407370955162
    · have : ¬ (rest.foldl (fun acc ch => acc * 10 + (ch.toNat - 48))
          (n * 10 + (ch.toNat - 48)) ≤ 18446744073709551615) := by omega
      simp [h1, this]
    · by_cases h2 : n * 10 + (ch.toNat - 48) > 18446744073709551615
      · have : ¬ (rest.foldl (fun acc ch => acc * 10 + (ch.toNat - 48))
            (n * 10 + (ch.toNat - 48)) ≤ 18446744073709551615) := by omega
        simp [h1, h2, this]
      · simp only [h1, h2, if_false]
        exact ih _ (by omega) hds.2

theorem parseUintLoop_not_digits (ds : List Char) (n : Nat)
    (hds : ds.all Char.isDigit = false) : ∀ v, parseUintLoop n ds ≠ .ok v := by
  induction ds generalizing n with
  | nil => simp at hds
  | cons ch rest ih =>
    intro v
    simp only [parseUintLoop]
    by_cases hc : ch.isDigit = true
    · have hrest : rest.all Char.isDigit = false := by
        simp only [List.all_cons, hc, Bool.true_and] at hds
        exact hds
      simp only [hc, not_true_eq_false, if_false]
      split
      · simp
      · split
        · simp
        · exact ih _ hrest v
    · simp [hc]

theorem parseUintLoop_short (ds : List Char) (n : Nat)
    (hfit : (n + 1) * 10 ^ ds.length ≤ 18446744073709551616) :
    parseUintLoop n ds ≠ .rangeError := by
  induction ds generalizing n with
  | nil => simp [parseUintLoop]
  | cons ch rest ih =>
    simp only [List.length_cons, pow_succ] at hfit
    have hP : 1 ≤ 10 ^ rest.length := Nat.one_le_pow _ _ (by decide)
    have h10 : (n + 1) * 10 ≤ 18446744073709551616 := by
      calc (n + 1) * 10 = (n + 1) * (1 * 10) := by ring
        _ ≤ (n + 1) * (10 ^ rest.length * 10) := by
            apply Nat.mul_le_mul_left
            exact Nat.mul_le_mul_right _ hP
        _ ≤ _ := hfit
    simp only [parseUintLoop]
    by_cases hc : ch.isDigit = true
    · have hd : ch.toNat - 48 ≤ 9 := by
        simp only [Char.isDigit, Bool.and_eq_true, decide_eq_true_eq] at hc
        have := hc.2
        have h57 : ch.toNat ≤ 57 := by
          rw [UInt32.le_def] at this
          simpa [Char.toNat] using this
        omega
      have h1 : ¬ (n ≥ 1844674407370955162) := by omega
      have h2 : ¬ (n * 10 + (ch.toNat - 48) > 18446744073709551615) := by omega
      simp only [hc, not_true_eq_false, if_false, h1, h2]
      apply ih
      calc (n * 10 + (ch.toNat - 48) + 1) * 10 ^ rest.length
          ≤ ((n + 1) * 10) * 10 ^ rest.length := by
            apply Nat.mul_le_mul_right
            omega
        _ = (n + 1) * (10 ^ rest.length * 10) := by ring
        _ ≤ _ := hfit
    · simp [hc]

theorem Atoi_denoted (s : String) (n : Int) (h : denotedInt s = some n) :
    Atoi s = if n < minInt then minInt else if n > maxInt then maxInt else n := by
  cases hdata : s.data with
  | nil => simp [denotedInt, hdata] at h
  | cons ch rest =>
    simp only [denotedInt, hdata] at h
    simp only [Atoi, hdata]
    generalize (if ch = '-' ∨ ch = '+' then rest else ch :: rest) = digits at h ⊢
    by_cases hok : digits ≠ [] ∧ digits.all Char.isDigit = true
    · rw [if_pos hok] at h
      obtain ⟨hne, hall⟩ := hok
      simp only [Option.some.injEq] at h
      have hloop := parseUintLoop_digits digits 0 (by decide) hall
      rw [if_neg hne, hloop]
      unfold decimalValue at h
      generalize List.foldl (fun acc ch => acc * 10 + (ch.toNat - 48)) 0 digits = v at h ⊢
      by_cases hneg : ch = '-'
      · have hd : decide (ch = '-') = true := decide_eq_true hneg
        rw [if_pos hneg] at h
        subst h
        by_cases hfit : v ≤ 18446744073709551615
        · rw [if_pos hfit]
          simp only [hd, if_true, minInt, maxInt]
          split_ifs <;> omega
        · rw [if_neg hfit]
          simp only [hd, if_true, minInt, maxInt]
          split_ifs <;> omega
      · have hd : decide (ch = '-') = false := decide_eq_false hneg
        rw [if_neg hneg] at h
        subst h
        by_cases hfit : v ≤ 18446744073709551615
        · rw [if_pos hfit]
          simp only [hd, Bool.false_eq_true, if_false, minInt, maxInt]
          split_ifs <;> omega
        · rw [if_neg hfit]
          simp only [hd, Bool.false_eq_true, if_false, minInt, maxInt]
          split_ifs <;> omega
    · rw [if_neg hok] at h
      simp at h

theorem Atoi_not_denoted (s : String) (h : denotedInt s = none) :
    (Atoi s = 0 ∨ Atoi s = minInt ∨ Atoi s = maxInt) ∧
    (s.data.length ≤ 19 → Atoi s = 0) := by
  cases hdata : s.data with
  | nil => simp [Atoi, hdata]
  | cons ch rest =>
    simp only [denotedInt, hdata] at h
    simp only [Atoi, hdata]
    have hlen : (if ch = '-' ∨ ch = '+' then rest else ch :: rest).length
        ≤ (ch :: rest).length := by
      split <;> simp
    generalize (if ch = '-' ∨ ch = '+' then rest else ch :: rest) = digits at h hlen ⊢
    by_cases hne : digits = []
    · simp [hne]
    · rw [if_neg hne]
      have hall : digits.all Char.isDigit = false := by
        by_contra hc
        simp only [Bool.not_eq_false] at hc
        rw [if_pos ⟨hne, hc⟩] at h
        simp at h
      have hno := parseUintLoop_not_digits digits 0 hall
      constructor
      · cases hres : parseUintLoop 0 digits with
        | ok v => exact absurd hres (hno v)
        | syntaxError => simp
        | rangeError =>
          by_cases hneg : ch = '-' <;> simp [hneg]
      · intro hshortlen
        have hl : digits.length ≤ 19 := le_trans hlen hshortlen
        have hshort := parseUintLoop_short digits 0 (by
          calc (0 + 1) * 10 ^ digits.length = 10 ^ digits.length := by ring
            _ ≤ 10 ^ 19 := Nat.pow_le_pow_right (by decide) hl
            _ ≤ _ := by norm_num)
        cases hres : parseUintLoop 0 digits with
        | ok v => exact absurd hres (hno v)
        | syntaxError => rfl
        | rangeError => exact absurd hres hshort

theorem Atoi_range (s : String) : minInt ≤ Atoi s ∧ Atoi s ≤ maxInt := by
  cases hden : denotedInt s with
  | none =>
    rcases (Atoi_not_denoted s hden).1 with h | h | h <;> rw [h] <;> decide
  | some n =>
    rw [Atoi_denoted s n hden]
    simp only [minInt, maxInt]
    split_ifs <;> omega

/-! ### Pagination -/

/-- C17, the claim as stated fails: the page text `99999999999999999999` denotes an
integer that is at least 1, and `strconv.Atoi` reports an error for it; the page that
`GetProducts` works with is neither 1 nor that integer but the largest `int`, and with
the limit 100 the request is answered 500, so that no page is echoed. -/
theorem huge_page_is_clamped :
    denotedInt "99999999999999999999" = some 99999999999999999999 ∧
    ProductHandler.pageOf ⟨"", false, [("page", "99999999999999999999"), ("limit", "100")],
      [], none, none⟩ = 9223372036854775807 ∧
    (ProductHandler.GetProducts ⟨⟨[]⟩⟩
      ⟨"", false, [("page", "99999999999999999999"), ("limit", "100")], [], none, none⟩
      (newContext ⟨"GET", "/api/products", []⟩)).status = some 500 := by
  decide

/-- C17, amended: for every pair of page and limit query texts, `GetProducts` works with
a page between 1 and the largest `int` and a limit between 1 and 100, passes that limit
to the database and echoes both in every 200 response. The page is 1 when the parameter
is absent, when its text denotes an integer below 1, and when its text is not a decimal
integer and has at most 19 characters (a longer such text gives 1 or the largest `int`);
a page text that denotes an integer above the largest `int` gives the largest `int`, and
a page from 1 to the largest `int` is used unchanged. The limit is 10 when the parameter
is absent, is not a decimal integer, or denotes an integer below 1 or above 100; a limit
from 1 to 100 is used unchanged. -/
theorem pagination_bounds (h : ProductHandler) (r : Incoming) (c : Context) :
    1 ≤ ProductHandler.pageOf r ∧ ProductHandler.pageOf r ≤ maxInt ∧
    1 ≤ ProductHandler.limitOf r ∧ ProductHandler.limitOf r ≤ 100 ∧
    (r.Query.lookup "page" = none → ProductHandler.pageOf r = 1) ∧
    (r.Query.lookup "limit" = none → ProductHandler.limitOf r = 10) ∧
    (∀ s, r.Query.lookup "page" = some s →
      (denotedInt s = none →
        (ProductHandler.pageOf r = 1 ∨ ProductHandler.pageOf r = maxInt) ∧
        (s.data.length ≤ 19 → ProductHandler.pageOf r = 1)) ∧
      (∀ n, denotedInt s = some n →
        ProductHandler.pageOf r = if n < 1 then 1 else if n > maxInt then maxInt else n)) ∧
    (∀ s, r.Query.lookup "limit" = some s →
      (denotedInt s = none → ProductHandler.limitOf r = 10) ∧
      (∀ n, denotedInt s = some n →
        ProductHandler.limitOf r = if n < 1 ∨ n > 100 then 10 else n)) ∧
    h.GetProducts r c =
      (match h.db.Find (ProductHandler.filterOf r) (ProductHandler.skipOf r)
          (ProductHandler.limitOf r) with
        | .error _ =>
          ((c.emit (.db "products" "CountDocuments")).emit (.db "products" "Find")).JSON 500
            (.error "Failed to fetch products")
        | .ok products =>
          ((c.emit (.db "products" "CountDocuments")).emit (.db "products" "Find")).JSON 200
            (.productList
              (products.map fun product => product.ToResponseWithBaseURL
                (getBaseURL r ((c.emit (.db "products" "CountDocuments")).emit
                  (.db "products" "Find"))))
              ((h.db.products.filter (ProductHandler.filterOf r).matches).length : Int)
              (ProductHandler.pageOf r) (ProductHandler.limitOf r))) ∧
    ((h.GetProducts r c).status = some 200 →
      ∃ products total, (h.GetProducts r c).body =
        .productList products total (ProductHandler.pageOf r) (ProductHandler.limitOf r)) := by
  have hA1 := Atoi_range (r.DefaultQuery "page" "1")
  have hpage : ProductHandler.pageOf r =
      if Atoi (r.DefaultQuery "page" "1") < 1 then 1 else Atoi (r.DefaultQuery "page" "1") :=
    rfl
  have hlimit : ProductHandler.limitOf r =
      if Atoi (r.DefaultQuery "limit" "10") < 1 ∨ Atoi (r.DefaultQuery "limit" "10") > 100
      then 10 else Atoi (r.DefaultQuery "limit" "10") := rfl
  have hget : h.GetProducts r c =
      (match h.db.Find (ProductHandler.filterOf r) (ProductHandler.skipOf r)
          (ProductHandler.limitOf r) with
        | .error _ =>
          ((c.emit (.db "products" "CountDocuments")).emit (.db "products" "Find")).JSON 500
            (.error "Failed to fetch products")
        | .ok products =>
          ((c.emit (.db "products" "CountDocuments")).emit (.db "products" "Find")).JSON 200
            (.productList
              (products.map fun product => product.ToResponseWithBaseURL
                (getBaseURL r ((c.emit (.db "products" "CountDocuments")).emit
                  (.db "products" "Find"))))
              ((h.db.products.filter (ProductHandler.filterOf r).matches).length : Int)
              (ProductHandler.pageOf r) (ProductHandler.limitOf r))) := by
    unfold ProductHandler.GetProducts
    simp only [ProductStore.CountDocuments]
  refine ⟨?_, ?_, ?_, ?_, ?_, ?_, ?_, ?_, hget, ?_⟩
  · rw [hpage]
    split_ifs <;> omega
  · rw [hpage]
    have := hA1.2
    simp only [maxInt] at this ⊢
    split_ifs <;> omega
  · rw [hlimit]
    split_ifs <;> omega
  · rw [hlimit]
    split_ifs <;> omega
  · intro hq
    have hd : r.DefaultQuery "page" "1" = "1" := by simp [Incoming.DefaultQuery, hq]
    rw [hpage, hd]
    decide
  · intro hq
    have hd : r.DefaultQuery "limit" "10" = "10" := by simp [Incoming.DefaultQuery, hq]
    rw [hlimit, hd]
    decide
  · intro s hq
    have hd : r.DefaultQuery "page" "1" = s := by simp [Incoming.DefaultQuery, hq]
    rw [hpage, hd]
    constructor
    · intro hden
      obtain ⟨h3, hshort⟩ := Atoi_not_denoted s hden
      constructor
      · rcases h3 with h0 | h0 | h0 <;> rw [h0] <;> simp [minInt, maxInt]
      · intro hlen
        rw [hshort hlen]
        decide
    · intro n hden
      rw [Atoi_denoted s n hden]
      simp only [minInt, maxInt]
      split_ifs <;> omega
  · intro s hq
    have hd : r.DefaultQuery "limit" "10" = s := by simp [Incoming.DefaultQuery, hq]
    rw [hlimit, hd]
    constructor
    · intro hden
      rcases (Atoi_not_denoted s hden).1 with h0 | h0 | h0 <;> rw [h0] <;>
        simp [minInt, maxInt]
    · intro n hden
      rw [Atoi_denoted s n hden]
      simp only [minInt, maxInt]
      split_ifs <;> omega
  · intro hst
    rw [hget] at hst ⊢
    cases hfind : h.db.Find (ProductHandler.filterOf r) (ProductHandler.skipOf r)
        (ProductHandler.limitOf r) with
    | error e =>
      rw [hfind] at hst
      simp [Context.JSON] at hst
    | ok products => exact ⟨_, _, rfl⟩

/-- C17 at work: the query `page=3&limit=20`. -/
theorem pagination_bounds_witness :
    [("page", "3"), ("limit", "20")].lookup "page" = some "3" ∧
    denotedInt "3" = some 3 ∧
    ProductHandler.pageOf ⟨"", false, [("page", "3"), ("limit", "20")], [], none, none⟩ = 3 ∧
    [("page", "3"), ("limit", "20")].lookup "limit" = some "20" ∧
    denotedInt "20" = some 20 ∧
    ProductHandler.limitOf ⟨"", false, [("page", "3"), ("limit", "20")], [], none, none⟩
      = 20 :=
  have h := pagination_bounds ⟨⟨[]⟩⟩
    ⟨"", false, [("page", "3"), ("limit", "20")], [], none, none⟩
    (newContext ⟨"GET", "/api/products", []⟩)
  ⟨by decide, by decide,
    ((h.2.2.2.2.2.2.1 "3" (by decide)).2 3 (by decide)).trans (by decide),
    by decide, by decide,
    ((h.2.2.2.2.2.2.2.1 "20" (by decide)).2 20 (by decide)).trans (by decide)⟩

/-! ### Context keys read by the handlers -/

theorem Get_Set_ne (c : Context) (key other : String) (value : Any) (h : key ≠ other) :
    (c.Set key value).Get other = c.Get other := by
  have hb : (other == key) = false := by
    simp only [beq_eq_false_iff_ne, ne_eq]
    exact fun e => h e.symm
  simp [Context.Get, Context.Set, List.lookup, hb]

theorem GetProfile_unauthorized_iff (h : AuthHandler) (c : Context) :
    (h.GetProfile c).status = some 401 ↔ c.Get "user_id" = none := by
  have hget : (c.emit (.handler "GetProfile")).Get "user_id" = c.Get "user_id" := rfl
  unfold AuthHandler.GetProfile
  simp only [hget]
  cases huid : c.Get "user_id" with
  | none => simp [Context.JSON]
  | some v =>
    cases v with
    | str userID =>
      simp only
      cases ObjectIDFromHex userID with
      | none => simp [Context.JSON]
      | some objectID =>
        simp only
        cases List.find? (fun u => decide (u.ID = objectID)) h.db.users <;>
          simp [Context.JSON]
    | role _ => simp [Context.JSON, Context.Abort]
    | int _ => simp [Context.JSON, Context.Abort]
    | bool _ => simp [Context.JSON, Context.Abort]
    | nil => simp [Context.JSON, Context.Abort]

theorem GetProfile_Set_ne (h : AuthHandler) (c : Context) (key : String) (value : Any)
    (hk : key ≠ "user_id") :
    h.GetProfile (c.Set key value) = (h.GetProfile c).Set key value := by
  have hget : ((c.Set key value).emit (.handler "GetProfile")).Get "user_id"
      = (c.emit (.handler "GetProfile")).Get "user_id" :=
    Get_Set_ne (c.emit (.handler "GetProfile")) key "user_id" value hk
  unfold AuthHandler.GetProfile
  simp only [hget]
  cases (c.emit (.handler "GetProfile")).Get "user_id" with
  | none => rfl
  | some v =>
    cases v with
    | str userID =>
      simp only
      cases ObjectIDFromHex userID with
      | none => rfl
      | some objectID =>
        simp only
        cases List.find? (fun u => decide (u.ID = objectID)) h.db.users <;> rfl
    | role _ => rfl
    | int _ => rfl
    | bool _ => rfl
    | nil => rfl

/-- C11, the claim as stated fails: with the identity of a stored administrator attached
under the keys `subject_id`, `email` and `role`, `GetProfile` finds no user ID (401) and
the role checks of `UpdateProduct` and `UploadSliderImage` refuse (403); with the same
identity under `user_id` and `user_role` the profile is served and the checks pass. -/
theorem spec_keys_are_not_read :
    (AuthHandler.GetProfile
      ⟨⟨[⟨⟨"507f1f77bcf86cd799439011"⟩, "admin@example.com", "$1$1pw", "Ada", "Admin",
        RoleAdmin, true, 0, 0⟩]⟩, ⟨"secret", 24⟩⟩
      ((((newContext ⟨"GET", "/api/profile", []⟩).Set "subject_id"
        (.str "507f1f77bcf86cd799439011")).Set "email" (.str "admin@example.com")).Set
        "role" (.str "admin"))).status = some 401 ∧
    (ProductHandler.UpdateProduct (fun x => x.JSON 200 .empty)
      ((((newContext ⟨"PUT", "/api/products/1", []⟩).Set "subject_id"
        (.str "507f1f77bcf86cd799439011")).Set "email" (.str "admin@example.com")).Set
        "role" (.str "admin"))).status = some 403 ∧
    (SliderHandler.UploadSliderImage (fun x => x.JSON 200 .empty)
      ((((newContext ⟨"POST", "/api/slider", []⟩).Set "subject_id"
        (.str "507f1f77bcf86cd799439011")).Set "email" (.str "admin@example.com")).Set
        "role" (.str "admin"))).status = some 403 ∧
    (AuthHandler.GetProfile
      ⟨⟨[⟨⟨"507f1f77bcf86cd799439011"⟩, "admin@example.com", "$1$1pw", "Ada", "Admin",
        RoleAdmin, true, 0, 0⟩]⟩, ⟨"secret", 24⟩⟩
      (((newContext ⟨"GET", "/api/profile", []⟩).Set "user_id"
        (.str "507f1f77bcf86cd799439011")).Set "user_role" (.str "admin"))).status
        = some 200 ∧
    (ProductHandler.UpdateProduct (fun x => x.JSON 200 .empty)
      (((newContext ⟨"PUT", "/api/products/1", []⟩).Set "user_id"
        (.str "507f1f77bcf86cd799439011")).Set "user_role" (.str "admin"))).status
        = some 200 := by
  decide

theorem Login_frame (h : AuthHandler) (now : Int) (r : Incoming) (c : Context) (key : String)
    (value : Any) :
    h.Login now r (c.Set key value) = (h.Login now r c).Set key value := by
  unfold AuthHandler.Login
  repeat' (first | rfl | split)

theorem Register_frame (h : AuthHandler) (now : Int) (newID : ObjectID) (salt : List Bool)
    (r : Incoming) (c : Context) (key : String) (value : Any) :
    h.Register now newID salt r (c.Set key value)
      = ((h.Register now newID salt r c).1.Set key value,
          (h.Register now newID salt r c).2) := by
  unfold AuthHandler.Register
  repeat' (first | rfl | split)

theorem GetProducts_frame (h : ProductHandler) (r : Incoming) (c : Context) (key : String)
    (value : Any) :
    h.GetProducts r (c.Set key value) = (h.GetProducts r c).Set key value := by
  unfold ProductHandler.GetProducts
  repeat' (first | rfl | split | dsimp only)

theorem GetProduct_frame (f : Except DBError Product) (r : Incoming) (c : Context)
    (key : String) (value : Any) :
    ProductHandler.GetProduct f r (c.Set key value)
      = (ProductHandler.GetProduct f r c).Set key value := by
  unfold ProductHandler.GetProduct
  repeat' (first | rfl | split)

theorem UpdateProductBody_frame (validate : UpdateProductRequest → Option String)
    (now : Int) (w : ProductCalls) (r : Incoming) (c : Context) (key : String)
    (value : Any) :
    ProductHandler.UpdateProductBody validate now w r (c.Set key value)
      = (ProductHandler.UpdateProductBody validate now w r c).Set key value := by
  unfold ProductHandler.UpdateProductBody
  repeat' (first | rfl | split)

theorem DeleteProductBody_frame (w : DeleteCalls) (r : Incoming) (c : Context)
    (key : String) (value : Any) :
    ProductHandler.DeleteProductBody w r (c.Set key value)
      = (ProductHandler.DeleteProductBody w r c).Set key value := by
  unfold ProductHandler.DeleteProductBody
  repeat' (first | rfl | split)

theorem UploadProductImageStore_frame (now : Int) (fs : FileCalls) (w : ProductCalls)
    (r : Incoming) (objID : ObjectID) (header : FileHeader) (c : Context) (key : String)
    (value : Any) :
    ProductHandler.UploadProductImageStore now fs w r objID header (c.Set key value)
      = (ProductHandler.UploadProductImageStore now fs w r objID header c).Set key value := by
  unfold ProductHandler.UploadProductImageStore
  repeat' (first | rfl | split)

theorem GetSliders_frame (h : SliderHandler) (now : Int) (newID : ObjectID) (r : Incoming)
    (c : Context) (key : String) (value : Any) :
    h.GetSliders now newID r (c.Set key value)
      = ((h.GetSliders now newID r c).1.Set key value, (h.GetSliders now newID r c).2) := by
  unfold SliderHandler.GetSliders
  repeat' (first | rfl | split | dsimp only)

theorem GetAllSlidersBody_frame (h : SliderHandler) (r : Incoming) (c : Context)
    (key : String) (value : Any) :
    h.GetAllSlidersBody r (c.Set key value) = (h.GetAllSlidersBody r c).Set key value := by
  rfl

theorem DeleteSliderBody_frame (h : SliderHandler) (r : Incoming) (c : Context)
    (key : String) (value : Any) :
    h.DeleteSliderBody r (c.Set key value)
      = ((h.DeleteSliderBody r c).1.Set key value, (h.DeleteSliderBody r c).2) := by
  unfold SliderHandler.DeleteSliderBody
  repeat' (first | rfl | split)

theorem GetSliderSettingsBody_frame (h : SliderHandler) (now : Int) (c : Context)
    (key : String) (value : Any) :
    h.GetSliderSettingsBody now (c.Set key value)
      = (h.GetSliderSettingsBody now c).Set key value := by
  unfold SliderHandler.GetSliderSettingsBody
  repeat' (first | rfl | split)

theorem UpdateSliderSettingsBody_frame
    (validate : UpdateSliderSettingsRequest → Option String) (h : SliderHandler)
    (now : Int) (newID : ObjectID) (bound : Except String UpdateSliderSettingsRequest)
    (c : Context) (key : String) (value : Any) :
    SliderHandler.UpdateSliderSettingsBody validate h now newID bound (c.Set key value)
      = ((SliderHandler.UpdateSliderSettingsBody validate h now newID bound c).1.Set
          key value,
        (SliderHandler.UpdateSliderSettingsBody validate h now newID bound c).2) := by
  unfold SliderHandler.UpdateSliderSettingsBody
  repeat' (first | rfl | split | dsimp only)
theorem CreateProductStore_frame (now : Int) (newID : ObjectID) (ins : Option DBError)
    (r : Incoming) (req : CreateProductRequest) (c : Context) (key : String) (value : Any)
    (hk : key ≠ "user_id") :
    ProductHandler.CreateProductStore now newID ins r req (c.Set key value)
      = (ProductHandler.CreateProductStore now newID ins r req c).Set key value := by
  unfold ProductHandler.CreateProductStore
  rw [Get_Set_ne c key "user_id" value hk]
  repeat' (first | rfl | split)

theorem UploadSliderImageStore_frame (h : SliderHandler) (now : Int) (newID : ObjectID)
    (fs : FileCalls) (w : SliderCalls) (r : Incoming) (header : FileHeader) (c : Context)
    (key : String) (value : Any) (hk : key ≠ "user_id") :
    h.UploadSliderImageStore now newID fs w r header (c.Set key value)
      = ((h.UploadSliderImageStore now newID fs w r header c).1.Set key value,
          (h.UploadSliderImageStore now newID fs w r header c).2) := by
  have hget : ∀ e1 e2 e3, ((((c.Set key value).emit e1).emit e2).emit e3).Get "user_id"
      = (((c.emit e1).emit e2).emit e3).Get "user_id" := fun _ _ _ =>
    Get_Set_ne c key "user_id" value hk
  unfold SliderHandler.UploadSliderImageStore
  simp only [hget]
  repeat' (first | rfl | split)

theorem CreateProductChecks_frame (validate : CreateProductRequest → Option String)
    (r : Incoming) (rest : CreateProductRequest → HandlerFunc) (c : Context) (key : String)
    (value : Any)
    (hrest : ∀ req, rest req (c.Set key value) = (rest req c).Set key value) :
    ProductHandler.CreateProductChecks validate r rest (c.Set key value)
      = (ProductHandler.CreateProductChecks validate r rest c).Set key value := by
  unfold ProductHandler.CreateProductChecks
  repeat' (first | rfl | apply hrest | split)

theorem UploadProductImageChecks_frame (r : Incoming) (rest : HandlerFunc) (c : Context)
    (key : String) (value : Any)
    (hrest : rest (c.Set key value) = (rest c).Set key value) :
    ProductHandler.UploadProductImageChecks r rest (c.Set key value)
      = (ProductHandler.UploadProductImageChecks r rest c).Set key value := by
  unfold ProductHandler.UploadProductImageChecks
  repeat' (first | rfl | exact hrest | split)

theorem UploadSliderImageChecks_frame (r : Incoming) (rest : HandlerFunc) (c : Context)
    (key : String) (value : Any)
    (hrest : rest (c.Set key value) = (rest c).Set key value) :
    SliderHandler.UploadSliderImageChecks r rest (c.Set key value)
      = (SliderHandler.UploadSliderImageChecks r rest c).Set key value := by
  unfold SliderHandler.UploadSliderImageChecks
  repeat' (first | rfl | exact hrest | split)

theorem adminOnly_frame (H : HandlerFunc → HandlerFunc)
    (hH : H ∈ [ProductHandler.UpdateProduct, ProductHandler.DeleteProduct,
      ProductHandler.UploadProductImage, SliderHandler.UploadSliderImage,
      SliderHandler.GetAllSliders, SliderHandler.DeleteSlider,
      SliderHandler.GetSliderSettings, SliderHandler.UpdateSliderSettings])
    (b : HandlerFunc) (c : Context) (key : String) (value : Any)
    (hk : key ≠ "user_role")
    (hb : b (c.Set key value) = (b c).Set key value) :
    H b (c.Set key value) = (H b c).Set key value := by
  rw [adminOnly_eq H hH (c.Set key value) b, adminOnly_eq H hH c b,
    Get_Set_ne c key "user_role" value hk]
  split
  · exact hb
  · rfl

theorem CreateProduct_frame (b : HandlerFunc) (c : Context) (key : String) (value : Any)
    (hid : key ≠ "user_id") (hrole : key ≠ "user_role")
    (hb : b (c.Set key value) = (b c).Set key value) :
    ProductHandler.CreateProduct b (c.Set key value)
      = (ProductHandler.CreateProduct b c).Set key value := by
  unfold ProductHandler.CreateProduct
  simp only [Get_Set_ne c key "user_id" value hid, Get_Set_ne c key "user_role" value hrole]
  repeat' (first | rfl | exact hb | split)

/-- C11, amended: the handlers read the caller's identity under the key `user_id` and the
caller's role under the key `user_role`: `GetProfile` answers 401 exactly when `user_id`
is absent, every admin-only handler passes its role check exactly when `user_role` holds
the string `admin` (`CreateProduct` also needs `user_id`), and a value stored under any
other key, `subject_id`, `email` and `role` included, changes none of these outcomes.
Nor does it change anything else: for each of the seventeen handlers of the package,
with the code behind its role check and its other checks, the response, the effects and
the stored data are the same with and without a value under such a key, the context
carrying that value along; so no handler reads the email. -/
theorem identity_keys (h : AuthHandler) (c : Context) (key : String) (value : Any)
    (hid : key ≠ "user_id") (hrole : key ≠ "user_role") :
    ((h.GetProfile c).status = some 401 ↔ c.Get "user_id" = none) ∧
    (∀ H ∈ [ProductHandler.UpdateProduct, ProductHandler.DeleteProduct,
        ProductHandler.UploadProductImage, SliderHandler.UploadSliderImage,
        SliderHandler.GetAllSliders, SliderHandler.DeleteSlider,
        SliderHandler.GetSliderSettings, SliderHandler.UpdateSliderSettings],
      ((∀ b, H b c = b c) ↔ c.Get "user_role" = some (Any.str "admin")) ∧
      ((∀ b, H b (c.Set key value) = b (c.Set key value)) ↔ (∀ b, H b c = b c))) ∧
    ((∀ b, ProductHandler.CreateProduct b c = b c) ↔
      c.Get "user_id" ≠ none ∧ c.Get "user_role" = some (Any.str "admin")) ∧
    ((∀ b, ProductHandler.CreateProduct b (c.Set key value) = b (c.Set key value)) ↔
      (∀ b, ProductHandler.CreateProduct b c = b c)) ∧
    h.GetProfile (c.Set key value) = (h.GetProfile c).Set key value ∧
    (∀ now newID salt r,
      h.Register now newID salt r (c.Set key value)
        = ((h.Register now newID salt r c).1.Set key value,
            (h.Register now newID salt r c).2)) ∧
    (∀ now r, h.Login now r (c.Set key value) = (h.Login now r c).Set key value) ∧
    h.AdminDashboard (c.Set key value) = (h.AdminDashboard c).Set key value ∧
    (∀ validate now newID ins r,
      ProductHandler.CreateProduct
          (ProductHandler.CreateProductChecks validate r
            (ProductHandler.CreateProductStore now newID ins r)) (c.Set key value)
        = (ProductHandler.CreateProduct
            (ProductHandler.CreateProductChecks validate r
              (ProductHandler.CreateProductStore now newID ins r)) c).Set key value) ∧
    (∀ (ph : ProductHandler) r,
      ph.GetProducts r (c.Set key value) = (ph.GetProducts r c).Set key value) ∧
    (∀ found r,
      ProductHandler.GetProduct found r (c.Set key value)
        = (ProductHandler.GetProduct found r c).Set key value) ∧
    (∀ validate now w r,
      ProductHandler.UpdateProduct (ProductHandler.UpdateProductBody validate now w r)
          (c.Set key value)
        = (ProductHandler.UpdateProduct (ProductHandler.UpdateProductBody validate now w r)
            c).Set key value) ∧
    (∀ w r,
      ProductHandler.DeleteProduct (ProductHandler.DeleteProductBody w r) (c.Set key value)
        = (ProductHandler.DeleteProduct (ProductHandler.DeleteProductBody w r) c).Set
            key value) ∧
    (∀ now fs w r objID header,
      ProductHandler.UploadProductImage
          (ProductHandler.UploadProductImageChecks r
            (ProductHandler.UploadProductImageStore now fs w r objID header))
          (c.Set key value)
        = (ProductHandler.UploadProductImage
            (ProductHandler.UploadProductImageChecks r
              (ProductHandler.UploadProductImageStore now fs w r objID header)) c).Set
            key value) ∧
    ProductHandler.GetCategories (c.Set key value)
      = (ProductHandler.GetCategories c).Set key value ∧
    (∀ (sh : SliderHandler) now newID fs w r header,
      SliderHandler.UploadSliderImage
          (SliderHandler.UploadSliderImageChecks r
            (fun x => (sh.UploadSliderImageStore now newID fs w r header x).1))
          (c.Set key value)
        = (SliderHandler.UploadSliderImage
            (SliderHandler.UploadSliderImageChecks r
              (fun x => (sh.UploadSliderImageStore now newID fs w r header x).1)) c).Set
            key value ∧
      (sh.UploadSliderImageStore now newID fs w r header (c.Set key value)).2
        = (sh.UploadSliderImageStore now newID fs w r header c).2) ∧
    (∀ (sh : SliderHandler) now newID r,
      sh.GetSliders now newID r (c.Set key value)
        = ((sh.GetSliders now newID r c).1.Set key value,
            (sh.GetSliders now newID r c).2)) ∧
    (∀ (sh : SliderHandler) r,
      SliderHandler.GetAllSliders (sh.GetAllSlidersBody r) (c.Set key value)
        = (SliderHandler.GetAllSliders (sh.GetAllSlidersBody r) c).Set key value) ∧
    (∀ (sh : SliderHandler) r,
      SliderHandler.DeleteSlider (fun x => (sh.DeleteSliderBody r x).1) (c.Set key value)
        = (SliderHandler.DeleteSlider (fun x => (sh.DeleteSliderBody r x).1) c).Set
            key value ∧
      (sh.DeleteSliderBody r (c.Set key value)).2 = (sh.DeleteSliderBody r c).2) ∧
    (∀ (sh : SliderHandler) now,
      SliderHandler.GetSliderSettings (sh.GetSliderSettingsBody now) (c.Set key value)
        = (SliderHandler.GetSliderSettings (sh.GetSliderSettingsBody now) c).Set
            key value) ∧
    (∀ validate (sh : SliderHandler) now newID bound,
      SliderHandler.UpdateSliderSettings
          (fun x => (SliderHandler.UpdateSliderSettingsBody validate sh now newID bound x).1)
          (c.Set key value)
        = (SliderHandler.UpdateSliderSettings
            (fun x =>
              (SliderHandler.UpdateSliderSettingsBody validate sh now newID bound x).1)
            c).Set key value ∧
      (SliderHandler.UpdateSliderSettingsBody validate sh now newID bound
          (c.Set key value)).2
        = (SliderHandler.UpdateSliderSettingsBody validate sh now newID bound c).2) := by
  have hr : (c.Set key value).Get "user_role" = c.Get "user_role" :=
    Get_Set_ne c key "user_role" value hrole
  have hu : (c.Set key value).Get "user_id" = c.Get "user_id" :=
    Get_Set_ne c key "user_id" value hid
  refine ⟨GetProfile_unauthorized_iff h c, ?_, CreateProduct_pass_iff c, ?_,
    GetProfile_Set_ne h c key value hid, ?_, ?_, rfl, ?_, ?_, ?_, ?_, ?_, ?_, rfl, ?_, ?_,
    ?_, ?_, ?_, ?_⟩
  · intro H hH
    have h1 := adminCheck_pass_iff c H (adminOnly_eq H hH c)
    have h2 := adminCheck_pass_iff (c.Set key value) H (adminOnly_eq H hH (c.Set key value))
    rw [hr] at h2
    exact ⟨h1, h2.trans h1.symm⟩
  · have h1 := CreateProduct_pass_iff c
    have h2 := CreateProduct_pass_iff (c.Set key value)
    rw [hr, hu] at h2
    exact h2.trans h1.symm
  · intro now newID salt r
    exact Register_frame h now newID salt r c key value
  · intro now r
    exact Login_frame h now r c key value
  · intro validate now newID ins r
    exact CreateProduct_frame _ c key value hid hrole
      (CreateProductChecks_frame validate r _ c key value
        (fun req => CreateProductStore_frame now newID ins r req c key value hid))
  · intro ph r
    exact GetProducts_frame ph r c key value
  · intro found r
    exact GetProduct_frame found r c key value
  · intro validate now w r
    exact adminOnly_frame _ (by simp) _ c key value hrole
      (UpdateProductBody_frame validate now w r c key value)
  · intro w r
    exact adminOnly_frame _ (by simp) _ c key value hrole
      (DeleteProductBody_frame w r c key value)
  · intro now fs w r objID header
    exact adminOnly_frame _ (by simp) _ c key value hrole
      (UploadProductImageChecks_frame r _ c key value
        (UploadProductImageStore_frame now fs w r objID header c key value))
  · intro sh now newID fs w r header
    have hs := UploadSliderImageStore_frame sh now newID fs w r header c key value hid
    exact ⟨adminOnly_frame _ (by simp) _ c key value hrole
      (UploadSliderImageChecks_frame r _ c key value (congrArg Prod.fst hs)),
      (congrArg Prod.snd hs : _ = _)⟩
  · intro sh now newID r
    exact GetSliders_frame sh now newID r c key value
  · intro sh r
    exact adminOnly_frame _ (by simp) _ c key value hrole
      (GetAllSlidersBody_frame sh r c key value)
  · intro sh r
    have hs := DeleteSliderBody_frame sh r c key value
    exact ⟨adminOnly_frame _ (by simp) _ c key value hrole (congrArg Prod.fst hs),
      (congrArg Prod.snd hs : _ = _)⟩
  · intro sh now
    exact adminOnly_frame _ (by simp) _ c key value hrole
      (GetSliderSettingsBody_frame sh now c key value)
  · intro validate sh now newID bound
    have hs := UpdateSliderSettingsBody_frame validate sh now newID bound c key value
    exact ⟨adminOnly_frame _ (by simp) _ c key value hrole (congrArg Prod.fst hs),
      (congrArg Prod.snd hs : _ = _)⟩

/-- C11 at work: a value stored under the key `role` does not open the role check of
`DeleteSlider`, and an email stored under the key `email` changes nothing in what
`CreateProduct` does for an administrator, the creation of the product included. -/
theorem identity_keys_witness :
    "role" ≠ "user_id" ∧ "role" ≠ "user_role" ∧
    ((∀ b, SliderHandler.DeleteSlider b
        ((newContext ⟨"DELETE", "/api/slider/1", []⟩).Set "role" (.str "admin"))
          = b ((newContext ⟨"DELETE", "/api/slider/1", []⟩).Set "role" (.str "admin"))) ↔
      (∀ b, SliderHandler.DeleteSlider b (newContext ⟨"DELETE", "/api/slider/1", []⟩)
          = b (newContext ⟨"DELETE", "/api/slider/1", []⟩))) ∧
    "email" ≠ "user_id" ∧ "email" ≠ "user_role" ∧
    (ProductHandler.CreateProduct
        (ProductHandler.CreateProductChecks (fun _ => none)
          ⟨"", false, [], [], some [("name", .string "Lamp"), ("price", .number ⟨1⟩),
            ("category", .string "home"), ("description", .string "A desk lamp")], none⟩
          (ProductHandler.CreateProductStore 100 ⟨"65a000000000000000000001"⟩ none
            ⟨"", false, [], [], some [("name", .string "Lamp"), ("price", .number ⟨1⟩),
              ("category", .string "home"), ("description", .string "A desk lamp")],
              none⟩))
        (((newContext ⟨"POST", "/api/products", []⟩).Set "user_id"
          (.str "507f1f77bcf86cd799439011")).Set "user_role" (.str "admin"))).status
      = some 201 ∧
    ProductHandler.CreateProduct
        (ProductHandler.CreateProductChecks (fun _ => none)
          ⟨"", false, [], [], some [("name", .string "Lamp"), ("price", .number ⟨1⟩),
            ("category", .string "home"), ("description", .string "A desk lamp")], none⟩
          (ProductHandler.CreateProductStore 100 ⟨"65a000000000000000000001"⟩ none
            ⟨"", false, [], [], some [("name", .string "Lamp"), ("price", .number ⟨1⟩),
              ("category", .string "home"), ("description", .string "A desk lamp")],
              none⟩))
        ((((newContext ⟨"POST", "/api/products", []⟩).Set "user_id"
          (.str "507f1f77bcf86cd799439011")).Set "user_role" (.str "admin")).Set "email"
          (.str "admin@example.com"))
      = (ProductHandler.CreateProduct
          (ProductHandler.CreateProductChecks (fun _ => none)
            ⟨"", false, [], [], some [("name", .string "Lamp"), ("price", .number ⟨1⟩),
              ("category", .string "home"), ("description", .string "A desk lamp")],
              none⟩
            (ProductHandler.CreateProductStore 100 ⟨"65a000000000000000000001"⟩ none
              ⟨"", false, [], [], some [("name", .string "Lamp"), ("price", .number ⟨1⟩),
                ("category", .string "home"), ("description", .string "A desk lamp")],
                none⟩))
          (((newContext ⟨"POST", "/api/products", []⟩).Set "user_id"
            (.str "507f1f77bcf86cd799439011")).Set "user_role" (.str "admin"))).Set
          "email" (.str "admin@example.com") :=
  ⟨by decide, by decide,
    ((identity_keys ⟨⟨[]⟩, ⟨"secret", 24⟩⟩ (newContext ⟨"DELETE", "/api/slider/1", []⟩)
      "role" (.str "admin") (by decide) (by decide)).2.1 SliderHandler.DeleteSlider
      (by simp)).2,
    by decide, by decide, by decide,
    (identity_keys ⟨⟨[]⟩, ⟨"secret", 24⟩⟩
      (((newContext ⟨"POST", "/api/products", []⟩).Set "user_id"
        (.str "507f1f77bcf86cd799439011")).Set "user_role" (.str "admin"))
      "email" (.str "admin@example.com") (by decide) (by decide)).2.2.2.2.2.2.2.2.1
      (fun _ => none) 100 ⟨"65a000000000000000000001"⟩ none
      ⟨"", false, [], [], some [("name", .string "Lamp"), ("price", .number ⟨1⟩),
        ("category", .string "home"), ("description", .string "A desk lamp")], none⟩⟩

/-! ### Registration and login -/

theorem HashPassword_ne_plaintext (salt : List Bool) (p hash : String)
    (h : HashPassword salt p = .ok hash) : hash ≠ p := by
  have hh : hash = String.mk ('$' :: saltText salt ++ '$' :: digest (saltText salt) p.data) :=
    (Except.ok.inj h).symm
  intro heq
  have := congrArg (fun s => s.data.length) (hh.symm.trans heq)
  simp [digest] at this
  omega

theorem registerRole_eq (requested : String) :
    (if requested ≠ "" then
      if (Role.mk requested).IsValid then Role.mk requested else RoleUser
    else RoleUser) = roleByClaim requested := by
  unfold roleByClaim Role.IsValid RoleUser RoleAdmin
  by_cases h1 : requested = "user"
  · subst h1
    decide
  · by_cases h2 : requested = "admin"
    · subst h2
      decide
    · by_cases h3 : requested = ""
      · subst h3
        decide
      · simp [h1, h2, h3]

theorem Role_IsValid_iff (role : Role) :
    role.IsValid = true ↔ role.val = "user" ∨ role.val = "admin" := by
  cases role with
  | mk v => simp [Role.IsValid, RoleUser, RoleAdmin]

theorem FindUserByEmail_none_iff (db : Database) (email : String) :
    db.FindUserByEmail email = .error .ErrNoDocuments ↔ ∀ u ∈ db.users, u.Email ≠ email := by
  unfold Database.FindUserByEmail
  cases hf : db.users.find? (fun u => u.Email = email) with
  | none =>
    simp only [true_iff]
    intro u hu
    have := List.find?_eq_none.mp hf u hu
    simpa using this
  | some u =>
    simp only [reduceCtorEq, false_iff, not_forall]
    have hmem := List.mem_of_find?_eq_some hf
    have hp := List.find?_some hf
    exact ⟨u, hmem, by simpa using hp⟩

theorem FindUserByEmail_cases (db : Database) (email : String) :
    db.FindUserByEmail email = .error .ErrNoDocuments ∨
    ∃ u, db.FindUserByEmail email = .ok u := by
  unfold Database.FindUserByEmail
  cases db.users.find? (fun u => u.Email = email) with
  | none => exact Or.inl rfl
  | some u => exact Or.inr ⟨u, rfl⟩

theorem Register_created (h : AuthHandler) (now : Int) (newID : ObjectID) (salt : List Bool)
    (r : Incoming) (c : Context) (req : RegisterRequest)
    (hbind : ShouldBindJSONRegister r.Payload = .ok req)
    (hnew : h.db.FindUserByEmail req.Email = .error .ErrNoDocuments) :
    ∃ hash token,
      HashPassword salt req.Password = .ok hash ∧
      GenerateToken h.jwtManager now newID.Hex req.Email (roleByClaim req.Role).String
        = .ok token ∧
      h.Register now newID salt r c =
        (((c.emit (.db "users" "FindOne")).emit (.db "users" "InsertOne")).JSON 201
          (.auth token (User.ToResponse
            { ID := newID, Email := req.Email, Password := hash,
              FirstName := req.FirstName, LastName := req.LastName,
              Role := roleByClaim req.Role, IsActive := true, CreatedAt := now,
              UpdatedAt := now })),
         { users := h.db.users ++
            [{ ID := newID, Email := req.Email, Password := hash,
               FirstName := req.FirstName, LastName := req.LastName,
               Role := roleByClaim req.Role, IsActive := true, CreatedAt := now,
               UpdatedAt := now }] }) := by
  refine ⟨_, _, rfl, rfl, ?_⟩
  simp only [AuthHandler.Register, hbind, hnew, HashPassword, Database.InsertUser,
    GenerateToken, registerRole_eq]

theorem Register_conflict (h : AuthHandler) (now : Int) (newID : ObjectID) (salt : List Bool)
    (r : Incoming) (c : Context) (req : RegisterRequest) (u : User)
    (hbind : ShouldBindJSONRegister r.Payload = .ok req)
    (hold : h.db.FindUserByEmail req.Email = .ok u) :
    h.Register now newID salt r c =
      ((c.emit (.db "users" "FindOne")).JSON 409 (.error "User already exists"), h.db) := by
  simp only [AuthHandler.Register, hbind, hold]

theorem Register_unbound (h : AuthHandler) (now : Int) (newID : ObjectID) (salt : List Bool)
    (r : Incoming) (c : Context) (msg : String)
    (hbind : ShouldBindJSONRegister r.Payload = .error msg) :
    h.Register now newID salt r c = (c.JSON 400 (.error msg), h.db) := by
  simp only [AuthHandler.Register, hbind]

/-- C12 (lenient role at registration): for every registration request that passes
binding (and whose email is not taken), the user is created with the requested role when
the role text is exactly `user` or `admin` and with the role `user` when it is empty or
any other text; that role is the one embedded in the issued token; the answer is 201
whatever the role text is; and `Role.IsValid` is true iff the role is `user` or
`admin`. -/
theorem lenient_role (h : AuthHandler) (now : Int) (newID : ObjectID) (salt : List Bool)
    (r : Incoming) (c : Context) (req : RegisterRequest)
    (hbind : ShouldBindJSONRegister r.Payload = .ok req)
    (hnew : h.db.FindUserByEmail req.Email = .error .ErrNoDocuments) :
    roleByClaim req.Role =
      (if req.Role = "user" ∨ req.Role = "admin" then ⟨req.Role⟩ else RoleUser) ∧
    (∃ hash token claims sig,
      h.Register now newID salt r c =
        (((c.emit (.db "users" "FindOne")).emit (.db "users" "InsertOne")).JSON 201
          (.auth token (User.ToResponse
            { ID := newID, Email := req.Email, Password := hash,
              FirstName := req.FirstName, LastName := req.LastName,
              Role := roleByClaim req.Role, IsActive := true, CreatedAt := now,
              UpdatedAt := now })),
         { users := h.db.users ++
            [{ ID := newID, Email := req.Email, Password := hash,
               FirstName := req.FirstName, LastName := req.LastName,
               Role := roleByClaim req.Role, IsActive := true, CreatedAt := now,
               UpdatedAt := now }] }) ∧
      GenerateToken h.jwtManager now newID.Hex req.Email (roleByClaim req.Role).String
        = .ok token ∧
      decodeToken token = some (claims, sig) ∧
      claims.Role = (roleByClaim req.Role).val) ∧
    (h.Register now newID salt r c).1.status = some 201 ∧
    (∀ role : Role, role.IsValid = true ↔ role.val = "user" ∨ role.val = "admin") := by
  obtain ⟨hash, token, _, htok, hreg⟩ := Register_created h now newID salt r c req hbind hnew
  have ht : token = String.mk (encodeClaims
      { UserID := newID.Hex, Email := req.Email, Role := (roleByClaim req.Role).String,
        IssuedAt := now, ExpiresAt := now + h.jwtManager.expiration } ++
      mac h.jwtManager.secretKey (encodeClaims
      { UserID := newID.Hex, Email := req.Email, Role := (roleByClaim req.Role).String,
        IssuedAt := now, ExpiresAt := now + h.jwtManager.expiration })) :=
    (Except.ok.inj htok).symm
  refine ⟨rfl, ⟨hash, token,
    { UserID := newID.Hex, Email := req.Email, Role := (roleByClaim req.Role).String,
      IssuedAt := now, ExpiresAt := now + h.jwtManager.expiration },
    mac h.jwtManager.secretKey (encodeClaims
      { UserID := newID.Hex, Email := req.Email, Role := (roleByClaim req.Role).String,
        IssuedAt := now, ExpiresAt := now + h.jwtManager.expiration }),
    hreg, htok, ?_, rfl⟩, ?_, Role_IsValid_iff⟩
  · rw [ht]
    exact decodeToken_encode _ _
  · rw [hreg]
    rfl

/-- C12 at work: a registration with the role text `superuser`. -/
theorem lenient_role_witness :
    ShouldBindJSONRegister (some [("email", .string "eve@example.com"),
        ("password", .string "password123"), ("first_name", .string "Eve"),
        ("last_name", .string "Doe"), ("role", .string "superuser")])
      = .ok ⟨"eve@example.com", "password123", "Eve", "Doe", "superuser"⟩ ∧
    (Database.mk []).FindUserByEmail "eve@example.com" = .error .ErrNoDocuments ∧
    roleByClaim "superuser" = RoleUser ∧
    (AuthHandler.Register ⟨⟨[]⟩, ⟨"secret", 24⟩⟩ 100 ⟨"507f1f77bcf86cd799439011"⟩ [true]
      ⟨"", false, [], [], some [("email", .string "eve@example.com"),
        ("password", .string "password123"), ("first_name", .string "Eve"),
        ("last_name", .string "Doe"), ("role", .string "superuser")], none⟩
      (newContext ⟨"POST", "/api/auth/register", []⟩)).1.status = some 201 :=
  ⟨by decide, by decide, by decide,
    (lenient_role ⟨⟨[]⟩, ⟨"secret", 24⟩⟩ 100 ⟨"507f1f77bcf86cd799439011"⟩ [true]
      ⟨"", false, [], [], some [("email", .string "eve@example.com"),
        ("password", .string "password123"), ("first_name", .string "Eve"),
        ("last_name", .string "Doe"), ("role", .string "superuser")], none⟩
      (newContext ⟨"POST", "/api/auth/register", []⟩)
      ⟨"eve@example.com", "password123", "Eve", "Doe", "superuser"⟩ (by decide)
      (by decide)).2.2.1⟩

theorem Login_found (h : AuthHandler) (now : Int) (r : Incoming) (c : Context)
    (req : LoginRequest) (user : User)
    (hbind : ShouldBindJSONLogin r.Payload = .ok req)
    (hfind : h.db.FindUserByEmail req.Email = .ok user) :
    h.Login now r c =
      if user.IsActive = false then
        (c.emit (.db "users" "FindOne")).JSON 401 (.error "Account is deactivated")
      else if CheckPasswordHash req.Password user.Password = false then
        (c.emit (.db "users" "FindOne")).JSON 401 (.error "Invalid credentials")
      else
        (c.emit (.db "users" "FindOne")).JSON 200 (.login
          (String.mk (encodeClaims
              { UserID := user.ID.Hex, Email := user.Email, Role := user.Role.String,
                IssuedAt := now, ExpiresAt := now + h.jwtManager.expiration } ++
            mac h.jwtManager.secretKey (encodeClaims
              { UserID := user.ID.Hex, Email := user.Email, Role := user.Role.String,
                IssuedAt := now, ExpiresAt := now + h.jwtManager.expiration })))
          user.Role) := by
  simp only [AuthHandler.Login, hbind, hfind, GenerateToken]
  by_cases ha : user.IsActive = true
  · by_cases hc : CheckPasswordHash req.Password user.Password = true
    · simp [ha, hc]
    · simp [ha, hc]
  · simp [ha]

theorem Login_not_found (h : AuthHandler) (now : Int) (r : Incoming) (c : Context)
    (req : LoginRequest) (hbind : ShouldBindJSONLogin r.Payload = .ok req)
    (hfind : h.db.FindUserByEmail req.Email = .error .ErrNoDocuments) :
    h.Login now r c =
      (c.emit (.db "users" "FindOne")).JSON 401 (.error "Invalid credentials") := by
  simp only [AuthHandler.Login, hbind, hfind]

/-- C13 (login status codes): for every login request that binds, `Login` answers 401
and issues no token when no user has the given email, when the user is inactive, or when
`CheckPasswordHash` on the password and the stored hash is false; it answers 200 with a
token generated for the user's ID in hexadecimal, email and role exactly when an active
user is found and the password verifies; a token is part of the answer only then; and
`Register` answers 201 with the issued token. -/
theorem login_status_codes (h : AuthHandler) (now : Int) (r : Incoming) (c : Context)
    (req : LoginRequest) (hbind : ShouldBindJSONLogin r.Payload = .ok req)
    (newID : ObjectID) (salt : List Bool) (rr : Incoming) (rreq : RegisterRequest) :
    ((∀ u ∈ h.db.users, u.Email ≠ req.Email) →
      h.Login now r c =
        (c.emit (.db "users" "FindOne")).JSON 401 (.error "Invalid credentials")) ∧
    (∀ user, h.db.FindUserByEmail req.Email = .ok user → user.IsActive = false →
      h.Login now r c =
        (c.emit (.db "users" "FindOne")).JSON 401 (.error "Account is deactivated")) ∧
    (∀ user, h.db.FindUserByEmail req.Email = .ok user →
      CheckPasswordHash req.Password user.Password = false →
      (h.Login now r c).status = some 401 ∧
      ∀ token role, (h.Login now r c).body ≠ .login token role) ∧
    (∀ user, h.db.FindUserByEmail req.Email = .ok user → user.IsActive = true →
      CheckPasswordHash req.Password user.Password = true →
      ∃ token, GenerateToken h.jwtManager now user.ID.Hex user.Email user.Role.String
          = .ok token ∧
        h.Login now r c =
          (c.emit (.db "users" "FindOne")).JSON 200 (.login token user.Role)) ∧
    ((h.Login now r c).status = some 200 ↔
      ∃ user, h.db.FindUserByEmail req.Email = .ok user ∧ user.IsActive = true ∧
        CheckPasswordHash req.Password user.Password = true) ∧
    (∀ token role, (h.Login now r c).body = .login token role →
      (h.Login now r c).status = some 200) ∧
    (ShouldBindJSONRegister rr.Payload = .ok rreq →
      (∀ u ∈ h.db.users, u.Email ≠ rreq.Email) →
      (h.Register now newID salt rr c).1.status = some 201 ∧
      ∃ token user, (h.Register now newID salt rr c).1.body = .auth token user) := by
  refine ⟨?_, ?_, ?_, ?_, ?_, ?_, ?_⟩
  · intro hno
    exact Login_not_found h now r c req hbind
      ((FindUserByEmail_none_iff h.db req.Email).mpr hno)
  · intro user hfind hinactive
    rw [Login_found h now r c req user hbind hfind, if_pos hinactive]
  · intro user hfind hcheck
    rw [Login_found h now r c req user hbind hfind]
    by_cases ha : user.IsActive = false
    · rw [if_pos ha]
      exact ⟨rfl, fun _ _ hb => by simp [Context.JSON] at hb⟩
    · rw [if_neg ha, if_pos hcheck]
      exact ⟨rfl, fun _ _ hb => by simp [Context.JSON] at hb⟩
  · intro user hfind hactive hcheck
    refine ⟨_, rfl, ?_⟩
    rw [Login_found h now r c req user hbind hfind]
    simp [hactive, hcheck]
  · rcases FindUserByEmail_cases h.db req.Email with hnone | ⟨user, hfind⟩
    · rw [Login_not_found h now r c req hbind hnone]
      simp [Context.JSON, hnone]
    · rw [Login_found h now r c req user hbind hfind]
      by_cases ha : user.IsActive = true
      · by_cases hc : CheckPasswordHash req.Password user.Password = true
        · simp [ha, hc, hfind, Context.JSON]
        · simp [ha, hc, hfind, Context.JSON]
      · simp [ha, hfind, Context.JSON]
  · intro token role
    rcases FindUserByEmail_cases h.db req.Email with hnone | ⟨user, hfind⟩
    · rw [Login_not_found h now r c req hbind hnone]
      simp [Context.JSON]
    · rw [Login_found h now r c req user hbind hfind]
      by_cases ha : user.IsActive = true
      · by_cases hc : CheckPasswordHash req.Password user.Password = true
        · simp [ha, hc, Context.JSON]
        · simp [ha, hc, Context.JSON]
      · simp [ha, Context.JSON]
  · intro hrbind hno
    obtain ⟨hash, token, _, _, hreg⟩ := Register_created h now newID salt rr c rreq hrbind
      ((FindUserByEmail_none_iff h.db rreq.Email).mpr hno)
    rw [hreg]
    exact ⟨rfl, _, _, rfl⟩

/-- C13 at work: a login with a wrong password for a stored, active user. -/
theorem login_status_codes_witness :
    ShouldBindJSONLogin (some [("email", .string "a@b.com"), ("password", .string "wrong")])
      = .ok ⟨"a@b.com", "wrong"⟩ ∧
    (Database.mk [⟨⟨"507f1f77bcf86cd799439011"⟩, "a@b.com", "$1$1password123", "A", "B",
      RoleUser, true, 0, 0⟩]).FindUserByEmail "a@b.com"
      = .ok ⟨⟨"507f1f77bcf86cd799439011"⟩, "a@b.com", "$1$1password123", "A", "B",
        RoleUser, true, 0, 0⟩ ∧
    CheckPasswordHash "wrong" "$1$1password123" = false ∧
    (AuthHandler.Login
      ⟨⟨[⟨⟨"507f1f77bcf86cd799439011"⟩, "a@b.com", "$1$1password123", "A", "B",
        RoleUser, true, 0, 0⟩]⟩, ⟨"secret", 24⟩⟩ 100
      ⟨"", false, [], [], some [("email", .string "a@b.com"),
        ("password", .string "wrong")], none⟩
      (newContext ⟨"POST", "/api/auth/login", []⟩)).status = some 401 :=
  ⟨by decide, by decide, by decide,
    ((login_status_codes
      ⟨⟨[⟨⟨"507f1f77bcf86cd799439011"⟩, "a@b.com", "$1$1password123", "A", "B",
        RoleUser, true, 0, 0⟩]⟩, ⟨"secret", 24⟩⟩ 100
      ⟨"", false, [], [], some [("email", .string "a@b.com"),
        ("password", .string "wrong")], none⟩
      (newContext ⟨"POST", "/api/auth/login", []⟩) ⟨"a@b.com", "wrong"⟩ (by decide)
      ⟨"507f1f77bcf86cd799439011"⟩ [] ⟨"", false, [], [], none, none⟩
      ⟨"", "", "", "", ""⟩).2.2.1
      ⟨⟨"507f1f77bcf86cd799439011"⟩, "a@b.com", "$1$1password123", "A", "B", RoleUser,
        true, 0, 0⟩ (by decide) (by decide)).1⟩

/-- C14, the code at the failing inputs: a registration whose email is `invalid-email`,
and one that has an email only, are bound without a check of the rules of
`RegisterRequest`; `Register` queries the database, stores the user and answers 201. -/
theorem register_skips_validation :
    ShouldBindJSONRegister (some [("email", .string "invalid-email"),
        ("password", .string "password123"), ("first_name", .string "John"),
        ("last_name", .string "Doe")])
      = .ok ⟨"invalid-email", "password123", "John", "Doe", ""⟩ ∧
    (AuthHandler.Register ⟨⟨[]⟩, ⟨"test-secret", 86400⟩⟩ 100 ⟨"507f1f77bcf86cd799439011"⟩
      [true, false]
      ⟨"", false, [], [], some [("email", .string "invalid-email"),
        ("password", .string "password123"), ("first_name", .string "John"),
        ("last_name", .string "Doe")], none⟩
      (newContext ⟨"POST", "/api/auth/register", []⟩)).1.status = some 201 ∧
    (AuthHandler.Register ⟨⟨[]⟩, ⟨"test-secret", 86400⟩⟩ 100 ⟨"507f1f77bcf86cd799439011"⟩
      [true, false]
      ⟨"", false, [], [], some [("email", .string "invalid-email"),
        ("password", .string "password123"), ("first_name", .string "John"),
        ("last_name", .string "Doe")], none⟩
      (newContext ⟨"POST", "/api/auth/register", []⟩)).1.effects
      = [.db "users" "FindOne", .db "users" "InsertOne"] ∧
    (AuthHandler.Register ⟨⟨[]⟩, ⟨"test-secret", 86400⟩⟩ 100 ⟨"507f1f77bcf86cd799439011"⟩
      [true, false]
      ⟨"", false, [], [], some [("email", .string "invalid-email"),
        ("password", .string "password123"), ("first_name", .string "John"),
        ("last_name", .string "Doe")], none⟩
      (newContext ⟨"POST", "/api/auth/register", []⟩)).2.users
      = [⟨⟨"507f1f77bcf86cd799439011"⟩, "invalid-email", "$10$10password123", "John",
          "Doe", RoleUser, true, 100, 100⟩] ∧
    (AuthHandler.Register ⟨⟨[]⟩, ⟨"test-secret", 86400⟩⟩ 100 ⟨"507f1f77bcf86cd799439011"⟩
      [true, false]
      ⟨"", false, [], [], some [("email", .string "test@example.com")], none⟩
      (newContext ⟨"POST", "/api/auth/register", []⟩)).1.status = some 201 := by
  decide

/-- C15 (no credential leak in responses): `User.ToResponse` does not depend on the
`Password` field, and copies the eight other fields unchanged; every user that is in the
database after `Register` and was not there before has as password a hash returned by
`HashPassword` for the request's password, which differs from that plaintext; and the
body of `Register`'s 201 answer is the token and the `ToResponse` of that user. -/
theorem no_credential_leak (u : User) (password : String) (h : AuthHandler) (now : Int)
    (newID : ObjectID) (salt : List Bool) (r : Incoming) (c : Context) :
    ({ u with Password := password }).ToResponse = u.ToResponse ∧
    u.ToResponse =
      { ID := u.ID, Email := u.Email, FirstName := u.FirstName, LastName := u.LastName,
        Role := u.Role, IsActive := u.IsActive, CreatedAt := u.CreatedAt,
        UpdatedAt := u.UpdatedAt } ∧
    (∀ stored ∈ (h.Register now newID salt r c).2.users, stored ∈ h.db.users ∨
      ∃ req hash, ShouldBindJSONRegister r.Payload = .ok req ∧
        HashPassword salt req.Password = .ok hash ∧ stored.Password = hash ∧
        stored.Password ≠ req.Password) ∧
    ((h.Register now newID salt r c).1.status = some 201 →
      ∃ token stored, stored ∈ (h.Register now newID salt r c).2.users ∧
        (h.Register now newID salt r c).1.body = .auth token stored.ToResponse) := by
  refine ⟨rfl, rfl, ?_, ?_⟩
  · intro stored hstored
    cases hbind : ShouldBindJSONRegister r.Payload with
    | error msg =>
      rw [Register_unbound h now newID salt r c msg hbind] at hstored
      exact Or.inl hstored
    | ok req =>
      rcases FindUserByEmail_cases h.db req.Email with hnone | ⟨old, hfind⟩
      · obtain ⟨hash, token, hhash, _, hreg⟩ :=
          Register_created h now newID salt r c req hbind hnone
        rw [hreg] at hstored
        rcases List.mem_append.mp hstored with hin | hin
        · exact Or.inl hin
        · right
          have hs := List.mem_singleton.mp hin
          refine ⟨req, hash, rfl, hhash, by rw [hs], ?_⟩
          rw [hs]
          exact HashPassword_ne_plaintext salt req.Password hash hhash
      · rw [Register_conflict h now newID salt r c req old hbind hfind] at hstored
        exact Or.inl hstored
  · intro hst
    cases hbind : ShouldBindJSONRegister r.Payload with
    | error msg =>
      rw [Register_unbound h now newID salt r c msg hbind] at hst
      simp [Context.JSON] at hst
    | ok req =>
      rcases FindUserByEmail_cases h.db req.Email with hnone | ⟨old, hfind⟩
      · obtain ⟨hash, token, _, _, hreg⟩ :=
          Register_created h now newID salt r c req hbind hnone
        rw [hreg]
        exact ⟨token, _, List.mem_append_right _ (List.mem_singleton.mpr rfl), rfl⟩
      · rw [Register_conflict h now newID salt r c req old hbind hfind] at hst
        simp [Context.JSON] at hst

/-- C15 at work: the user stored by a registration with the password `password123`. -/
theorem no_credential_leak_witness :
    (AuthHandler.Register ⟨⟨[]⟩, ⟨"secret", 24⟩⟩ 100 ⟨"507f1f77bcf86cd799439011"⟩ [true]
      ⟨"", false, [], [], some [("email", .string "a@b.com"),
        ("password", .string "password123")], none⟩
      (newContext ⟨"POST", "/api/auth/register", []⟩)).1.status = some 201 ∧
    ∃ token stored, stored ∈ (AuthHandler.Register ⟨⟨[]⟩, ⟨"secret", 24⟩⟩ 100
        ⟨"507f1f77bcf86cd799439011"⟩ [true]
        ⟨"", false, [], [], some [("email", .string "a@b.com"),
          ("password", .string "password123")], none⟩
        (newContext ⟨"POST", "/api/auth/register", []⟩)).2.users ∧
      (AuthHandler.Register ⟨⟨[]⟩, ⟨"secret", 24⟩⟩ 100 ⟨"507f1f77bcf86cd799439011"⟩ [true]
        ⟨"", false, [], [], some [("email", .string "a@b.com"),
          ("password", .string "password123")], none⟩
        (newContext ⟨"POST", "/api/auth/register", []⟩)).1.body
        = .auth token stored.ToResponse :=
  ⟨by decide,
    (no_credential_leak ⟨⟨""⟩, "", "", "", "", RoleUser, true, 0, 0⟩ ""
      ⟨⟨[]⟩, ⟨"secret", 24⟩⟩ 100 ⟨"507f1f77bcf86cd799439011"⟩ [true]
      ⟨"", false, [], [], some [("email", .string "a@b.com"),
        ("password", .string "password123")], none⟩
      (newContext ⟨"POST", "/api/auth/register", []⟩)).2.2.2 (by decide)⟩

/-! ### Duplicated URL resolution -/

/-- C25 (the duplicated URL-resolution code agrees): for every stored image URL `u` and
base URL `b`, the full image URL that `UploadProductImage` computes inline, in the branch
where the product cannot be fetched back and in the branch where it was fetched back, and
the one that `UploadSliderImage` computes inline, are each the `ImageURL` that
`Product.ToResponseWithBaseURL b` computes for a product with image URL `u`, which is the
`ImageURL` that `Slider.ToResponseWithBaseURL b` computes for a slider with image URL `u`.
In the handlers: whenever `UploadProductImage` answers with the image URL of a finished
upload, that URL is this resolution, under the base URL of the request, of the image URL
of the product fetched back, or of the URL just written when the product cannot be fetched
back; and the slider in the answer of `UploadSliderImage` has as image URL what the inline
code computes for the URL just stored. -/
theorem url_resolution_agrees (u b : String) (p : Product) (s : Slider) (now : Int)
    (fs : FileCalls) (w : ProductCalls) (v : SliderCalls) (h : SliderHandler)
    (newID objID : ObjectID) (r : Incoming) (header : FileHeader) (c : Context) :
    ProductHandler.fallbackImageURL u b
      = ({ p with ImageURL := u }.ToResponseWithBaseURL b).ImageURL ∧
    ProductHandler.verifiedImageURL u b
      = ({ p with ImageURL := u }.ToResponseWithBaseURL b).ImageURL ∧
    SliderHandler.fullImageURL u b
      = ({ p with ImageURL := u }.ToResponseWithBaseURL b).ImageURL ∧
    ({ p with ImageURL := u }.ToResponseWithBaseURL b).ImageURL
      = ({ s with ImageURL := u }.ToResponseWithBaseURL b).ImageURL ∧
    (∀ message url,
      (ProductHandler.UploadProductImageStore now fs w r objID header c).body
        = .imageUploaded message url →
      url = ({ p with ImageURL :=
          match w.FindOne with
          | .ok updatedProduct => updatedProduct.ImageURL
          | .error _ =>
            "/uploads/products/" ++
              (r.Param "id" ++ "_" ++ formatInt (Unix now) ++ Ext header.Filename)
        }.ToResponseWithBaseURL (getBaseURL r c)).ImageURL) ∧
    (∀ message slide,
      (SliderHandler.UploadSliderImageStore h now newID fs v r header c).1.body
        = .slider message slide →
      slide.ImageURL = SliderHandler.fullImageURL
        ("/uploads/slider/" ++ ("slider_" ++ formatInt (Unix now) ++ Ext header.Filename))
        (getBaseURL r c)) := by
  refine ⟨rfl, rfl, rfl, rfl, ?_, ?_⟩
  · intro message url hbody
    unfold ProductHandler.UploadProductImageStore at hbody
    simp only [] at hbody
    split at hbody
    · simp [Context.JSON] at hbody
    · split at hbody
      · simp [Context.JSON] at hbody
      · split at hbody
        · simp [Context.JSON] at hbody
        · split at hbody
          · simp [Context.JSON] at hbody
          · split at hbody
            · simp [Context.JSON] at hbody
            · split at hbody
              · rename_i e he
                simp only [Context.JSON, Body.imageUploaded.injEq] at hbody
                rw [he, ← hbody.2]
                rfl
              · rename_i q hq
                split at hbody
                · simp [Context.JSON] at hbody
                · simp only [Context.JSON, Body.imageUploaded.injEq] at hbody
                  rw [hq, ← hbody.2]
                  rfl
  · intro message slide hbody
    unfold SliderHandler.UploadSliderImageStore at hbody
    simp only [] at hbody
    split at hbody
    · simp [Context.JSON] at hbody
    · split at hbody
      · simp [Context.JSON] at hbody
      · split at hbody
        · split at hbody
          · simp [Context.JSON] at hbody
          · split at hbody
            · simp [Context.JSON] at hbody
            · simp only [Context.JSON, Body.slider.injEq] at hbody
              rw [← hbody.2]
              rfl
        · simp [Context.JSON, Context.Abort] at hbody

/-- C25 at work: an upload for a product that cannot be fetched back afterwards, and an
upload of a slider image, both on the host `shop.example`. -/
theorem url_resolution_agrees_witness :
    (ProductHandler.UploadProductImageStore 1700000000000000000 ⟨none, none⟩
        ⟨.ok ⟨1, 1⟩, .error .ErrNoDocuments⟩
        ⟨"shop.example", false, [], [("id", "507f1f77bcf86cd799439011")], none, none⟩
        ⟨"507f1f77bcf86cd799439011"⟩ ⟨"photo.PNG", 10⟩
        ((newContext ⟨"POST", "/upload", []⟩).Set "user_id"
          (.str "507f1f77bcf86cd799439012"))).body
      = .imageUploaded "Image uploaded successfully"
          "http://shop.example/uploads/products/507f1f77bcf86cd799439011_1700000000.PNG" ∧
    (Product.ToResponseWithBaseURL
        ⟨⟨"507f1f77bcf86cd799439011"⟩, "Lamp", ⟨0⟩, CategoryHome,
          "/uploads/products/507f1f77bcf86cd799439011_1700000000.PNG", "A desk lamp", "",
          "", true, ⟨"507f1f77bcf86cd799439012"⟩, 0, 0⟩ "http://shop.example").ImageURL
      = "http://shop.example/uploads/products/507f1f77bcf86cd799439011_1700000000.PNG" ∧
    (SliderHandler.UploadSliderImageStore ⟨⟨[], []⟩⟩ 1700000000000000000
        ⟨"507f1f77bcf86cd799439013"⟩ ⟨none, none⟩ ⟨none, none⟩
        ⟨"shop.example", false, [], [("id", "507f1f77bcf86cd799439011")], none, none⟩
        ⟨"photo.PNG", 10⟩
        ((newContext ⟨"POST", "/upload", []⟩).Set "user_id"
          (.str "507f1f77bcf86cd799439012"))).1.body
      = .slider "Image uploaded successfully"
          ⟨"507f1f77bcf86cd799439013",
            "http://shop.example/uploads/slider/slider_1700000000.PNG", 0,
            1700000000000000000, 1700000000000000000⟩ ∧
    SliderHandler.fullImageURL "/uploads/slider/slider_1700000000.PNG" "http://shop.example"
      = "http://shop.example/uploads/slider/slider_1700000000.PNG" :=
  have h := url_resolution_agrees "" ""
    ⟨⟨"507f1f77bcf86cd799439011"⟩, "Lamp", ⟨0⟩, CategoryHome, "", "A desk lamp", "", "",
      true, ⟨"507f1f77bcf86cd799439012"⟩, 0, 0⟩
    ⟨⟨"507f1f77bcf86cd799439013"⟩, "", 0, ⟨"507f1f77bcf86cd799439012"⟩, 0, 0⟩
    1700000000000000000 ⟨none, none⟩ ⟨.ok ⟨1, 1⟩, .error .ErrNoDocuments⟩ ⟨none, none⟩
    ⟨⟨[], []⟩⟩ ⟨"507f1f77bcf86cd799439013"⟩ ⟨"507f1f77bcf86cd799439011"⟩
    ⟨"shop.example", false, [], [("id", "507f1f77bcf86cd799439011")], none, none⟩
    ⟨"photo.PNG", 10⟩
    ((newContext ⟨"POST", "/upload", []⟩).Set "user_id" (.str "507f1f77bcf86cd799439012"))
  ⟨by decide,
    (h.2.2.2.2.1 "Image uploaded successfully"
      "http://shop.example/uploads/products/507f1f77bcf86cd799439011_1700000000.PNG"
      (by decide)).symm,
    by decide,
    (h.2.2.2.2.2 "Image uploaded successfully"
      ⟨"507f1f77bcf86cd799439013",
        "http://shop.example/uploads/slider/slider_1700000000.PNG", 0,
        1700000000000000000, 1700000000000000000⟩ (by decide)).symm⟩

/-! ### The skip of the product listing -/

theorem skipOf_exact (r : Incoming)
    (h : (ProductHandler.pageOf r - 1) * ProductHandler.limitOf r ≤ maxInt) :
    ProductHandler.skipOf r = (ProductHandler.pageOf r - 1) * ProductHandler.limitOf r ∧
    0 ≤ ProductHandler.skipOf r := by
  have hp : 1 ≤ ProductHandler.pageOf r ∧ ProductHandler.pageOf r ≤ maxInt := by
    have := Atoi_range (r.DefaultQuery "page" "1")
    unfold ProductHandler.pageOf
    simp only [maxInt, minInt] at *
    split_ifs <;> omega
  have hl : 1 ≤ ProductHandler.limitOf r := by
    unfold ProductHandler.limitOf
    simp only []
    split_ifs <;> omega
  have h1 : wrapInt (ProductHandler.pageOf r - 1) = ProductHandler.pageOf r - 1 := by
    simp only [maxInt] at hp
    unfold wrapInt
    omega
  have h0 : 0 ≤ (ProductHandler.pageOf r - 1) * ProductHandler.limitOf r :=
    Int.mul_nonneg (by omega) (by omega)
  unfold ProductHandler.skipOf
  rw [h1]
  generalize (ProductHandler.pageOf r - 1) * ProductHandler.limitOf r = y at h h0 ⊢
  simp only [maxInt] at h
  unfold wrapInt
  omega

/-- C24, the code at the failing inputs: for the query `page=6148914691236517207&limit=3`
the effective page and limit are the numbers of the query, `(page - 1) * limit` is
18446744073709551618 as a product of integers, and the skip that `GetProducts` passes to
the database is 2: on a collection of three products the request is answered 200 with the
oldest product as the content of that page. For the query
`page=9223372036854775807&limit=100` the skip is -200, which the database refuses, and
the request is answered 500. -/
theorem skip_wraps_around :
    ProductHandler.pageOf
      ⟨"", false, [("page", "6148914691236517207"), ("limit", "3")], [], none, none⟩
      = 6148914691236517207 ∧
    ProductHandler.limitOf
      ⟨"", false, [("page", "6148914691236517207"), ("limit", "3")], [], none, none⟩ = 3 ∧
    (ProductHandler.pageOf
        ⟨"", false, [("page", "6148914691236517207"), ("limit", "3")], [], none, none⟩ - 1)
      * ProductHandler.limitOf
        ⟨"", false, [("page", "6148914691236517207"), ("limit", "3")], [], none, none⟩
      = 18446744073709551618 ∧
    ProductHandler.skipOf
      ⟨"", false, [("page", "6148914691236517207"), ("limit", "3")], [], none, none⟩ = 2 ∧
    ProductHandler.GetProducts
      ⟨⟨[⟨⟨"507f1f77bcf86cd799439011"⟩, "Lamp", ⟨0⟩, CategoryHome, "", "A desk lamp", "",
            "", true, ⟨"507f1f77bcf86cd799439010"⟩, 10, 10⟩,
          ⟨⟨"507f1f77bcf86cd799439012"⟩, "Ball", ⟨0⟩, CategorySports, "", "A foot ball", "",
            "", true, ⟨"507f1f77bcf86cd799439010"⟩, 20, 20⟩,
          ⟨⟨"507f1f77bcf86cd799439013"⟩, "Book", ⟨0⟩, CategoryBooks, "", "A good book", "",
            "", true, ⟨"507f1f77bcf86cd799439010"⟩, 30, 30⟩]⟩⟩
      ⟨"", false, [("page", "6148914691236517207"), ("limit", "3")], [], none, none⟩
      (newContext ⟨"GET", "/api/products", []⟩)
      = ((newContext ⟨"GET", "/api/products", []⟩).emit (.db "products" "CountDocuments")
          |>.emit (.db "products" "Find")).JSON 200
        (.productList
          [⟨"507f1f77bcf86cd799439011", "Lamp", ⟨0⟩, "home", "", "A desk lamp", "", "",
            true, 10, 10⟩] 3 6148914691236517207 3) ∧
    ProductHandler.pageOf
      ⟨"", false, [("page", "9223372036854775807"), ("limit", "100")], [], none, none⟩
      = 9223372036854775807 ∧
    ProductHandler.skipOf
      ⟨"", false, [("page", "9223372036854775807"), ("limit", "100")], [], none, none⟩
      = -200 ∧
    (ProductHandler.GetProducts ⟨⟨[]⟩⟩
      ⟨"", false, [("page", "9223372036854775807"), ("limit", "100")], [], none, none⟩
      (newContext ⟨"GET", "/api/products", []⟩)).status = some 500 := by
  decide

/-! ### Partial update of a product -/

theorem lookup_cons_eq (a k : String) (b : BSON) (es : Document) :
    List.lookup k ((a, b) :: es) = if k = a then some b else List.lookup k es := by
  by_cases h : k = a
  · subst h
    simp
  · have hb : (k == a) = false := by simpa using h
    rw [List.lookup_cons, hb, if_neg h]

theorem lookup_map_assign (m : Document) (k k' : String) (v : BSON) :
    (m.map (fun kv => if kv.1 = k then (k, v) else kv)).lookup k'
      = if k' = k then (if m.any (fun kv => kv.1 = k) then some v else none)
        else m.lookup k' := by
  induction m with
  | nil => simp
  | cons kv m ih =>
    obtain ⟨a, b⟩ := kv
    by_cases hak : a = k
    · subst hak
      simp only [List.map_cons, if_true, lookup_cons_eq, ih, List.any_cons, decide_True,
        Bool.true_or]
      by_cases hk : k' = a <;> simp [hk]
    · simp only [List.map_cons, hak, if_false, lookup_cons_eq, ih, List.any_cons,
        decide_False, Bool.false_or]
      by_cases hk : k' = k
      · subst hk
        have : ¬ k' = a := fun e => hak e.symm
        simp [this]
      · simp [hk]

theorem lookup_append_absent (m : Document) (k k' : String) (v : BSON)
    (h : m.any (fun kv => kv.1 = k) = false) :
    (m ++ [(k, v)]).lookup k' = if k' = k then some v else m.lookup k' := by
  induction m with
  | nil => simp [lookup_cons_eq]
  | cons kv m ih =>
    obtain ⟨a, b⟩ := kv
    simp only [List.any_cons, Bool.or_eq_false_iff, decide_eq_false_iff_not] at h
    simp only [List.cons_append, lookup_cons_eq, ih h.2]
    by_cases hk : k' = k
    · subst hk
      have : ¬ k' = a := fun e => h.1 e.symm
      simp [this]
    · simp [hk]

theorem lookup_assign (m : Document) (k k' : String) (v : BSON) :
    (m.assign k v).lookup k' = if k' = k then some v else m.lookup k' := by
  unfold Document.assign
  by_cases h : m.any (fun kv => kv.1 = k) = true
  · rw [if_pos h, lookup_map_assign, if_pos h]
  · rw [if_neg h]
    exact lookup_append_absent m k k' v (Bool.eq_false_iff.2 h)

theorem lookup_assignIf (m : Document) (k k' : String) (o : Option BSON) :
    (m.assignIf k o).lookup k' = if k' = k then o.orElse (fun _ => m.lookup k) else m.lookup k' := by
  cases o with
  | none => by_cases hk : k' = k <;> simp [Document.assignIf, hk]
  | some v => simp [Document.assignIf, lookup_assign]

theorem keys_assign (m : Document) (k : String) (v : BSON) :
    (m.assign k v).map Prod.fst
      = if k ∈ m.map Prod.fst then m.map Prod.fst else m.map Prod.fst ++ [k] := by
  unfold Document.assign
  by_cases h : m.any (fun kv => kv.1 = k) = true
  · have hmem : k ∈ m.map Prod.fst := by
      simp only [List.any_eq_true, decide_eq_true_eq] at h
      obtain ⟨kv, hkv, rfl⟩ := h
      exact List.mem_map_of_mem _ hkv
    rw [if_pos h, if_pos hmem, List.map_map]
    apply List.map_congr_left
    intro kv _
    by_cases e : kv.1 = k <;> simp [e]
  · have hmem : k ∉ m.map Prod.fst := by
      intro hm
      apply h
      simp only [List.mem_map] at hm
      obtain ⟨kv, hkv, rfl⟩ := hm
      simp only [List.any_eq_true, decide_eq_true_eq]
      exact ⟨kv, hkv, rfl⟩
    rw [if_neg h, if_neg hmem]
    simp

theorem keys_assignIf_subset (m : Document) (k : String) (o : Option BSON) (keys : List String)
    (hk : k ∈ keys) (hm : ∀ x ∈ m.map Prod.fst, x ∈ keys) :
    ∀ x ∈ (m.assignIf k o).map Prod.fst, x ∈ keys := by
  cases o with
  | none => exact hm
  | some v =>
    intro x hx
    simp only [Document.assignIf, keys_assign] at hx
    split_ifs at hx
    · exact hm x hx
    · rcases List.mem_append.1 hx with h | h
      · exact hm x h
      · simp only [List.mem_singleton] at h
        exact h ▸ hk

theorem keys_assignIf_nodup (m : Document) (k : String) (o : Option BSON)
    (hm : (m.map Prod.fst).Nodup) : ((m.assignIf k o).map Prod.fst).Nodup := by
  cases o with
  | none => exact hm
  | some v =>
    simp only [Document.assignIf, keys_assign]
    split_ifs with h
    · exact hm
    · exact List.Nodup.append hm (List.nodup_singleton k) (by simpa using h)

theorem keys_assign_subset (m : Document) (k : String) (v : BSON) (keys : List String)
    (hk : k ∈ keys) (hm : ∀ x ∈ m.map Prod.fst, x ∈ keys) :
    ∀ x ∈ (m.assign k v).map Prod.fst, x ∈ keys :=
  keys_assignIf_subset m k (some v) keys hk hm

theorem keys_assign_nodup (m : Document) (k : String) (v : BSON)
    (hm : (m.map Prod.fst).Nodup) : ((m.assign k v).map Prod.fst).Nodup :=
  keys_assignIf_nodup m k (some v) hm

theorem updateDocument_none_iff (now : Int) (req : UpdateProductRequest) :
    ProductHandler.updateDocument now req = none ↔
      ∃ category, req.Category = some category ∧ IsValidCategory category = false := by
  obtain ⟨name, price, category, description, specification, material, inStock⟩ := req
  unfold ProductHandler.updateDocument
  cases category with
  | none =>
    simp only []
    simp
  | some cat =>
    simp only []
    cases hc : IsValidCategory cat <;> simp [hc]

theorem updateDocument_some (now : Int) (req : UpdateProductRequest) (set : Document)
    (h : ProductHandler.updateDocument now req = some set) :
    set.lookup "updated_at" = some (.dateTime now) ∧
    set.lookup "name" = req.Name.map BSON.string ∧
    set.lookup "price" = req.Price.map BSON.double ∧
    set.lookup "category" = req.Category.map BSON.string ∧
    set.lookup "description" = req.Description.map BSON.string ∧
    set.lookup "specification" = req.Specification.map BSON.string ∧
    set.lookup "material" = req.Material.map BSON.string ∧
    set.lookup "in_stock" = req.InStock.map BSON.bool ∧
    (∀ key ∈ set.map Prod.fst, key ∈ ["updated_at", "name", "price", "category",
      "description", "specification", "material", "in_stock"]) ∧
    (set.map Prod.fst).Nodup := by
  obtain ⟨name, price, category, description, specification, material, inStock⟩ := req
  unfold ProductHandler.updateDocument at h
  cases category with
  | none =>
    simp only [Option.some.injEq] at h
    subst h
    refine ⟨?_, ?_, ?_, ?_, ?_, ?_, ?_, ?_, ?_, ?_⟩
    any_goals (simp [lookup_assignIf, lookup_cons_eq]; done)
    · repeat apply keys_assignIf_subset _ _ _ _ (by decide)
      simp
    · repeat apply keys_assignIf_nodup
      simp
  | some cat =>
    cases hc : IsValidCategory cat with
    | false => simp [hc] at h
    | true =>
      simp only [hc, not_true_eq_false, if_false, Option.some.injEq] at h
      subst h
      refine ⟨?_, ?_, ?_, ?_, ?_, ?_, ?_, ?_, ?_, ?_⟩
      any_goals (simp [lookup_assignIf, lookup_assign, lookup_cons_eq]; done)
      · repeat apply keys_assignIf_subset _ _ _ _ (by decide)
        apply keys_assign_subset _ _ _ _ (by decide)
        repeat apply keys_assignIf_subset _ _ _ _ (by decide)
        simp
      · repeat apply keys_assignIf_nodup
        apply keys_assign_nodup
        repeat apply keys_assignIf_nodup
        simp

theorem UpdateProductBody_bound (validate : UpdateProductRequest → Option String)
    (now : Int) (w : ProductCalls) (r : Incoming) (c : Context) (objID : ObjectID)
    (req : UpdateProductRequest)
    (hid : ObjectIDFromHex (r.Param "id") = some objID)
    (hbind : ShouldBindJSONUpdateProduct r.Payload = .ok req)
    (hval : validate req = none) :
    ProductHandler.UpdateProductBody validate now w r c =
      match ProductHandler.updateDocument now req with
      | none => c.JSON 400 (.error "Invalid category")
      | some set =>
        let c := c.emit (.updateOne "products" [("_id", .objectID objID)] set false)
        match w.UpdateOne with
        | .error _ => c.JSON 500 (.error "Failed to update product")
        | .ok result =>
          if result.MatchedCount = 0 then c.JSON 404 (.error "Product not found")
          else
            let c := c.emit (.db "products" "FindOne")
            match w.FindOne with
            | .error _ => c.JSON 500 (.error "Failed to fetch updated product")
            | .ok updatedProduct =>
              c.JSON 200 (.product "Product updated successfully"
                (updatedProduct.ToResponseWithBaseURL (getBaseURL r c))) := by
  unfold ProductHandler.UpdateProductBody
  simp only [hid, hbind, hval]

/-- C21 (partial update frame): for an administrator's request on a valid product ID that
is bound to an `UpdateProductRequest` which passes the validator, `UpdateProduct` answers
400 `Invalid category` and sends nothing to the database (the effects are those before the
call) when the category is given and fails `IsValidCategory`; otherwise it sends exactly
one `UpdateOne`, on that ID and without upsert, whose `$set` document has `updated_at`
with the time of the call and, for each of `name`, `price`, `category`, `description`,
`specification`, `material`, `in_stock`, has that key, with the value of the request,
exactly when the field of the request is not `nil`; the document has no other key and no
key twice; the only other call on the database is the `FindOne` that fetches the product
back. -/
theorem partial_update_frame (validate : UpdateProductRequest → Option String) (now : Int)
    (w : ProductCalls) (r : Incoming) (c : Context) (objID : ObjectID)
    (req : UpdateProductRequest)
    (hadmin : c.Get "user_role" = some (Any.str "admin"))
    (hid : ObjectIDFromHex (r.Param "id") = some objID)
    (hbind : ShouldBindJSONUpdateProduct r.Payload = .ok req)
    (hval : validate req = none) :
    ((∃ category, req.Category = some category ∧ IsValidCategory category = false) →
      ProductHandler.UpdateProduct (ProductHandler.UpdateProductBody validate now w r) c
        = c.JSON 400 (.error "Invalid category")) ∧
    ((∀ category, req.Category = some category → IsValidCategory category = true) →
      ∃ set more,
        (ProductHandler.UpdateProduct
            (ProductHandler.UpdateProductBody validate now w r) c).effects
          = c.effects ++
            Effect.updateOne "products" [("_id", .objectID objID)] set false :: more ∧
        (∀ e ∈ more, e = Effect.db "products" "FindOne") ∧
        set.lookup "updated_at" = some (.dateTime now) ∧
        set.lookup "name" = req.Name.map BSON.string ∧
        set.lookup "price" = req.Price.map BSON.double ∧
        set.lookup "category" = req.Category.map BSON.string ∧
        set.lookup "description" = req.Description.map BSON.string ∧
        set.lookup "specification" = req.Specification.map BSON.string ∧
        set.lookup "material" = req.Material.map BSON.string ∧
        set.lookup "in_stock" = req.InStock.map BSON.bool ∧
        (∀ key ∈ set.map Prod.fst, key ∈ ["updated_at", "name", "price", "category",
          "description", "specification", "material", "in_stock"]) ∧
        (set.map Prod.fst).Nodup) := by
  have hgate : ProductHandler.UpdateProduct
      (ProductHandler.UpdateProductBody validate now w r) c
      = ProductHandler.UpdateProductBody validate now w r c :=
    adminCheck_pass c _ hadmin
  rw [hgate, UpdateProductBody_bound validate now w r c objID req hid hbind hval]
  constructor
  · intro hbad
    rw [(updateDocument_none_iff now req).2 hbad]
  · intro hgood
    cases hdoc : ProductHandler.updateDocument now req with
    | none =>
      obtain ⟨category, h1, h2⟩ := (updateDocument_none_iff now req).1 hdoc
      rw [hgood category h1] at h2
      cases h2
    | some set =>
      have hset := updateDocument_some now req set hdoc
      simp only []
      cases hu : w.UpdateOne with
      | error e => exact ⟨set, [], by simp [Context.JSON, Context.emit], by simp, hset⟩
      | ok result =>
        by_cases hm : result.MatchedCount = 0
        · exact ⟨set, [], by simp [hm, Context.JSON, Context.emit], by simp, hset⟩
        · cases hf : w.FindOne with
          | error e =>
            exact ⟨set, [.db "products" "FindOne"],
              by simp [hm, Context.JSON, Context.emit], by simp, hset⟩
          | ok updatedProduct =>
            exact ⟨set, [.db "products" "FindOne"],
              by simp [hm, Context.JSON, Context.emit], by simp, hset⟩

/-- C21 at work: an administrator sends `{"name":"Lamp","category":"home","in_stock":false}`
for a product, and then the same with the category `gadgets`. -/
theorem partial_update_frame_witness :
    ObjectIDFromHex "507f1f77bcf86cd799439011" = some ⟨"507f1f77bcf86cd799439011"⟩ ∧
    ShouldBindJSONUpdateProduct (some [("name", .string "Lamp"),
        ("category", .string "home"), ("in_stock", .bool false)])
      = .ok ⟨some "Lamp", none, some "home", none, none, none, some false⟩ ∧
    (∃ set more,
      (ProductHandler.UpdateProduct
          (ProductHandler.UpdateProductBody (fun _ => none) 100
            ⟨.ok ⟨1, 1⟩, .error (.other "timeout")⟩
            ⟨"", false, [], [("id", "507f1f77bcf86cd799439011")],
              some [("name", .string "Lamp"), ("category", .string "home"),
                ("in_stock", .bool false)], none⟩)
          ((newContext ⟨"PUT", "/api/products/507f1f77bcf86cd799439011", []⟩).Set
            "user_role" (.str "admin"))).effects
        = Effect.updateOne "products"
            [("_id", .objectID ⟨"507f1f77bcf86cd799439011"⟩)] set false :: more ∧
      set.lookup "name" = some (.string "Lamp") ∧ set.lookup "price" = none ∧
      set.lookup "category" = some (.string "home") ∧
      set.lookup "in_stock" = some (.bool false)) ∧
    ProductHandler.UpdateProduct
        (ProductHandler.UpdateProductBody (fun _ => none) 100
          ⟨.ok ⟨1, 1⟩, .error (.other "timeout")⟩
          ⟨"", false, [], [("id", "507f1f77bcf86cd799439011")],
            some [("name", .string "Lamp"), ("category", .string "gadgets"),
              ("in_stock", .bool false)], none⟩)
        ((newContext ⟨"PUT", "/api/products/507f1f77bcf86cd799439011", []⟩).Set
          "user_role" (.str "admin"))
      = ((newContext ⟨"PUT", "/api/products/507f1f77bcf86cd799439011", []⟩).Set
          "user_role" (.str "admin")).JSON 400 (.error "Invalid category") := by
  refine ⟨by decide, by decide, ?_, ?_⟩
  · obtain ⟨set, more, heff, _, _, hname, hprice, hcategory, _, _, _, hstock, _, _⟩ :=
      (partial_update_frame (fun _ => none) 100 ⟨.ok ⟨1, 1⟩, .error (.other "timeout")⟩
        ⟨"", false, [], [("id", "507f1f77bcf86cd799439011")],
          some [("name", .string "Lamp"), ("category", .string "home"),
            ("in_stock", .bool false)], none⟩
        ((newContext ⟨"PUT", "/api/products/507f1f77bcf86cd799439011", []⟩).Set
          "user_role" (.str "admin"))
        ⟨"507f1f77bcf86cd799439011"⟩
        ⟨some "Lamp", none, some "home", none, none, none, some false⟩
        (by decide) (by decide) (by decide) rfl).2
        (by
          intro category hc
          cases hc
          decide)
    exact ⟨set, more, heff, hname, hprice, hcategory, hstock⟩
  · exact (partial_update_frame (fun _ => none) 100 ⟨.ok ⟨1, 1⟩, .error (.other "timeout")⟩
      ⟨"", false, [], [("id", "507f1f77bcf86cd799439011")],
        some [("name", .string "Lamp"), ("category", .string "gadgets"),
          ("in_stock", .bool false)], none⟩
      ((newContext ⟨"PUT", "/api/products/507f1f77bcf86cd799439011", []⟩).Set
        "user_role" (.str "admin"))
      ⟨"507f1f77bcf86cd799439011"⟩
      ⟨some "Lamp", none, some "gadgets", none, none, none, some false⟩
      (by decide) (by decide) (by decide) rfl).1 ⟨"gadgets", rfl, by decide⟩

/-! ### Slide duration -/

/-- C22, the code at the failing input: on an empty collection `slider_settings`, an
administrator's `UpdateSliderSettings` with the body `{"auto_play": false}` passes the
validator (`omitempty` lets the absent duration pass) and is answered 200; the upsert
inserts a document that has the update time and `auto_play` and no `slide_duration`. In
that state, which is reachable, `GetSliderSettings` and `GetSliders` are answered 200 with
the slide duration 0, and `GetSliders` leaves the document as it is. -/
theorem upsert_leaves_duration_unset :
    validateUpdateSliderSettings ⟨none, some false, none, none⟩ = none ∧
    (SliderHandler.UpdateSliderSettingsBody validateUpdateSliderSettings ⟨⟨[], []⟩⟩
        1700000000000000000 ⟨"65a000000000000000000001"⟩
        (.ok ⟨none, some false, none, none⟩)
        ((newContext ⟨"PUT", "/api/admin/slider/settings", []⟩).Set "user_role"
          (.str "admin"))).1.status = some 200 ∧
    (SliderHandler.UpdateSliderSettingsBody validateUpdateSliderSettings ⟨⟨[], []⟩⟩
        1700000000000000000 ⟨"65a000000000000000000001"⟩
        (.ok ⟨none, some false, none, none⟩)
        ((newContext ⟨"PUT", "/api/admin/slider/settings", []⟩).Set "user_role"
          (.str "admin"))).1.body
      = .settingsUpdated "Settings updated successfully"
          ⟨0, false, false, false, 1700000000000000000⟩ ∧
    (SliderHandler.UpdateSliderSettingsBody validateUpdateSliderSettings ⟨⟨[], []⟩⟩
        1700000000000000000 ⟨"65a000000000000000000001"⟩
        (.ok ⟨none, some false, none, none⟩)
        ((newContext ⟨"PUT", "/api/admin/slider/settings", []⟩).Set "user_role"
          (.str "admin"))).2
      = ⟨[], [[("_id", .objectID ⟨"65a000000000000000000001"⟩),
          ("updated_at", .dateTime 1700000000000000000), ("auto_play", .bool false)]]⟩ ∧
    SettingsReachable
      ⟨[], [[("_id", .objectID ⟨"65a000000000000000000001"⟩),
        ("updated_at", .dateTime 1700000000000000000), ("auto_play", .bool false)]]⟩ ∧
    SliderHandler.GetSliderSettings
        (SliderHandler.GetSliderSettingsBody
          ⟨⟨[], [[("_id", .objectID ⟨"65a000000000000000000001"⟩),
            ("updated_at", .dateTime 1700000000000000000), ("auto_play", .bool false)]]⟩⟩
          1700000060000000000)
        ((newContext ⟨"GET", "/api/admin/slider/settings", []⟩).Set "user_role"
          (.str "admin"))
      = (((newContext ⟨"GET", "/api/admin/slider/settings", []⟩).Set "user_role"
          (.str "admin")).emit (.db "slider_settings" "FindOne")).JSON 200
          (.settings ⟨0, false, false, false, 1700000000000000000⟩) ∧
    (SliderHandler.GetSliders
        ⟨⟨[], [[("_id", .objectID ⟨"65a000000000000000000001"⟩),
          ("updated_at", .dateTime 1700000000000000000), ("auto_play", .bool false)]]⟩⟩
        1700000060000000000 ⟨"65a000000000000000000002"⟩
        ⟨"", false, [], [], none, none⟩ (newContext ⟨"GET", "/api/slider", []⟩)).1.status
      = some 200 ∧
    (SliderHandler.GetSliders
        ⟨⟨[], [[("_id", .objectID ⟨"65a000000000000000000001"⟩),
          ("updated_at", .dateTime 1700000000000000000), ("auto_play", .bool false)]]⟩⟩
        1700000060000000000 ⟨"65a000000000000000000002"⟩
        ⟨"", false, [], [], none, none⟩ (newContext ⟨"GET", "/api/slider", []⟩)).1.body
      = .sliders [] ⟨0, false, false, false, 1700000000000000000⟩ 0 ∧
    (SliderHandler.GetSliders
        ⟨⟨[], [[("_id", .objectID ⟨"65a000000000000000000001"⟩),
          ("updated_at", .dateTime 1700000000000000000), ("auto_play", .bool false)]]⟩⟩
        1700000060000000000 ⟨"65a000000000000000000002"⟩
        ⟨"", false, [], [], none, none⟩ (newContext ⟨"GET", "/api/slider", []⟩)).2
      = ⟨[], [[("_id", .objectID ⟨"65a000000000000000000001"⟩),
          ("updated_at", .dateTime 1700000000000000000), ("auto_play", .bool false)]]⟩ := by
  have h := SettingsReachable.UpdateSliderSettings ⟨[], []⟩ 1700000000000000000
    ⟨"65a000000000000000000001"⟩ (.ok ⟨none, some false, none, none⟩)
    ((newContext ⟨"PUT", "/api/admin/slider/settings", []⟩).Set "user_role" (.str "admin"))
    (SettingsReachable.empty [])
  exact ⟨by decide, by decide, by decide, by decide, h, by decide, by decide, by decide,
    by decide⟩

/-! ### Order of the sliders -/

theorem UploadSliderImageStore_order (h : SliderHandler) (now : Int) (newID : ObjectID)
    (fs : FileCalls) (w : SliderCalls) (r : Incoming) (header : FileHeader) (c : Context)
    (hok : (SliderHandler.UploadSliderImageStore h now newID fs w r header c).1.status
      = some 200) :
    ∃ s, (SliderHandler.UploadSliderImageStore h now newID fs w r header c).2.slider
        = h.db.slider ++ [s] ∧
      s.ID = newID ∧
      s.Order = (match w.CountDocuments with
        | none => (h.db.slider.length : Int)
        | some _ => 0) := by
  unfold SliderHandler.UploadSliderImageStore at hok ⊢
  simp only [] at hok ⊢
  split at hok
  · simp [Context.JSON] at hok
  · split at hok
    · simp [Context.JSON] at hok
    · split at hok
      · split at hok
        · simp [Context.JSON] at hok
        · split at hok
          · simp [Context.JSON] at hok
          · rename_i db hins
            simp only [*]
            unfold SliderStore.InsertOne at hins
            split at hins
            · cases hins
            · split at hins
              · cases hins
              · cases hins
                rename_i hnone _
                refine ⟨_, rfl, rfl, ?_⟩
                cases hcount : w.CountDocuments <;> simp [SliderStore.CountDocuments]
      · simp [Context.JSON, Context.Abort] at hok


/-- C23, the code at the failing input: an administrator uploads two slider images,
deletes the first and uploads a third, each call being answered 200. The third slider
gets the order 1, the number of sliders at that time, which the second slider has
already: the sliders of the reachable state have the orders 1 and 1. -/
theorem order_repeats_after_delete :
    (SliderHandler.UploadSliderImageStore
        ⟨⟨[], []⟩⟩
        1700000000000000000 ⟨"65a000000000000000000001"⟩ ⟨none, none⟩ ⟨none, none⟩
        ⟨"", false, [], [], none, some ⟨"a.png", 10⟩⟩ ⟨"a.png", 10⟩
        (((newContext ⟨"POST", "/api/admin/slider", []⟩).Set "user_id"
          (.str "507f1f77bcf86cd799439011")).Set "user_role" (.str "admin"))).1.status
      = some 200 ∧
    (SliderHandler.UploadSliderImageStore
        ⟨⟨[], []⟩⟩
        1700000000000000000 ⟨"65a000000000000000000001"⟩ ⟨none, none⟩ ⟨none, none⟩
        ⟨"", false, [], [], none, some ⟨"a.png", 10⟩⟩ ⟨"a.png", 10⟩
        (((newContext ⟨"POST", "/api/admin/slider", []⟩).Set "user_id"
          (.str "507f1f77bcf86cd799439011")).Set "user_role" (.str "admin"))).2
      = ⟨[⟨⟨"65a000000000000000000001"⟩, "/uploads/slider/slider_1700000000.png", 0,
            ⟨"507f1f77bcf86cd799439011"⟩, 1700000000000000000, 1700000000000000000⟩],
          []⟩ ∧
    (SliderHandler.UploadSliderImageStore
        ⟨⟨[⟨⟨"65a000000000000000000001"⟩, "/uploads/slider/slider_1700000000.png", 0,
            ⟨"507f1f77bcf86cd799439011"⟩, 1700000000000000000, 1700000000000000000⟩],
          []⟩⟩
        1700000060000000000 ⟨"65a000000000000000000002"⟩ ⟨none, none⟩ ⟨none, none⟩
        ⟨"", false, [], [], none, some ⟨"b.png", 10⟩⟩ ⟨"b.png", 10⟩
        (((newContext ⟨"POST", "/api/admin/slider", []⟩).Set "user_id"
          (.str "507f1f77bcf86cd799439011")).Set "user_role" (.str "admin"))).1.status
      = some 200 ∧
    (SliderHandler.UploadSliderImageStore
        ⟨⟨[⟨⟨"65a000000000000000000001"⟩, "/uploads/slider/slider_1700000000.png", 0,
            ⟨"507f1f77bcf86cd799439011"⟩, 1700000000000000000, 1700000000000000000⟩],
          []⟩⟩
        1700000060000000000 ⟨"65a000000000000000000002"⟩ ⟨none, none⟩ ⟨none, none⟩
        ⟨"", false, [], [], none, some ⟨"b.png", 10⟩⟩ ⟨"b.png", 10⟩
        (((newContext ⟨"POST", "/api/admin/slider", []⟩).Set "user_id"
          (.str "507f1f77bcf86cd799439011")).Set "user_role" (.str "admin"))).2
      = ⟨[⟨⟨"65a000000000000000000001"⟩, "/uploads/slider/slider_1700000000.png", 0,
            ⟨"507f1f77bcf86cd799439011"⟩, 1700000000000000000, 1700000000000000000⟩,
          ⟨⟨"65a000000000000000000002"⟩, "/uploads/slider/slider_1700000060.png", 1,
            ⟨"507f1f77bcf86cd799439011"⟩, 1700000060000000000, 1700000060000000000⟩],
          []⟩ ∧
    (SliderHandler.DeleteSliderBody
        ⟨⟨[⟨⟨"65a000000000000000000001"⟩, "/uploads/slider/slider_1700000000.png", 0,
            ⟨"507f1f77bcf86cd799439011"⟩, 1700000000000000000, 1700000000000000000⟩,
          ⟨⟨"65a000000000000000000002"⟩, "/uploads/slider/slider_1700000060.png", 1,
            ⟨"507f1f77bcf86cd799439011"⟩, 1700000060000000000, 1700000060000000000⟩],
          []⟩⟩
        ⟨"", false, [], [("id", "65a000000000000000000001")], none, none⟩
        (((newContext ⟨"DELETE", "/api/admin/slider/65a000000000000000000001", []⟩).Set
          "user_id" (.str "507f1f77bcf86cd799439011")).Set "user_role" (.str "admin"))).1.status
      = some 200 ∧
    (SliderHandler.DeleteSliderBody
        ⟨⟨[⟨⟨"65a000000000000000000001"⟩, "/uploads/slider/slider_1700000000.png", 0,
            ⟨"507f1f77bcf86cd799439011"⟩, 1700000000000000000, 1700000000000000000⟩,
          ⟨⟨"65a000000000000000000002"⟩, "/uploads/slider/slider_1700000060.png", 1,
            ⟨"507f1f77bcf86cd799439011"⟩, 1700000060000000000, 1700000060000000000⟩],
          []⟩⟩
        ⟨"", false, [], [("id", "65a000000000000000000001")], none, none⟩
        (((newContext ⟨"DELETE", "/api/admin/slider/65a000000000000000000001", []⟩).Set
          "user_id" (.str "507f1f77bcf86cd799439011")).Set "user_role" (.str "admin"))).2
      = ⟨[⟨⟨"65a000000000000000000002"⟩, "/uploads/slider/slider_1700000060.png", 1,
            ⟨"507f1f77bcf86cd799439011"⟩, 1700000060000000000, 1700000060000000000⟩],
          []⟩ ∧
    (SliderHandler.UploadSliderImageStore
        ⟨⟨[⟨⟨"65a000000000000000000002"⟩, "/uploads/slider/slider_1700000060.png", 1,
            ⟨"507f1f77bcf86cd799439011"⟩, 1700000060000000000, 1700000060000000000⟩],
          []⟩⟩
        1700000120000000000 ⟨"65a000000000000000000003"⟩ ⟨none, none⟩ ⟨none, none⟩
        ⟨"", false, [], [], none, some ⟨"c.png", 10⟩⟩ ⟨"c.png", 10⟩
        (((newContext ⟨"POST", "/api/admin/slider", []⟩).Set "user_id"
          (.str "507f1f77bcf86cd799439011")).Set "user_role" (.str "admin"))).1.status
      = some 200 ∧
    (SliderHandler.UploadSliderImageStore
        ⟨⟨[⟨⟨"65a000000000000000000002"⟩, "/uploads/slider/slider_1700000060.png", 1,
            ⟨"507f1f77bcf86cd799439011"⟩, 1700000060000000000, 1700000060000000000⟩],
          []⟩⟩
        1700000120000000000 ⟨"65a000000000000000000003"⟩ ⟨none, none⟩ ⟨none, none⟩
        ⟨"", false, [], [], none, some ⟨"c.png", 10⟩⟩ ⟨"c.png", 10⟩
        (((newContext ⟨"POST", "/api/admin/slider", []⟩).Set "user_id"
          (.str "507f1f77bcf86cd799439011")).Set "user_role" (.str "admin"))).1.body
      = .slider "Image uploaded successfully"
          ⟨"65a000000000000000000003",
            "http://localhost:8080/uploads/slider/slider_1700000120.png", 1,
            1700000120000000000, 1700000120000000000⟩ ∧
    (SliderHandler.UploadSliderImageStore
        ⟨⟨[⟨⟨"65a000000000000000000002"⟩, "/uploads/slider/slider_1700000060.png", 1,
            ⟨"507f1f77bcf86cd799439011"⟩, 1700000060000000000, 1700000060000000000⟩],
          []⟩⟩
        1700000120000000000 ⟨"65a000000000000000000003"⟩ ⟨none, none⟩ ⟨none, none⟩
        ⟨"", false, [], [], none, some ⟨"c.png", 10⟩⟩ ⟨"c.png", 10⟩
        (((newContext ⟨"POST", "/api/admin/slider", []⟩).Set "user_id"
          (.str "507f1f77bcf86cd799439011")).Set "user_role" (.str "admin"))).2
      = ⟨[⟨⟨"65a000000000000000000002"⟩, "/uploads/slider/slider_1700000060.png", 1,
            ⟨"507f1f77bcf86cd799439011"⟩, 1700000060000000000, 1700000060000000000⟩,
          ⟨⟨"65a000000000000000000003"⟩, "/uploads/slider/slider_1700000120.png", 1,
            ⟨"507f1f77bcf86cd799439011"⟩, 1700000120000000000, 1700000120000000000⟩],
          []⟩ ∧
    SlidersReachable
      ⟨[⟨⟨"65a000000000000000000002"⟩, "/uploads/slider/slider_1700000060.png", 1,
            ⟨"507f1f77bcf86cd799439011"⟩, 1700000060000000000, 1700000060000000000⟩,
          ⟨⟨"65a000000000000000000003"⟩, "/uploads/slider/slider_1700000120.png", 1,
            ⟨"507f1f77bcf86cd799439011"⟩, 1700000120000000000, 1700000120000000000⟩],
          []⟩ ∧
    ¬ (([⟨⟨"65a000000000000000000002"⟩, "/uploads/slider/slider_1700000060.png", 1,
            ⟨"507f1f77bcf86cd799439011"⟩, 1700000060000000000, 1700000060000000000⟩,
          ⟨⟨"65a000000000000000000003"⟩, "/uploads/slider/slider_1700000120.png", 1,
            ⟨"507f1f77bcf86cd799439011"⟩, 1700000120000000000, 1700000120000000000⟩] :
        List Slider).map fun s => s.Order).Nodup := by
  have h1 := SlidersReachable.UploadSliderImage ⟨[], []⟩ 1700000000000000000
    ⟨"65a000000000000000000001"⟩ ⟨none, none⟩ ⟨none, none⟩
    ⟨"", false, [], [], none, some ⟨"a.png", 10⟩⟩ ⟨"a.png", 10⟩
    (((newContext ⟨"POST", "/api/admin/slider", []⟩).Set "user_id"
      (.str "507f1f77bcf86cd799439011")).Set "user_role" (.str "admin"))
    (SlidersReachable.empty []) (by decide)
  have h2 := SlidersReachable.UploadSliderImage _ 1700000060000000000
    ⟨"65a000000000000000000002"⟩ ⟨none, none⟩ ⟨none, none⟩
    ⟨"", false, [], [], none, some ⟨"b.png", 10⟩⟩ ⟨"b.png", 10⟩
    (((newContext ⟨"POST", "/api/admin/slider", []⟩).Set "user_id"
      (.str "507f1f77bcf86cd799439011")).Set "user_role" (.str "admin"))
    h1 (by decide)
  have h3 := SlidersReachable.DeleteSlider _
    ⟨"", false, [], [("id", "65a000000000000000000001")], none, none⟩
    (((newContext ⟨"DELETE", "/api/admin/slider/65a000000000000000000001", []⟩).Set
      "user_id" (.str "507f1f77bcf86cd799439011")).Set "user_role" (.str "admin"))
    h2 (by decide)
  have h4 := SlidersReachable.UploadSliderImage _ 1700000120000000000
    ⟨"65a000000000000000000003"⟩ ⟨none, none⟩ ⟨none, none⟩
    ⟨"", false, [], [], none, some ⟨"c.png", 10⟩⟩ ⟨"c.png", 10⟩
    (((newContext ⟨"POST", "/api/admin/slider", []⟩).Set "user_id"
      (.str "507f1f77bcf86cd799439011")).Set "user_role" (.str "admin"))
    h3 (by decide)
  exact ⟨by decide, by decide, by decide, by decide, by decide, by decide, by decide,
    by decide, by decide, h4, by decide⟩

end Ecommerce
